import Mathlib

/-! # Thumb2 integer code generation (`src/compiler/codegen/arm/int_arm.cc`)

A shallow embedding of the lowering routines of `int_arm.cc` together with a
small operational model of the Thumb2 instructions they emit.

* Part 1 embeds the data model (`LIR` nodes, the compilation unit) and the
  routines of the file.  A routine is a state transformer over the
  `CompilationUnit`; a fatal `LOG(FATAL)` is the error branch of `Except`.
  Values that the register allocator and the value materialiser hand back
  (`AllocTemp`, `LoadValue`, `EvalLoc`, ...) are explicit arguments of the
  embedded routine, and every such collaborator call is recorded in the
  `calls` log of the compilation unit.
* Part 2 is the machine model: 32-bit words as naturals below `2^32`, the
  NZCV flags, the IT state of the predication extension, and a fuel-indexed
  executor for a block of emitted nodes.
* Part 3 holds the theorems.
-/

namespace Art

/-! ## Part 1a: enumerations and constants of the code generator -/

/-- Architecture-neutral comparison predicates (`ConditionCode`). -/
inductive ConditionCode
  | kCondEq | kCondNe | kCondCs | kCondCc | kCondMi | kCondPl | kCondVs | kCondVc
  | kCondHi | kCondLs | kCondGe | kCondLt | kCondGt | kCondLe | kCondAl | kCondNv
  deriving DecidableEq, Repr

/-- Modelled from the spec: the ISA condition-code encoding (`ArmConditionCode`,
declared in `arm_lir.h`, which is not among the sources).  The numbering is the
architectural one, in which an odd code is the negation of the even code
before it. -/
inductive ArmConditionCode
  | kArmCondEq | kArmCondNe | kArmCondCs | kArmCondCc | kArmCondMi | kArmCondPl
  | kArmCondVs | kArmCondVc | kArmCondHi | kArmCondLs | kArmCondGe | kArmCondLt
  | kArmCondGt | kArmCondLe | kArmCondAl | kArmCondNv
  deriving DecidableEq, Repr

/-- Numeric value of an `ArmConditionCode` enumerator. -/
def ArmConditionCode.toNat : ArmConditionCode → Nat
  | .kArmCondEq => 0 | .kArmCondNe => 1 | .kArmCondCs => 2 | .kArmCondCc => 3
  | .kArmCondMi => 4 | .kArmCondPl => 5 | .kArmCondVs => 6 | .kArmCondVc => 7
  | .kArmCondHi => 8 | .kArmCondLs => 9 | .kArmCondGe => 10 | .kArmCondLt => 11
  | .kArmCondGt => 12 | .kArmCondLe => 13 | .kArmCondAl => 14 | .kArmCondNv => 15

/-- Modelled from the spec: `ArmConditionEncoding`, the total translation of a
predicate to the condition-code encoding (defined outside `int_arm.cc`). -/
def ArmConditionEncoding : ConditionCode → ArmConditionCode
  | .kCondEq => .kArmCondEq | .kCondNe => .kArmCondNe | .kCondCs => .kArmCondCs
  | .kCondCc => .kArmCondCc | .kCondMi => .kArmCondMi | .kCondPl => .kArmCondPl
  | .kCondVs => .kArmCondVs | .kCondVc => .kArmCondVc | .kCondHi => .kArmCondHi
  | .kCondLs => .kArmCondLs | .kCondGe => .kArmCondGe | .kCondLt => .kArmCondLt
  | .kCondGt => .kArmCondGt | .kCondLe => .kArmCondLe | .kCondAl => .kArmCondAl
  | .kCondNv => .kArmCondNv

/-- The machine opcodes that `int_arm.cc` names when it creates a node itself. -/
inductive ArmOpcode
  | kPseudoTargetLabel
  | kThumb2It | kThumb2MovImmShift | kThumb2Cbz | kThumb2Cbnz
  | kThumbCmpRI8 | kThumb2CmpRI8 | kThumbBCond
  | kThumbMovRR | kThumbMovRR_H2H | kThumbMovRR_H2L | kThumbMovRR_L2H
  | kThumb2Fmdrr | kThumb2Fmrrd | kThumb2Smull
  | kThumb2Ldrex | kThumb2Strex | kThumb2LdrPcRel12
  | kThumb2Vldms | kThumb2Vstms | kThumb2OrrRRRs
  | kThumbSubRI8 | kThumb2SubsRRI12 | kThumb2Dmb
  deriving DecidableEq, Repr

/-- Abstract operation kinds passed to the `OpRegReg` family of helpers. -/
inductive OpKind
  | kOpMov | kOpCmp | kOpAdd | kOpSub | kOpSbc | kOpRsub | kOpNeg
  | kOpXor | kOpAsr | kOpLsl
  deriving DecidableEq, Repr

/-- Abstract memory-barrier kinds (`MemBarrierKind`). -/
inductive MemBarrierKind
  | kLoadStore | kLoadLoad | kStoreStore | kStoreLoad
  deriving DecidableEq, Repr

/-- Modelled from the spec: the two hardware barrier strengths used by
`GenMemBarrier`, the full barrier `kSY` and the store-only barrier `kST`, with
the option values of the `dmb` instruction (declared in `arm_lir.h`). -/
def kSY : Int := 15

/-- Modelled from the spec: the store-only barrier option (see `kSY`). -/
def kST : Int := 14

/-- Modelled from the spec: `ENCODE_ALL`, the resource mask that marks a node
as constraining all machine state (`~0ULL` in `arm_lir.h`). -/
def ENCODE_ALL : Nat := 2 ^ 64 - 1

/-- Kinds of exception a check can raise (`ThrowKind`). -/
inductive ThrowKind
  | kThrowNullPointer | kThrowDivZero | kThrowArrayBounds | kThrowNoSuchMethod
  | kThrowStackOverflow
  deriving DecidableEq, Repr

/-- Register classes requested from the value materialiser. -/
inductive RegisterClass
  | kCoreReg | kFPReg | kAnyReg
  deriving DecidableEq, Repr

/-- Algorithm variants of the magic-divisor table (`DividePattern`). -/
inductive DividePattern
  | DivideNone | Divide3 | Divide5 | Divide7
  deriving DecidableEq, Repr

/-- Modelled from the spec: the shift kinds of the flexible second operand
(`ArmShiftEncodings` of `arm_lir.h`), here logical shift left. -/
def kArmLsl : Nat := 0
/-- Modelled from the spec: logical shift right (see `kArmLsl`). -/
def kArmLsr : Nat := 1
/-- Modelled from the spec: arithmetic shift right (see `kArmLsl`). -/
def kArmAsr : Nat := 2
/-- Modelled from the spec: rotate right (see `kArmLsl`). -/
def kArmRor : Nat := 3

/-- Modelled from the spec: `EncodeShift(code, amount)` of the Arm utility
code, `((amount & 0x1f) << 2) | code`. -/
def EncodeShift (code : Nat) (amount : Nat) : Nat :=
  ((amount &&& 0x1f) <<< 2) ||| code

/-- Dalvik instruction codes (`Instruction::Code`), by opcode byte. -/
abbrev Instruction.Code := Nat

/-- Modelled from the spec: opcode byte of `div-int/lit8`. -/
def Instruction.DIV_INT_LIT8 : Instruction.Code := 0xdb

/-- Modelled from the spec: opcode byte of `rem-int/lit8`. -/
def Instruction.REM_INT_LIT8 : Instruction.Code := 0xdc

/-- Modelled from the spec: `ARM_LOWREG(x)`, `((x & 0x7) == x)`
(macro of `arm_lir.h`): membership in the low general-purpose sub-range. -/
def ARM_LOWREG (x : Nat) : Bool := (x &&& 0x7) == x

/-- Modelled from the spec: `ARM_FPREG(x)`,
`((x & ARM_FP_REG_OFFSET) == ARM_FP_REG_OFFSET)` with offset 32 (macros of
`arm_lir.h`): the floating-point register class, to which both the
single-precision names (32 and up) and the double-precision names built by
`S2d` (which also carry the bit 64) belong. -/
def ARM_FPREG (x : Nat) : Bool := (x &&& 32) == 32

/-- Modelled from the spec: index of the "safe optimizations" bit in
`disable_opt` (enumerator of the optimization control vector, declared
outside `int_arm.cc`). -/
def kSafeOptimizations : Nat := 7

/-! ## Part 1b: instruction nodes and the compilation unit -/

/-- Branch target of a node: not yet bound, a node of the instruction list
(the C++ pointer, modelled by the node's position in the list), the label
of a basic block in the label table, or the launchpad that raises an
exception of a given kind. -/
inductive Target
  | null
  | node (idx : Nat)
  | block (id : Nat)
  | launchpad (kind : ThrowKind)
  deriving DecidableEq, Repr

/-- An instruction node created by this file (`LIR`). -/
structure LIR where
  opcode : ArmOpcode
  operands : List Int
  target : Target := Target.null
  is_nop : Bool := false
  def_mask : Option Nat := none
  deriving DecidableEq, Repr

/-- What a routine appends to the instruction list: a node it creates itself,
or the expansion of one helper of the Arm utility layer, kept abstract. -/
inductive Emitted
  | node (l : LIR)
  | OpRegReg (op : OpKind) (r_dest_src1 r_src2 : Nat)
  | OpRegRegReg (op : OpKind) (r_dest r_src1 r_src2 : Nat)
  | OpRegRegRegShift (op : OpKind) (r_dest r_src1 r_src2 : Nat) (shift : Nat)
  | OpRegRegImm (op : OpKind) (r_dest r_src1 : Nat) (value : Int)
  | OpRegImm (op : OpKind) (r_dest_src1 : Nat) (value : Int)
  | LoadConstant (r_dest : Nat) (value : Int)
  | GenBarrier
  | FpRegCopy (r_dest r_src : Nat)
  deriving DecidableEq, Repr

/-- Where a virtual value lives (`RegLocation`), reduced to the fields used. -/
structure RegLocation where
  wide : Bool := false
  s_reg_low : Int := 0
  low_reg : Nat := 0
  high_reg : Nat := 0
  deriving DecidableEq, Repr

/-- Calls into the register allocator, the value materialiser and the
write-barrier hook, in the order a routine makes them. -/
inductive Call
  | AllocTemp (reg : Nat)
  | FreeTemp (reg : Nat)
  | ClobberSReg (s_reg : Int)
  | LoadValue (rl : RegLocation)
  | LoadValueWide (rl : RegLocation)
  | EvalLoc (rl : RegLocation)
  | StoreValue (rl_dest rl_src : RegLocation)
  | StoreValueWide (rl_dest rl_src : RegLocation)
  | MarkGCCard (val_reg tgt_addr_reg : Nat)
  deriving DecidableEq, Repr

/-- The part of the compilation unit the routines touch: the instruction list
of the current block, the log of collaborator calls, and `disable_opt`. -/
structure CompilationUnit where
  lir : List Emitted := []
  calls : List Call := []
  disable_opt : Nat := 0
  deriving DecidableEq, Repr

/-- A lowering routine: it transforms the compilation unit, or aborts fatally. -/
abbrev Gen := StateT CompilationUnit (Except String)

/-- Reference to a node of the instruction list (the `LIR*` of the source). -/
abbrev LIRRef := Nat

/-- Append one item to the instruction list and return its reference. -/
def emit (e : Emitted) : Gen LIRRef :=
  fun cu => Except.ok (cu.lir.length, { cu with lir := cu.lir ++ [e] })

/-- Record a collaborator call. -/
def call (c : Call) : Gen Unit :=
  fun cu => Except.ok ((), { cu with calls := cu.calls ++ [c] })

/-- The fatal-abort channel (`LOG(FATAL)`). -/
def fatal {α : Type} (msg : String) : Gen α :=
  fun _ => Except.error msg

/-- Append a node without operands (`NewLIR0`). -/
def NewLIR0 (opcode : ArmOpcode) : Gen LIRRef :=
  emit (.node { opcode := opcode, operands := [] })

/-- Append a one-operand node (`NewLIR1`). -/
def NewLIR1 (opcode : ArmOpcode) (dest : Int) : Gen LIRRef :=
  emit (.node { opcode := opcode, operands := [dest] })

/-- Append a two-operand node (`NewLIR2`). -/
def NewLIR2 (opcode : ArmOpcode) (dest src1 : Int) : Gen LIRRef :=
  emit (.node { opcode := opcode, operands := [dest, src1] })

/-- Append a three-operand node (`NewLIR3`). -/
def NewLIR3 (opcode : ArmOpcode) (dest src1 src2 : Int) : Gen LIRRef :=
  emit (.node { opcode := opcode, operands := [dest, src1, src2] })

/-- Append a four-operand node (`NewLIR4`). -/
def NewLIR4 (opcode : ArmOpcode) (dest src1 src2 info : Int) : Gen LIRRef :=
  emit (.node { opcode := opcode, operands := [dest, src1, src2, info] })

/-- Assignment `ref->target = t` to a node already in the list. -/
def setTarget (ref : LIRRef) (t : Target) : Gen Unit :=
  fun cu =>
    match cu.lir[ref]? with
    | some (.node l) =>
        Except.ok ((), { cu with lir := cu.lir.set ref (.node { l with target := t }) })
    | _ => Except.ok ((), cu)

/-- Read of `ref->target`. -/
def getTarget (ref : LIRRef) : Gen Target :=
  fun cu =>
    match cu.lir[ref]? with
    | some (.node l) => Except.ok (l.target, cu)
    | _ => Except.ok (Target.null, cu)

/-- Assignment `ref->def_mask = mask`. -/
def setDefMask (ref : LIRRef) (mask : Nat) : Gen Unit :=
  fun cu =>
    match cu.lir[ref]? with
    | some (.node l) =>
        Except.ok ((), { cu with lir := cu.lir.set ref (.node { l with def_mask := some mask }) })
    | _ => Except.ok ((), cu)

/-- Collaborator `AllocTemp`; `reg` is the register the allocator returns. -/
def AllocTemp (reg : Nat) : Gen Nat := do
  call (.AllocTemp reg)
  return reg

/-- Collaborator `FreeTemp`. -/
def FreeTemp (reg : Nat) : Gen Unit := call (.FreeTemp reg)

/-- Collaborator `ClobberSReg`. -/
def ClobberSReg (s_reg : Int) : Gen Unit := call (.ClobberSReg s_reg)

/-- Collaborator `LoadValue`; `rl` already names the register the value is
materialised in, the loads the collaborator may emit are outside the model. -/
def LoadValue (rl : RegLocation) (_cls : RegisterClass) : Gen RegLocation := do
  call (.LoadValue rl)
  return rl

/-- Collaborator `LoadValueWide` (see `LoadValue`). -/
def LoadValueWide (rl : RegLocation) (_cls : RegisterClass) : Gen RegLocation := do
  call (.LoadValueWide rl)
  return rl

/-- Collaborator `EvalLoc`; `rl` already names the result registers chosen. -/
def EvalLoc (rl : RegLocation) (_cls : RegisterClass) (_update : Bool) : Gen RegLocation := do
  call (.EvalLoc rl)
  return rl

/-- Collaborator `StoreValue`. -/
def StoreValue (rl_dest rl_src : RegLocation) : Gen Unit := call (.StoreValue rl_dest rl_src)

/-- Collaborator `StoreValueWide`. -/
def StoreValueWide (rl_dest rl_src : RegLocation) : Gen Unit :=
  call (.StoreValueWide rl_dest rl_src)

/-- Collaborator `MarkGCCard` (the write-barrier hook). -/
def MarkGCCard (val_reg tgt_addr_reg : Nat) : Gen Unit := call (.MarkGCCard val_reg tgt_addr_reg)

/-- Helper `OpRegReg` of the Arm utility layer. -/
def OpRegReg (op : OpKind) (r_dest_src1 r_src2 : Nat) : Gen LIRRef :=
  emit (.OpRegReg op r_dest_src1 r_src2)

/-- Helper `OpRegRegReg`. -/
def OpRegRegReg (op : OpKind) (r_dest r_src1 r_src2 : Nat) : Gen LIRRef :=
  emit (.OpRegRegReg op r_dest r_src1 r_src2)

/-- Helper `OpRegRegRegShift`. -/
def OpRegRegRegShift (op : OpKind) (r_dest r_src1 r_src2 : Nat) (shift : Nat) : Gen LIRRef :=
  emit (.OpRegRegRegShift op r_dest r_src1 r_src2 shift)

/-- Helper `OpRegRegImm`. -/
def OpRegRegImm (op : OpKind) (r_dest r_src1 : Nat) (value : Int) : Gen LIRRef :=
  emit (.OpRegRegImm op r_dest r_src1 value)

/-- Helper `OpRegImm`. -/
def OpRegImm (op : OpKind) (r_dest_src1 : Nat) (value : Int) : Gen LIRRef :=
  emit (.OpRegImm op r_dest_src1 value)

/-- Helper `LoadConstant`. -/
def LoadConstant (r_dest : Nat) (value : Int) : Gen LIRRef :=
  emit (.LoadConstant r_dest value)

/-- Helper `LoadConstantNoClobber`. -/
def LoadConstantNoClobber (r_dest : Nat) (value : Int) : Gen LIRRef :=
  emit (.LoadConstant r_dest value)

/-- Helper `GenBarrier`: a scheduling barrier pseudo node. -/
def GenBarrier : Gen Unit := do
  let _ ← emit .GenBarrier
  return ()

/-- Modelled from the spec: helper `OpCondBranch` of the Arm utility layer, a
conditional branch node carrying the encoded
condition, with the given target. -/
def OpCondBranch (cc : ConditionCode) (target : Target) : Gen LIRRef :=
  emit (.node { opcode := .kThumbBCond,
                operands := [0, ((ArmConditionEncoding cc).toNat : Int)],
                target := target })

/-- Modelled from the spec: collaborator `GenCheck`, a conditional branch on
`c_code` to the throw launchpad of `kind` (defined in the shared code
generator, outside `int_arm.cc`). -/
def GenCheck (c_code : ConditionCode) (kind : ThrowKind) : Gen LIRRef :=
  OpCondBranch c_code (.launchpad kind)

/-! ## Part 1c: helpers of the Arm utility layer that are pure functions -/

/-- Number of significant bits of `x`, for `x < 2 ^ fuel`. -/
def bitLength : Nat → Nat → Nat
  | 0, _ => 0
  | fuel + 1, x => if x = 0 then 0 else bitLength fuel (x / 2) + 1

/-- Count of leading zero bits of a 32-bit word (`LeadingZeros`). -/
def LeadingZeros (x : Nat) : Nat := 32 - bitLength 32 x

/-- Modelled from the spec: `ModifiedImmediate`, the test of the Arm utility
layer for the "modified immediate" encoding (a replicated byte or a rotated
8-bit value).  The argument is the literal as an unsigned 32-bit word, the
result the 12-bit encoding or `-1` when the literal has none. -/
def ModifiedImmediate (value : Nat) : Int :=
  let b0 := value &&& 0xff
  if value ≤ 0xFF then (b0 : Int)
  else if value = ((b0 <<< 16) ||| b0) then (((0x1 <<< 8) ||| b0 : Nat) : Int)
  else if value = ((b0 <<< 24) ||| (b0 <<< 16) ||| (b0 <<< 8) ||| b0) then
    (((0x3 <<< 8) ||| b0 : Nat) : Int)
  else
    let b1 := (value >>> 8) &&& 0xff
    if value = ((b1 <<< 24) ||| (b1 <<< 8)) then (((0x2 <<< 8) ||| b1 : Nat) : Int)
    else
      let z_leading := LeadingZeros value
      let z_trailing := 32 - LeadingZeros ((0xFFFFFFFF - value) &&& (value - 1))
      if z_leading + z_trailing < 24 then -1
      else
        let v1 := (value <<< (z_leading + 1)) % 2 ^ 32
        let v2 := v1 >>> 25
        ((v2 ||| ((0x8 + z_leading) <<< 7) : Nat) : Int)

/-- Conversion of a C `int` to the unsigned 32-bit word with the same bits. -/
def toWord (i : Int) : Nat := (i % 2 ^ 32).toNat

/-- Signed reading of a 32-bit word. -/
def SInt (x : Nat) : Int := if x < 2 ^ 31 then (x : Int) else (x : Int) - 2 ^ 32

/-- Modelled from the spec: `S2d`, the double-precision register named by a
pair of single-precision halves (`low_reg | ARM_FP_DOUBLE`). -/
def S2d (low_reg _high_reg : Nat) : Nat := low_reg ||| 64

/-- Node creation without insertion (`RawLIR`), two-operand form. -/
def RawLIR (opcode : ArmOpcode) (op0 op1 : Int) : LIR :=
  { opcode := opcode, operands := [op0, op1] }

/-- Insertion of an already created item (`AppendLIR`). -/
def AppendLIR (e : Emitted) : Gen LIRRef := emit e

/-! ## Part 1d: the routines of `int_arm.cc` -/

/-- `OpCmpBranch`: register compare followed by a conditional branch. -/
def OpCmpBranch (cond : ConditionCode) (src1 src2 : Nat) (target : Target) : Gen LIRRef := do
  let _ ← OpRegReg .kOpCmp src1 src2
  OpCondBranch cond target

/-- `OpIT`: the IT instruction for a condition and a guide string.  The
guide is the list of its characters; any character other than `T` selects the
"else" bit, as in the source.  The cases of the switch fall through, so a
guide of length 3 also assigns the bits of lengths 2 and 1. -/
def OpIT (code : ArmConditionCode) (guide : List Char) : Gen LIRRef := do
  let cond_bit := code.toNat &&& 1
  let alt_bit := cond_bit ^^^ 1
  let strlen := guide.length
  if strlen > 3 then
    fatal "OAT: bad case in OpIT"
  else
    let mask1 := if strlen ≥ 3 then (if guide.getD 2 ' ' = 'T' then cond_bit else alt_bit) else 0
    let mask2 := if strlen ≥ 2 then (if guide.getD 1 ' ' = 'T' then cond_bit else alt_bit) else 0
    let mask3 := if strlen ≥ 1 then (if guide.getD 0 ' ' = 'T' then cond_bit else alt_bit) else 0
    let mask := (mask3 <<< 3) ||| (mask2 <<< 2) ||| (mask1 <<< 1) ||| (1 <<< (3 - strlen))
    NewLIR2 .kThumb2It code.toNat mask

/-- `GenCmpLong`: 64-bit three-way compare.  `rl_src1` and `rl_src2` are the
locations `LoadValueWide` returns, `t_reg` the temporary `AllocTemp` returns. -/
def GenCmpLong (rl_dest rl_src1 rl_src2 : RegLocation) (t_reg : Nat) : Gen Unit := do
  let rl_src1 ← LoadValueWide rl_src1 .kCoreReg
  let rl_src2 ← LoadValueWide rl_src2 .kCoreReg
  let t_reg ← AllocTemp t_reg
  let _ ← LoadConstant t_reg (-1)
  let _ ← OpRegReg .kOpCmp rl_src1.high_reg rl_src2.high_reg
  let branch1 ← OpCondBranch .kCondLt Target.null
  let branch2 ← OpCondBranch .kCondGt Target.null
  let _ ← OpRegRegReg .kOpSub t_reg rl_src1.low_reg rl_src2.low_reg
  let branch3 ← OpCondBranch .kCondEq Target.null
  let _ ← OpIT .kArmCondHi ['E']
  let _ ← NewLIR2 .kThumb2MovImmShift t_reg (ModifiedImmediate (toWord (-1)))
  let _ ← LoadConstant t_reg 1
  GenBarrier
  let target2 ← NewLIR0 .kPseudoTargetLabel
  let _ ← OpRegReg .kOpNeg t_reg t_reg
  let target1 ← NewLIR0 .kPseudoTargetLabel
  let rl_temp : RegLocation := { low_reg := t_reg }
  StoreValue rl_dest rl_temp
  FreeTemp t_reg
  setTarget branch1 (.node target1)
  setTarget branch2 (.node target2)
  let t ← getTarget branch1
  setTarget branch3 t

/-- The successors of a basic block, by block id. -/
structure BasicBlock where
  taken : Nat
  fall_through : Nat
  deriving DecidableEq, Repr

/-- The part of a `MIR` that is read: the predicate in `dalvikInsn.arg[0]`. -/
structure MIR where
  arg0 : ConditionCode
  deriving DecidableEq, Repr

/-- `GenFusedLongCmpBranch`: fused wide compare-and-branch.  `rl_src1` and
`rl_src2` are the locations `GetSrcWide` yields for the two operands. -/
def GenFusedLongCmpBranch (bb : BasicBlock) (mir : MIR)
    (rl_src1 rl_src2 : RegLocation) : Gen Unit := do
  let taken := Target.block bb.taken
  let not_taken := Target.block bb.fall_through
  let rl_src1 ← LoadValueWide rl_src1 .kCoreReg
  let rl_src2 ← LoadValueWide rl_src2 .kCoreReg
  let ccode := mir.arg0
  let _ ← OpRegReg .kOpCmp rl_src1.high_reg rl_src2.high_reg
  let ccode ← (match ccode with
    | .kCondEq => do
        let _ ← OpCondBranch .kCondNe not_taken
        pure ConditionCode.kCondEq
    | .kCondNe => do
        let _ ← OpCondBranch .kCondNe taken
        pure ConditionCode.kCondNe
    | .kCondLt => do
        let _ ← OpCondBranch .kCondLt taken
        let _ ← OpCondBranch .kCondGt not_taken
        pure ConditionCode.kCondCc
    | .kCondLe => do
        let _ ← OpCondBranch .kCondLt taken
        let _ ← OpCondBranch .kCondGt not_taken
        pure ConditionCode.kCondLs
    | .kCondGt => do
        let _ ← OpCondBranch .kCondGt taken
        let _ ← OpCondBranch .kCondLt not_taken
        pure ConditionCode.kCondHi
    | .kCondGe => do
        let _ ← OpCondBranch .kCondGt taken
        let _ ← OpCondBranch .kCondLt not_taken
        pure ConditionCode.kCondCs
    | _ => fatal "Unexpected ccode" : Gen ConditionCode)
  let _ ← OpRegReg .kOpCmp rl_src1.low_reg rl_src2.low_reg
  let _ ← OpCondBranch ccode taken

/-- `OpCmpImmBranch`: compare of a register with an immediate, and branch.
`t_reg` is the temporary `AllocTemp` returns on the path that needs one.  The
test `(check_value & 0xff) == check_value` is made on the 32-bit word of the
literal, where it says the same (a negative `int` never passes it). -/
def OpCmpImmBranch (cond : ConditionCode) (reg : Nat) (check_value : Int) (target : Target)
    (t_reg : Nat) : Gen LIRRef := do
  let arm_cond := ArmConditionEncoding cond
  let branch ← (
    if ARM_LOWREG reg = true ∧ check_value = 0 ∧
        (arm_cond = .kArmCondEq ∨ arm_cond = .kArmCondNe) then
      NewLIR2 (if arm_cond = .kArmCondEq then .kThumb2Cbz else .kThumb2Cbnz) reg 0
    else do
      let mod_imm := ModifiedImmediate (toWord check_value)
      if ARM_LOWREG reg = true ∧ (toWord check_value &&& 0xff) = toWord check_value then
        let _ ← NewLIR2 .kThumbCmpRI8 reg check_value
      else if mod_imm ≥ 0 then
        let _ ← NewLIR2 .kThumb2CmpRI8 reg mod_imm
      else
        let t_reg ← AllocTemp t_reg
        let _ ← LoadConstant t_reg check_value
        let _ ← OpRegReg .kOpCmp reg t_reg
      NewLIR2 .kThumbBCond 0 arm_cond.toNat : Gen LIRRef)
  setTarget branch target
  return branch

/-- `OpRegCopyNoInsert`: create, without inserting it, the move of `r_src`
to `r_dest`; the node is flagged inert when the registers coincide and safe
optimizations are not disabled. -/
def OpRegCopyNoInsert (r_dest r_src : Nat) : Gen Emitted := do
  let cu ← get
  if ARM_FPREG r_dest || ARM_FPREG r_src then
    return Emitted.FpRegCopy r_dest r_src
  else
    let opcode : ArmOpcode :=
      if ARM_LOWREG r_dest && ARM_LOWREG r_src then .kThumbMovRR
      else if !ARM_LOWREG r_dest && !ARM_LOWREG r_src then .kThumbMovRR_H2H
      else if ARM_LOWREG r_dest then .kThumbMovRR_H2L
      else .kThumbMovRR_L2H
    let res := RawLIR opcode r_dest r_src
    if (cu.disable_opt &&& (1 <<< kSafeOptimizations)) = 0 ∧ r_dest = r_src then
      return Emitted.node { res with is_nop := true }
    else
      return Emitted.node res

/-- `OpRegCopy`: create the move and append it. -/
def OpRegCopy (r_dest r_src : Nat) : Gen LIRRef := do
  let res ← OpRegCopyNoInsert r_dest r_src
  AppendLIR res

/-- `OpRegCopyWide`: copy of a register pair.  The debug-only `DCHECK`s of
the source are not part of the model. -/
def OpRegCopyWide (dest_lo dest_hi src_lo src_hi : Nat) : Gen Unit := do
  let dest_fp := ARM_FPREG dest_lo && ARM_FPREG dest_hi
  let src_fp := ARM_FPREG src_lo && ARM_FPREG src_hi
  if dest_fp then
    if src_fp then
      let _ ← OpRegCopy (S2d dest_lo dest_hi) (S2d src_lo src_hi)
    else
      let _ ← NewLIR3 .kThumb2Fmdrr (S2d dest_lo dest_hi) src_lo src_hi
  else
    if src_fp then
      let _ ← NewLIR3 .kThumb2Fmrrd dest_lo dest_hi (S2d src_lo src_hi)
    else
      -- Handle overlap
      if src_hi = dest_lo then
        let _ ← OpRegCopy dest_hi src_hi
        let _ ← OpRegCopy dest_lo src_lo
      else
        let _ ← OpRegCopy dest_lo src_lo
        let _ ← OpRegCopy dest_hi src_hi

/-- A row of the table of magic divisors. -/
structure MagicTable where
  magic : Nat
  shift : Nat
  pattern : DividePattern
  deriving DecidableEq, Repr

/-- The table of magic divisors, indexed by the literal. -/
def magic_table : List MagicTable := [
  ⟨0, 0, .DivideNone⟩,        -- 0
  ⟨0, 0, .DivideNone⟩,        -- 1
  ⟨0, 0, .DivideNone⟩,        -- 2
  ⟨0x55555556, 0, .Divide3⟩,  -- 3
  ⟨0, 0, .DivideNone⟩,        -- 4
  ⟨0x66666667, 1, .Divide5⟩,  -- 5
  ⟨0x2AAAAAAB, 0, .Divide3⟩,  -- 6
  ⟨0x92492493, 2, .Divide7⟩,  -- 7
  ⟨0, 0, .DivideNone⟩,        -- 8
  ⟨0x38E38E39, 1, .Divide5⟩,  -- 9
  ⟨0x66666667, 2, .Divide5⟩,  -- 10
  ⟨0x2E8BA2E9, 1, .Divide5⟩,  -- 11
  ⟨0x2AAAAAAB, 1, .Divide5⟩,  -- 12
  ⟨0x4EC4EC4F, 2, .Divide5⟩,  -- 13
  ⟨0x92492493, 3, .Divide7⟩,  -- 14
  ⟨0x88888889, 3, .Divide7⟩   -- 15
]

/-- `SmallLiteralDivide`: integer division by a constant via reciprocal
multiply.  `r_magic`, `r_hi` and `r_lo` are the temporaries the three
`AllocTemp` calls return; the `uint32_t` magic number is passed to
`LoadConstant` as the `int` with the same bits. -/
def SmallLiteralDivide (dalvik_opcode : Instruction.Code) (rl_src rl_dest : RegLocation)
    (lit : Int) (r_magic r_hi r_lo : Nat) : Gen Bool := do
  if lit < 0 ∨ lit ≥ (magic_table.length : Int) then
    return false
  let entry := magic_table.getD lit.toNat ⟨0, 0, .DivideNone⟩
  let pattern := entry.pattern
  if pattern = .DivideNone then
    return false
  -- Tuning: add rem patterns
  if dalvik_opcode ≠ Instruction.DIV_INT_LIT8 then
    return false
  let r_magic ← AllocTemp r_magic
  let _ ← LoadConstant r_magic (SInt entry.magic)
  let rl_src ← LoadValue rl_src .kCoreReg
  let rl_result ← EvalLoc rl_dest .kCoreReg true
  let r_hi ← AllocTemp r_hi
  let r_lo ← AllocTemp r_lo
  let _ ← NewLIR4 .kThumb2Smull r_lo r_hi r_magic rl_src.low_reg
  match pattern with
  | .Divide3 =>
      let _ ← OpRegRegRegShift .kOpSub rl_result.low_reg r_hi rl_src.low_reg
        (EncodeShift kArmAsr 31)
  | .Divide5 =>
      let _ ← OpRegRegImm .kOpAsr r_lo rl_src.low_reg 31
      let _ ← OpRegRegRegShift .kOpRsub rl_result.low_reg r_lo r_hi
        (EncodeShift kArmAsr entry.shift)
  | .Divide7 =>
      let _ ← OpRegReg .kOpAdd r_hi rl_src.low_reg
      let _ ← OpRegRegImm .kOpAsr r_lo rl_src.low_reg 31
      let _ ← OpRegRegRegShift .kOpRsub rl_result.low_reg r_lo r_hi
        (EncodeShift kArmAsr entry.shift)
  | _ => fatal "Unexpected pattern"
  StoreValue rl_dest rl_result
  return true

/-- `GenRegMemCheck`: not used on Arm. -/
def GenRegMemCheck (_c_code : ConditionCode) (_reg1 _base : Nat) (_offset : Int)
    (_kind : ThrowKind) : Gen LIRRef :=
  fatal "Unexpected use of GenRegMemCheck for Arm"

/-- `GenDivRemLit`: not used on Arm. -/
def GenDivRemLit (_rl_dest : RegLocation) (_reg1 : Nat) (_lit : Int) (_is_div : Bool) :
    Gen RegLocation :=
  fatal "Unexpected use of GenDivRemLit for Arm"

/-- `GenDivRem`: not used on Arm. -/
def GenDivRem (_rl_dest : RegLocation) (_reg1 _reg2 : Nat) (_is_div : Bool) :
    Gen RegLocation :=
  fatal "Unexpected use of GenDivRem for Arm"

/-- The part of a `CallInfo` that is read: the argument locations and the
location `InlineTarget` returns for the result. -/
structure CallInfo where
  args : List RegLocation
  result : RegLocation
  deriving DecidableEq, Repr

/-- Collaborator `InlineTarget`. -/
def InlineTarget (info : CallInfo) : Gen RegLocation := return info.result

/-- `GenInlinedMinMaxInt`: the min/max intrinsic.  The debug-only `DCHECK`
of the source is not part of the model. -/
def GenInlinedMinMaxInt (info : CallInfo) (is_min : Bool) : Gen Bool := do
  let rl_src1 := info.args.getD 0 {}
  let rl_src2 := info.args.getD 1 {}
  let rl_src1 ← LoadValue rl_src1 .kCoreReg
  let rl_src2 ← LoadValue rl_src2 .kCoreReg
  let rl_dest ← InlineTarget info
  let rl_result ← EvalLoc rl_dest .kCoreReg true
  let _ ← OpRegReg .kOpCmp rl_src1.low_reg rl_src2.low_reg
  let _ ← OpIT (if is_min then .kArmCondGt else .kArmCondLt) ['E']
  let _ ← OpRegReg .kOpMov rl_result.low_reg rl_src2.low_reg
  let _ ← OpRegReg .kOpMov rl_result.low_reg rl_src1.low_reg
  GenBarrier
  StoreValue rl_dest rl_result
  return true

/-- `OpLea`: not used on Arm. -/
def OpLea (_rBase _reg1 _reg2 : Nat) (_scale _offset : Int) : Gen Unit :=
  fatal "Unexpected use of OpLea for Arm"

/-- `OpTlsCmp`: not used on Arm. -/
def OpTlsCmp (_offset _val : Int) : Gen Unit :=
  fatal "Unexpected use of OpTlsCmp for Arm"

/-- `GenMemBarrier`: a `dmb` node in a multi-core build (`ANDROID_SMP != 0`),
nothing in a single-core build. -/
def GenMemBarrier (ANDROID_SMP : Nat) (barrier_kind : MemBarrierKind) : Gen Unit := do
  if ANDROID_SMP ≠ 0 then
    let dmb_flavor : Int :=
      match barrier_kind with
      | .kLoadStore => kSY
      | .kLoadLoad => kSY
      | .kStoreStore => kST
      | .kStoreLoad => kSY
    let dmb ← NewLIR1 .kThumb2Dmb dmb_flavor
    setDefMask dmb ENCODE_ALL
  else
    return ()

/-- `GenInlinedCas32`: the compare-and-swap intrinsic.  `r_ptr` and
`r_old_value` are the temporaries the two `AllocTemp` calls return. -/
def GenInlinedCas32 (ANDROID_SMP : Nat) (info : CallInfo) (need_write_barrier : Bool)
    (r_ptr r_old_value : Nat) : Gen Bool := do
  let rl_src_obj := info.args.getD 1 {}
  let rl_src_offset := info.args.getD 2 {}
  let rl_src_offset := { rl_src_offset with wide := false }
  let rl_src_expected := info.args.getD 4 {}
  let rl_src_new_value := info.args.getD 5 {}
  let rl_dest ← InlineTarget info
  -- Release store semantics, get the barrier out of the way.
  GenMemBarrier ANDROID_SMP .kStoreLoad
  let rl_object ← LoadValue rl_src_obj .kCoreReg
  let rl_new_value ← LoadValue rl_src_new_value .kCoreReg
  if need_write_barrier then
    -- Mark card for object assuming new value is stored.
    MarkGCCard rl_new_value.low_reg rl_object.low_reg
  let rl_offset ← LoadValue rl_src_offset .kCoreReg
  let r_ptr ← AllocTemp r_ptr
  let _ ← OpRegRegReg .kOpAdd r_ptr rl_object.low_reg rl_offset.low_reg
  -- Free now unneeded rl_object and rl_offset to give more temps.
  ClobberSReg rl_object.s_reg_low
  FreeTemp rl_object.low_reg
  ClobberSReg rl_offset.s_reg_low
  FreeTemp rl_offset.low_reg
  let r_old_value ← AllocTemp r_old_value
  let _ ← NewLIR3 .kThumb2Ldrex r_old_value r_ptr 0
  let rl_expected ← LoadValue rl_src_expected .kCoreReg
  let _ ← OpRegReg .kOpCmp r_old_value rl_expected.low_reg
  FreeTemp r_old_value
  let rl_result ← EvalLoc rl_dest .kCoreReg true
  let _ ← OpIT .kArmCondEq ['T', 'E']
  let _ ← NewLIR4 .kThumb2Strex rl_result.low_reg rl_new_value.low_reg r_ptr 0
  FreeTemp r_ptr
  let _ ← OpRegImm .kOpXor rl_result.low_reg 1
  let _ ← OpRegReg .kOpXor rl_result.low_reg rl_result.low_reg
  StoreValue rl_dest rl_result
  return true

/-- `GenMultiplyByTwoBitMultiplier`: multiplication by a literal with exactly
two bits set.  The shift amount reaches `EncodeShift` as the 32-bit word of
the `int` difference. -/
def GenMultiplyByTwoBitMultiplier (rl_src rl_result : RegLocation)
    (_lit first_bit second_bit : Int) : Gen Unit := do
  let _ ← OpRegRegRegShift .kOpAdd rl_result.low_reg rl_src.low_reg rl_src.low_reg
    (EncodeShift kArmLsl (toWord (second_bit - first_bit)))
  if first_bit ≠ 0 then
    let _ ← OpRegRegImm .kOpLsl rl_result.low_reg rl_result.low_reg first_bit

/-- `GenDivZeroCheck`: test of a 64-bit divisor for zero.  `t_reg` is the
temporary `AllocTemp` returns. -/
def GenDivZeroCheck (reg_lo reg_hi t_reg : Nat) : Gen Unit := do
  let t_reg ← AllocTemp t_reg
  let _ ← NewLIR4 .kThumb2OrrRRRs t_reg reg_lo reg_hi 0
  FreeTemp t_reg
  let _ ← GenCheck .kCondEq .kThrowDivZero

/-- `GenNegLong`: 64-bit negate.  `z_reg` is the temporary of the first
`AllocTemp`, `t_reg` the one of the `AllocTemp` on the overlap path. -/
def GenNegLong (rl_dest rl_src : RegLocation) (z_reg t_reg : Nat) : Gen Bool := do
  let rl_src ← LoadValueWide rl_src .kCoreReg
  let rl_result ← EvalLoc rl_dest .kCoreReg true
  let z_reg ← AllocTemp z_reg
  let _ ← LoadConstantNoClobber z_reg 0
  -- Check for destructive overlap
  if rl_result.low_reg = rl_src.high_reg then
    let t_reg ← AllocTemp t_reg
    let _ ← OpRegRegReg .kOpSub rl_result.low_reg z_reg rl_src.low_reg
    let _ ← OpRegRegReg .kOpSbc rl_result.high_reg z_reg t_reg
    FreeTemp t_reg
  else
    let _ ← OpRegRegReg .kOpSub rl_result.low_reg z_reg rl_src.low_reg
    let _ ← OpRegRegReg .kOpSbc rl_result.high_reg z_reg rl_src.high_reg
  FreeTemp z_reg
  StoreValueWide rl_dest rl_result
  return false

/-- `GenAddLong`: not used on Arm. -/
def GenAddLong (_rl_dest _rl_src1 _rl_src2 : RegLocation) : Gen Bool :=
  fatal "Unexpected use of GenAddLong for Arm"

/-- `GenSubLong`: not used on Arm. -/
def GenSubLong (_rl_dest _rl_src1 _rl_src2 : RegLocation) : Gen Bool :=
  fatal "Unexpected use of GenSubLong for Arm"

/-- `GenAndLong`: not used on Arm. -/
def GenAndLong (_rl_dest _rl_src1 _rl_src2 : RegLocation) : Gen Bool :=
  fatal "Unexpected use of GenAndLong for Arm"

/-- `GenOrLong`: not used on Arm. -/
def GenOrLong (_rl_dest _rl_src1 _rl_src2 : RegLocation) : Gen Bool :=
  fatal "Unexpected use of GenOrLong for Arm"

/-- `GenXorLong`: not used on Arm. -/
def GenXorLong (_rl_dest _rl_src1 _rl_src2 : RegLocation) : Gen Bool :=
  fatal "Unexpected use of genXoLong for Arm"

/-! ## Part 2: a model of the Thumb2 machine

Registers hold 32-bit words (naturals below `2^32`).  The arithmetic follows
the architecture's pseudo-code (`AddWithCarry`, `Shift`, `ThumbExpandImm`,
`ConditionPassed`, the IT state).  Helpers of the Arm utility layer whose
encoding, and with it the effect on the flags, depends on the register class
leave the flags at a value chosen by the environment when they execute
outside an IT block, and leave them alone inside one. -/

/-- The condition flags. -/
structure Flags where
  n : Bool
  z : Bool
  c : Bool
  v : Bool
  deriving DecidableEq, Repr

/-- Machine state: register file, flags, IT state and word-addressed memory. -/
structure Machine where
  regs : Nat → Nat
  flags : Flags
  itstate : Nat
  mem : Nat → Nat

/-- Register write. -/
def Machine.setReg (m : Machine) (r : Nat) (v : Nat) : Machine :=
  { m with regs := Function.update m.regs r v }

/-- Bitwise complement of a 32-bit word. -/
def NOT32 (x : Nat) : Nat := 2 ^ 32 - 1 - x % 2 ^ 32

/-- The architecture's `AddWithCarry` on 32-bit words: result and flags. -/
def AddWithCarry (x y : Nat) (carry_in : Bool) : Nat × Flags :=
  let unsigned_sum := x + y + carry_in.toNat
  let signed_sum := SInt x + SInt y + (carry_in.toNat : Int)
  let result := unsigned_sum % 2 ^ 32
  (result, { n := decide (2 ^ 31 ≤ result), z := decide (result = 0),
             c := decide (result ≠ unsigned_sum), v := decide (SInt result ≠ signed_sum) })

/-- The flexible second operand: `value` shifted as the encoded `shift`
(kind in bits 1:0, amount in bits 6:2) says, following `DecodeImmShift`. -/
def shiftOperand (value : Nat) (shift : Nat) (carry_in : Bool) : Nat :=
  let kind := shift % 4
  let imm5 := (shift / 4) % 32
  if kind = 0 then (value * 2 ^ imm5) % 2 ^ 32
  else if kind = 1 then (if imm5 = 0 then 0 else value / 2 ^ imm5)
  else if kind = 2 then toWord (SInt value / 2 ^ (if imm5 = 0 then 32 else imm5))
  else if imm5 = 0 then carry_in.toNat * 2 ^ 31 + value / 2
  else (value / 2 ^ imm5 + value * 2 ^ (32 - imm5)) % 2 ^ 32

/-- The architecture's `ThumbExpandImm`: the word a 12-bit modified
immediate stands for. -/
def ThumbExpandImm (imm12 : Nat) : Nat :=
  let b := imm12 % 256
  if imm12 / 1024 % 4 = 0 then
    match imm12 / 256 % 4 with
    | 0 => b
    | 1 => b * 2 ^ 16 + b
    | 2 => b * 2 ^ 24 + b * 2 ^ 8
    | _ => b * 2 ^ 24 + b * 2 ^ 16 + b * 2 ^ 8 + b
  else
    let unrotated := 128 + imm12 % 128
    let r := imm12 / 128 % 32
    (unrotated / 2 ^ r + unrotated * 2 ^ (32 - r)) % 2 ^ 32

/-- The architecture's `ConditionPassed` for a 4-bit condition. -/
def ConditionPassed (cond : Nat) (f : Flags) : Bool :=
  let base :=
    match cond / 2 % 8 with
    | 0 => f.z
    | 1 => f.c
    | 2 => f.n
    | 3 => f.v
    | 4 => f.c && !f.z
    | 5 => f.n == f.v
    | 6 => (f.n == f.v) && !f.z
    | _ => true
  if cond % 2 = 1 ∧ cond % 16 ≠ 15 then !base else base

/-- Is the next instruction inside an IT block? -/
def InITBlock (itstate : Nat) : Bool := itstate % 16 ≠ 0

/-- The condition the next instruction executes under. -/
def CurrentCond (itstate : Nat) : Nat := if itstate % 16 ≠ 0 then itstate / 16 % 16 else 14

/-- The architecture's `ITAdvance`. -/
def ITAdvance (itstate : Nat) : Nat :=
  if itstate % 8 = 0 then 0 else itstate / 32 * 32 + itstate * 2 % 32

/-- Result of one step. -/
inductive StepResult
  | next (m : Machine)
  | branch (t : Target) (m : Machine)
  | stuck

/-- Flags after a helper whose encoding decides whether it sets them: the
environment's choice `U` outside an IT block, unchanged inside. -/
def softFlags (U : Flags) (inIT : Bool) (m : Machine) : Machine :=
  if inIT then m else { m with flags := U }

/-- Three-register data processing `rd := x op y`.  `kOpSub` and `kOpSbc`
set the flags (the source's own sequences rely on it: `sub` then `beq`,
`sub` then `sbc`). -/
def dataProc (U : Flags) (inIT : Bool) (op : OpKind) (rd : Nat) (x y : Nat)
    (m : Machine) : StepResult :=
  match op with
  | .kOpAdd => .next (softFlags U inIT (m.setReg rd ((x + y) % 2 ^ 32)))
  | .kOpSub =>
      let r := AddWithCarry x (NOT32 y) true
      .next { (m.setReg rd r.1) with flags := if inIT then U else r.2 }
  | .kOpSbc =>
      let r := AddWithCarry x (NOT32 y) m.flags.c
      .next { (m.setReg rd r.1) with flags := if inIT then U else r.2 }
  | .kOpRsub =>
      let r := AddWithCarry (NOT32 x) y true
      .next (softFlags U inIT (m.setReg rd r.1))
  | .kOpXor => .next (softFlags U inIT (m.setReg rd (x ^^^ y)))
  | _ => .stuck

/-- Operand `i` of a node (`operands[i]`). -/
def LIR.op (l : LIR) (i : Nat) : Int := l.operands.getD i 0

/-- Operand `i` of a node, read as a register number or an unsigned field. -/
def LIR.opN (l : LIR) (i : Nat) : Nat := (l.op i).toNat

/-- Effect of a node created by this file, once its condition has passed. -/
def executeNode (U : Flags) (inIT : Bool) (l : LIR) (m : Machine) : StepResult :=
  match l.opcode with
  | .kThumb2MovImmShift =>
      .next (softFlags U inIT (m.setReg (l.opN 0) (ThumbExpandImm (l.opN 1))))
  | .kThumbBCond =>
      if ConditionPassed (l.opN 1) m.flags then .branch l.target m else .next m
  | .kThumb2Cbz =>
      if m.regs (l.opN 0) = 0 then .branch l.target m else .next m
  | .kThumb2Cbnz =>
      if m.regs (l.opN 0) = 0 then .next m else .branch l.target m
  | .kThumbCmpRI8 =>
      .next { m with flags := (AddWithCarry (m.regs (l.opN 0)) (NOT32 (l.opN 1)) true).2 }
  | .kThumb2CmpRI8 =>
      .next { m with flags :=
        (AddWithCarry (m.regs (l.opN 0)) (NOT32 (ThumbExpandImm (l.opN 1))) true).2 }
  | .kThumbMovRR => .next (softFlags U inIT (m.setReg (l.opN 0) (m.regs (l.opN 1))))
  | .kThumbMovRR_H2H => .next (m.setReg (l.opN 0) (m.regs (l.opN 1)))
  | .kThumbMovRR_H2L => .next (m.setReg (l.opN 0) (m.regs (l.opN 1)))
  | .kThumbMovRR_L2H => .next (m.setReg (l.opN 0) (m.regs (l.opN 1)))
  | .kThumb2Smull =>
      -- operands: RdLo, RdHi, Rn, Rm
      let p := SInt (m.regs (l.opN 2)) * SInt (m.regs (l.opN 3))
      .next ((m.setReg (l.opN 0) (toWord p)).setReg (l.opN 1) (toWord (p / 2 ^ 32)))
  | .kThumb2Ldrex =>
      -- operands: Rt, Rn, imm8 (in words)
      .next (m.setReg (l.opN 0) (m.mem ((m.regs (l.opN 1) + 4 * l.opN 2) % 2 ^ 32)))
  | .kThumb2Strex =>
      -- operands: Rd, Rt, Rn, imm8 (in words); no interference: the exclusive
      -- store succeeds and reports status 0
      let addr := (m.regs (l.opN 2) + 4 * l.opN 3) % 2 ^ 32
      .next ({ m with mem := Function.update m.mem addr (m.regs (l.opN 1)) }.setReg (l.opN 0) 0)
  | .kThumb2OrrRRRs =>
      let r := m.regs (l.opN 1) ||| shiftOperand (m.regs (l.opN 2)) (l.opN 3) m.flags.c
      .next { (m.setReg (l.opN 0) r) with
        flags := { m.flags with n := decide (2 ^ 31 ≤ r), z := decide (r = 0) } }
  | .kThumb2Dmb => .next m
  | _ => .stuck

/-- Effect of an emitted item, once its condition has passed. -/
def execute (U : Flags) (inIT : Bool) (e : Emitted) (m : Machine) : StepResult :=
  match e with
  | .node l => executeNode U inIT l m
  | .LoadConstant r v => .next (softFlags U inIT (m.setReg r (toWord v)))
  | .OpRegReg op a b =>
      match op with
      | .kOpCmp => .next { m with flags := (AddWithCarry (m.regs a) (NOT32 (m.regs b)) true).2 }
      | .kOpMov => .next (softFlags U inIT (m.setReg a (m.regs b)))
      | .kOpNeg => .next (softFlags U inIT (m.setReg a (AddWithCarry (NOT32 (m.regs b)) 0 true).1))
      | .kOpAdd => .next (softFlags U inIT (m.setReg a ((m.regs a + m.regs b) % 2 ^ 32)))
      | .kOpXor => .next (softFlags U inIT (m.setReg a (m.regs a ^^^ m.regs b)))
      | _ => .stuck
  | .OpRegRegReg op rd a b => dataProc U inIT op rd (m.regs a) (m.regs b) m
  | .OpRegRegRegShift op rd a b shift =>
      dataProc U inIT op rd (m.regs a) (shiftOperand (m.regs b) shift m.flags.c) m
  | .OpRegRegImm op rd a value =>
      match op with
      | .kOpAsr => .next (softFlags U inIT (m.setReg rd (toWord (SInt (m.regs a) / 2 ^ value.toNat))))
      | .kOpLsl => .next (softFlags U inIT (m.setReg rd ((m.regs a * 2 ^ value.toNat) % 2 ^ 32)))
      | .kOpXor => .next (softFlags U inIT (m.setReg rd (m.regs a ^^^ toWord value)))
      | .kOpAdd => .next (softFlags U inIT (m.setReg rd ((m.regs a + toWord value) % 2 ^ 32)))
      | _ => .stuck
  | .OpRegImm op r value =>
      match op with
      | .kOpXor => .next (softFlags U inIT (m.setReg r (m.regs r ^^^ toWord value)))
      | _ => .stuck
  | .GenBarrier => .next m
  | .FpRegCopy _ _ => .stuck

/-- Items that produce no machine instruction: labels, scheduling barriers
and nodes flagged inert. -/
def isPseudo : Emitted → Bool
  | .node l => l.is_nop || l.opcode == .kPseudoTargetLabel
  | .GenBarrier => true
  | _ => false

/-- The operands of an IT instruction, when the item is one. -/
def itOperands : Emitted → Option (Nat × Nat)
  | .node l => if l.opcode = .kThumb2It then some (l.opN 0, l.opN 1) else none
  | _ => none

/-- One step: pseudo items are skipped; an IT instruction loads the IT
state with its condition and mask; any other item executes if the current
condition passes, and the IT state advances. -/
def step (U : Flags) (e : Emitted) (m : Machine) : StepResult :=
  if isPseudo e then .next m
  else
    match itOperands e with
    | some (firstcond, mask) =>
        .next { m with itstate := firstcond % 16 * 16 + mask % 16 }
    | none =>
        let m1 := { m with itstate := ITAdvance m.itstate }
        if ConditionPassed (CurrentCond m.itstate) m.flags then
          execute U (InITBlock m.itstate) e m1
        else .next m1

/-- How the execution of a block ends. -/
inductive Outcome
  | fell (m : Machine)
  | jumped (block : Nat) (m : Machine)
  | threw (kind : ThrowKind) (m : Machine)

/-- Run the block `prog`, whose first item is node `base` of the instruction
list, from position `pc`.  `U pc` is the environment's choice of flags for
the item at `pc`.  The run ends when control passes the last item,
branches to a basic-block label or branches to a throw launchpad; `none`
means stuck or out of fuel. -/
def run (U : Nat → Flags) (base : Nat) (prog : List Emitted) :
    Nat → Nat → Machine → Option Outcome
  | 0, _, _ => none
  | fuel + 1, pc, m =>
    match prog[pc]? with
    | none => if pc = prog.length then some (.fell m) else none
    | some e =>
      match step (U pc) e m with
      | .next m1 => run U base prog fuel (pc + 1) m1
      | .branch (.node idx) m1 =>
          if base ≤ idx then run U base prog fuel (idx - base) m1 else none
      | .branch (.block id) m1 => some (.jumped id m1)
      | .branch (.launchpad kind) m1 => some (.threw kind m1)
      | .branch .null _ => none
      | .stuck => none


/-- The block `SmallLiteralDivide` emits for a table row, written out per
pattern (used to state what the routine appends). -/
def divideBlock (entry : MagicTable) (src dst r_magic r_hi r_lo : Nat) : List Emitted :=
  [Emitted.LoadConstant r_magic (SInt entry.magic),
   Emitted.node { opcode := .kThumb2Smull, operands := [r_lo, r_hi, r_magic, src] }] ++
  match entry.pattern with
  | .Divide3 => [Emitted.OpRegRegRegShift .kOpSub dst r_hi src (EncodeShift kArmAsr 31)]
  | .Divide5 =>
      [Emitted.OpRegRegImm .kOpAsr r_lo src 31,
       Emitted.OpRegRegRegShift .kOpRsub dst r_lo r_hi (EncodeShift kArmAsr entry.shift)]
  | .Divide7 =>
      [Emitted.OpRegReg .kOpAdd r_hi src,
       Emitted.OpRegRegImm .kOpAsr r_lo src 31,
       Emitted.OpRegRegRegShift .kOpRsub dst r_lo r_hi (EncodeShift kArmAsr entry.shift)]
  | .DivideNone => []

/-- Reading an IT mask back: the lowest set bit is the terminator; above it,
a bit equal to the low bit of the condition code stands for `T`, the other
value for `E`. -/
def decodeITMask (cond_bit : Nat) (mask : Nat) : List Char :=
  let low := if mask % 2 = 1 then 0 else if mask / 2 % 2 = 1 then 1
    else if mask / 4 % 2 = 1 then 2 else 3
  (List.range (3 - low)).map
    (fun i => if (mask >>> (3 - i)) &&& 1 = cond_bit then 'T' else 'E')

/-- The block `GenCmpLong` emits, with node `base` of the instruction list as
its first item; `k1`, `imm` and `k2` are the three constants it loads. -/
def cmpLongBlock (base : Nat) (t_reg lo1 hi1 lo2 hi2 : Nat) (k1 imm k2 : Int) : List Emitted :=
  [Emitted.LoadConstant t_reg k1,
   Emitted.OpRegReg .kOpCmp hi1 hi2,
   Emitted.node { opcode := .kThumbBCond, operands := [0, 11], target := .node (base + 12) },
   Emitted.node { opcode := .kThumbBCond, operands := [0, 12], target := .node (base + 10) },
   Emitted.OpRegRegReg .kOpSub t_reg lo1 lo2,
   Emitted.node { opcode := .kThumbBCond, operands := [0, 0], target := .node (base + 12) },
   Emitted.node { opcode := .kThumb2It, operands := [8, 12] },
   Emitted.node { opcode := .kThumb2MovImmShift, operands := [t_reg, imm] },
   Emitted.LoadConstant t_reg k2,
   Emitted.GenBarrier,
   Emitted.node { opcode := .kPseudoTargetLabel, operands := [] },
   Emitted.OpRegReg .kOpNeg t_reg t_reg,
   Emitted.node { opcode := .kPseudoTargetLabel, operands := [] }]

/-- Continuation of `run` after one step (the body of `run`, by cases on
the result of the step). -/
def afterStep (U : Nat → Flags) (base : Nat) (prog : List Emitted) (fuel pc : Nat) :
    StepResult → Option Outcome
  | .next m1 => run U base prog fuel (pc + 1) m1
  | .branch (.node idx) m1 =>
      if base ≤ idx then run U base prog fuel (idx - base) m1 else none
  | .branch (.block id) m1 => some (.jumped id m1)
  | .branch (.launchpad kind) m1 => some (.threw kind m1)
  | .branch .null _ => none
  | .stuck => none

/-- The move node for two general-purpose registers, as the specification
words it: the opcode by whether each register is a low register, the two
registers as operands, and the no-op flag set exactly when the registers
coincide and the safe-optimizations bit of `disable_opt` is clear. -/
def moveNode (disable_opt r_dest r_src : Nat) : LIR :=
  { opcode :=
      match ARM_LOWREG r_dest, ARM_LOWREG r_src with
      | true, true => .kThumbMovRR
      | false, false => .kThumbMovRR_H2H
      | true, false => .kThumbMovRR_H2L
      | false, true => .kThumbMovRR_L2H,
    operands := [(r_dest : Int), (r_src : Int)],
    is_nop := decide (r_dest = r_src ∧ disable_opt.testBit kSafeOptimizations = false) }

/-- The items `OpCmpImmBranch` appends, as the specification words the
selection: a lone compare-and-branch for a low register tested for (in)equality
with zero; otherwise one compare (compact form for a low register and a literal
in `[0, 255]`, else the wide form when the literal has a modified-immediate
encoding, else a load into the temporary and a register compare) followed by
the conditional branch. -/
def cmpImmBlock (cond : ConditionCode) (reg : Nat) (lit : Int) (target : Target)
    (t_reg : Nat) : List Emitted :=
  let ac := ArmConditionEncoding cond
  if ARM_LOWREG reg = true ∧ lit = 0 ∧ (ac = .kArmCondEq ∨ ac = .kArmCondNe) then
    [Emitted.node { opcode := if ac = .kArmCondEq then .kThumb2Cbz else .kThumb2Cbnz,
                    operands := [(reg : Int), 0], target := target }]
  else
    (if ARM_LOWREG reg = true ∧ 0 ≤ lit ∧ lit ≤ 255 then
      [Emitted.node { opcode := .kThumbCmpRI8, operands := [(reg : Int), lit] }]
    else if 0 ≤ ModifiedImmediate (toWord lit) then
      [Emitted.node { opcode := .kThumb2CmpRI8,
                      operands := [(reg : Int), ModifiedImmediate (toWord lit)] }]
    else
      [Emitted.LoadConstant t_reg lit, Emitted.OpRegReg .kOpCmp reg t_reg])
    ++ [Emitted.node { opcode := .kThumbBCond, operands := [0, (ac.toNat : Int)],
                       target := target }]

/-- The signed 64-bit value held by a (low, high) pair of words. -/
def pairValue (lo hi : Nat) : Int := SInt hi * 4294967296 + (lo : Int)

/-- Meaning of the six comparison predicates of a fused compare-and-branch,
on integers. -/
def holds (cc : ConditionCode) (a b : Int) : Bool :=
  match cc with
  | .kCondEq => decide (a = b)
  | .kCondNe => decide (a ≠ b)
  | .kCondLt => decide (a < b)
  | .kCondLe => decide (a ≤ b)
  | .kCondGt => decide (a > b)
  | .kCondGe => decide (a ≥ b)
  | _ => false

/-- The basic-block label a run ended at, if it ended by a branch to one. -/
def Outcome.label : Outcome → Option Nat
  | .fell _ => none
  | .jumped id _ => some id
  | .threw _ _ => none

/-- The items `GenFusedLongCmpBranch` appends for one of the six predicates:
compare of the high words, the branches that decide on them, compare of the
low words, and the final branch to the taken label. -/
def fusedBlock (cc : ConditionCode) (taken not_taken l1 h1 l2 h2 : Nat) : List Emitted :=
  let b := fun (c : Int) (t : Nat) =>
    Emitted.node { opcode := .kThumbBCond, operands := [0, c], target := .block t }
  match cc with
  | .kCondEq =>
      [Emitted.OpRegReg .kOpCmp h1 h2, b 1 not_taken, Emitted.OpRegReg .kOpCmp l1 l2, b 0 taken]
  | .kCondNe =>
      [Emitted.OpRegReg .kOpCmp h1 h2, b 1 taken, Emitted.OpRegReg .kOpCmp l1 l2, b 1 taken]
  | .kCondLt =>
      [Emitted.OpRegReg .kOpCmp h1 h2, b 11 taken, b 12 not_taken,
       Emitted.OpRegReg .kOpCmp l1 l2, b 3 taken]
  | .kCondLe =>
      [Emitted.OpRegReg .kOpCmp h1 h2, b 11 taken, b 12 not_taken,
       Emitted.OpRegReg .kOpCmp l1 l2, b 9 taken]
  | .kCondGt =>
      [Emitted.OpRegReg .kOpCmp h1 h2, b 12 taken, b 11 not_taken,
       Emitted.OpRegReg .kOpCmp l1 l2, b 8 taken]
  | .kCondGe =>
      [Emitted.OpRegReg .kOpCmp h1 h2, b 12 taken, b 11 not_taken,
       Emitted.OpRegReg .kOpCmp l1 l2, b 2 taken]
  | _ => []

/-- The items `GenInlinedMinMaxInt` appends: the compare, the IT instruction
(`gt` for min, `lt` for max, with guide `E`), the two predicated moves and the
scheduling barrier. -/
def minMaxBlock (is_min : Bool) (s1 s2 res : Nat) : List Emitted :=
  [Emitted.OpRegReg .kOpCmp s1 s2,
   Emitted.node { opcode := .kThumb2It,
                  operands := if is_min then [12, 12] else [11, 4] },
   Emitted.OpRegReg .kOpMov res s2,
   Emitted.OpRegReg .kOpMov res s1,
   Emitted.GenBarrier]

/-- The items `GenNegLong` appends: the load of zero, the subtraction of the
low word from zero and the subtraction with borrow whose last operand is the
register `hi_src` (the source high register on the plain path, the temporary
`t_reg` on the overlap path). -/
def negBlock (z_reg res_lo res_hi src_lo hi_src : Nat) : List Emitted :=
  [Emitted.LoadConstant z_reg 0,
   Emitted.OpRegRegReg .kOpSub res_lo z_reg src_lo,
   Emitted.OpRegRegReg .kOpSbc res_hi z_reg hi_src]

/-- The items `GenDivZeroCheck` appends: the flag-setting OR of the two
halves into the temporary, and the branch on `eq` to the divide-by-zero
launchpad. -/
def divZeroBlock (t_reg reg_lo reg_hi : Nat) : List Emitted :=
  [Emitted.node { opcode := .kThumb2OrrRRRs,
                  operands := [(t_reg : Int), (reg_lo : Int), (reg_hi : Int), 0] },
   Emitted.node { opcode := .kThumbBCond, operands := [0, 0],
                  target := .launchpad .kThrowDivZero }]

/-- The items `GenInlinedCas32` appends: the barrier (multi-core build only),
the address computation, the exclusive load, the compare, the IT instruction
for `eq` with guide `TE`, and the predicated group (exclusive store, inversion
of its status, clearing of the result). -/
def casBlock (smp : Bool) (obj off ptr old exp new res : Nat) : List Emitted :=
  (if smp then
    [Emitted.node { opcode := .kThumb2Dmb, operands := [kSY], def_mask := some ENCODE_ALL }]
   else []) ++
  [Emitted.OpRegRegReg .kOpAdd ptr obj off,
   Emitted.node { opcode := .kThumb2Ldrex, operands := [(old : Int), (ptr : Int), 0] },
   Emitted.OpRegReg .kOpCmp old exp,
   Emitted.node { opcode := .kThumb2It, operands := [0, 6] },
   Emitted.node { opcode := .kThumb2Strex,
                  operands := [(res : Int), (new : Int), (ptr : Int), 0] },
   Emitted.OpRegImm .kOpXor res 1,
   Emitted.OpRegReg .kOpXor res res]

/-- The collaborator calls `GenInlinedCas32` makes, in order. -/
def casCalls (info : CallInfo) (need_write_barrier : Bool) (r_ptr r_old_value : Nat) :
    List Call :=
  [Call.LoadValue (info.args.getD 1 {}), Call.LoadValue (info.args.getD 5 {})] ++
  (if need_write_barrier then
    [Call.MarkGCCard (info.args.getD 5 {}).low_reg (info.args.getD 1 {}).low_reg]
   else []) ++
  [Call.LoadValue { info.args.getD 2 {} with wide := false },
   Call.AllocTemp r_ptr,
   Call.ClobberSReg (info.args.getD 1 {}).s_reg_low,
   Call.FreeTemp (info.args.getD 1 {}).low_reg,
   Call.ClobberSReg (info.args.getD 2 {}).s_reg_low,
   Call.FreeTemp (info.args.getD 2 {}).low_reg,
   Call.AllocTemp r_old_value,
   Call.LoadValue (info.args.getD 4 {}),
   Call.FreeTemp r_old_value,
   Call.EvalLoc info.result,
   Call.FreeTemp r_ptr,
   Call.StoreValue info.result info.result]

/-- The temporaries acquired with `AllocTemp` and not yet released with
`FreeTemp` after a log of collaborator calls, starting from the temporaries
`live`. -/
def liveTempsFrom (live : List Nat) : List Call → List Nat
  | [] => live
  | .AllocTemp r :: cs => liveTempsFrom (live ++ [r]) cs
  | .FreeTemp r :: cs => liveTempsFrom (live.erase r) cs
  | _ :: cs => liveTempsFrom live cs

/-- The temporaries a log of collaborator calls leaves allocated. -/
def liveTemps (calls : List Call) : List Nat := liveTempsFrom [] calls

/-! ## Part 3: theorems -/

/-! ### Word arithmetic -/

theorem SInt_toWord (n : Int) (h1 : -2147483648 ≤ n) (h2 : n < 2147483648) :
    SInt (toWord n) = n := by
  unfold SInt toWord
  split <;> omega

theorem toWord_lt (n : Int) : toWord n < 4294967296 := by
  unfold toWord; omega

theorem SInt_range (x : Nat) (hx : x < 4294967296) :
    -2147483648 ≤ SInt x ∧ SInt x < 2147483648 := by
  unfold SInt
  split <;> omega

theorem toWord_SInt (x : Nat) (hx : x < 4294967296) : toWord (SInt x) = x := by
  unfold SInt toWord
  split <;> omega

theorem tdiv_lit (n d : Int) (hd : 0 ≤ d) :
    Int.tdiv n d = if 0 ≤ n then n / d else -((-n) / d) := by
  split
  · exact Int.tdiv_eq_ediv (by assumption) hd
  · have h : n = -(-n) := by omega
    rw [h, Int.neg_tdiv, Int.tdiv_eq_ediv (by omega) hd]
    simp

theorem AddWithCarry_sub (a b : Int) :
    (AddWithCarry (toWord a) (NOT32 (toWord b)) true).1 = toWord (a - b) := by
  simp only [AddWithCarry, NOT32, toWord, Bool.toNat_true]
  omega

theorem AddWithCarry_rsub (a b : Int) :
    (AddWithCarry (NOT32 (toWord a)) (toWord b) true).1 = toWord (b - a) := by
  simp only [AddWithCarry, NOT32, toWord, Bool.toNat_true]
  omega

theorem add_toWord (a b : Int) :
    (toWord a + toWord b) % 4294967296 = toWord (a + b) := by
  simp only [toWord]
  omega

theorem mem_lits_iff (lit : Int) :
    lit ∈ ([3, 5, 6, 7, 9, 10, 11, 12, 13, 14, 15] : List Int) ↔
      (lit = 3 ∨ lit = 5 ∨ lit = 6 ∨ lit = 7 ∨ lit = 9 ∨ lit = 10 ∨ lit = 11 ∨ lit = 12
        ∨ lit = 13 ∨ lit = 14 ∨ lit = 15) := by
  simp

theorem EncodeShift_asr :
    EncodeShift kArmAsr 31 = 126 ∧ EncodeShift kArmAsr 1 = 6 ∧
    EncodeShift kArmAsr 2 = 10 ∧ EncodeShift kArmAsr 3 = 14 := by
  decide

theorem ediv_ediv_2 (a : Int) : a / 4294967296 / 2 = a / 8589934592 := by omega

theorem ediv_ediv_4 (a : Int) : a / 4294967296 / 4 = a / 17179869184 := by omega

theorem ediv_ediv_8 (a : Int) : a / 4294967296 / 8 = a / 34359738368 := by omega

theorem ediv_add_self (a n : Int) : a / 4294967296 + n = (a + n * 4294967296) / 4294967296 :=
  (Int.add_mul_ediv_right a n (by norm_num)).symm

theorem SInt_cases (x : Nat) :
    (x < 2147483648 ∧ SInt x = (x : Int)) ∨
      (2147483648 ≤ x ∧ SInt x = (x : Int) - 4294967296) := by
  unfold SInt
  split <;> omega

/-! ### Lists with a symbolic prefix -/

theorem getElem?_append_length_add {α : Type} (pre l : List α) (k : Nat) :
    (pre ++ l)[pre.length + k]? = l[k]? := by
  rw [List.getElem?_append_right (by omega)]
  congr 1
  omega

theorem getElem?_append_length {α : Type} (pre l : List α) :
    (pre ++ l)[pre.length]? = l[0]? := by
  simpa using getElem?_append_length_add pre l 0

theorem set_append_length_add {α : Type} (pre l : List α) (k : Nat) (x : α) :
    (pre ++ l).set (pre.length + k) x = pre ++ l.set k x := by
  rw [List.set_append]
  have h : ¬ (pre.length + k < pre.length) := by omega
  simp [h]

theorem set_append_length {α : Type} (pre l : List α) (x : α) :
    (pre ++ l).set pre.length x = pre ++ l.set 0 x :=
  set_append_length_add pre l 0 x


/-! ### Conditions after a compare -/

theorem sub_flag_z (x y : Nat) (hx : x < 4294967296) (hy : y < 4294967296) :
    (AddWithCarry x (NOT32 y) true).2.z = decide (x = y) := by
  simp only [AddWithCarry, NOT32, Bool.toNat_true]
  rw [decide_eq_decide]
  omega

theorem sub_flag_c (x y : Nat) (hx : x < 4294967296) (hy : y < 4294967296) :
    (AddWithCarry x (NOT32 y) true).2.c = decide (y ≤ x) := by
  simp only [AddWithCarry, NOT32, Bool.toNat_true]
  rw [decide_eq_decide]
  omega

theorem sub_flag_nv (x y : Nat) (hx : x < 4294967296) (hy : y < 4294967296) :
    ((AddWithCarry x (NOT32 y) true).2.n == (AddWithCarry x (NOT32 y) true).2.v)
      = decide (SInt y ≤ SInt x) := by
  simp only [AddWithCarry, NOT32, Bool.toNat_true, SInt]
  rw [Bool.eq_iff_iff]
  simp only [beq_iff_eq, decide_eq_decide, decide_eq_true_eq]
  push_cast
  split_ifs <;> omega

theorem SInt_inj (x y : Nat) (hx : x < 4294967296) (hy : y < 4294967296) :
    SInt x = SInt y ↔ x = y := by
  unfold SInt
  split_ifs <;> omega

theorem cond_al (f : Flags) : ConditionPassed 14 f = true := by
  simp [ConditionPassed]

theorem cond_eq (x y : Nat) (hx : x < 4294967296) (hy : y < 4294967296) :
    ConditionPassed 0 (AddWithCarry x (NOT32 y) true).2 = decide (x = y) := by
  have hi := SInt_inj x y hx hy
  rw [Bool.eq_iff_iff]
  simp [ConditionPassed, sub_flag_z x y hx hy, sub_flag_c x y hx hy, sub_flag_nv x y hx hy]
  try omega

theorem cond_ne (x y : Nat) (hx : x < 4294967296) (hy : y < 4294967296) :
    ConditionPassed 1 (AddWithCarry x (NOT32 y) true).2 = decide (x ≠ y) := by
  have hi := SInt_inj x y hx hy
  rw [Bool.eq_iff_iff]
  simp [ConditionPassed, sub_flag_z x y hx hy, sub_flag_c x y hx hy, sub_flag_nv x y hx hy]
  try omega

theorem cond_cs (x y : Nat) (hx : x < 4294967296) (hy : y < 4294967296) :
    ConditionPassed 2 (AddWithCarry x (NOT32 y) true).2 = decide (y ≤ x) := by
  have hi := SInt_inj x y hx hy
  rw [Bool.eq_iff_iff]
  simp [ConditionPassed, sub_flag_z x y hx hy, sub_flag_c x y hx hy, sub_flag_nv x y hx hy]
  try omega

theorem cond_cc (x y : Nat) (hx : x < 4294967296) (hy : y < 4294967296) :
    ConditionPassed 3 (AddWithCarry x (NOT32 y) true).2 = decide (x < y) := by
  have hi := SInt_inj x y hx hy
  rw [Bool.eq_iff_iff]
  simp [ConditionPassed, sub_flag_z x y hx hy, sub_flag_c x y hx hy, sub_flag_nv x y hx hy]
  try omega

theorem cond_hi (x y : Nat) (hx : x < 4294967296) (hy : y < 4294967296) :
    ConditionPassed 8 (AddWithCarry x (NOT32 y) true).2 = decide (y < x) := by
  have hi := SInt_inj x y hx hy
  rw [Bool.eq_iff_iff]
  simp [ConditionPassed, sub_flag_z x y hx hy, sub_flag_c x y hx hy, sub_flag_nv x y hx hy]
  try omega

theorem cond_ls (x y : Nat) (hx : x < 4294967296) (hy : y < 4294967296) :
    ConditionPassed 9 (AddWithCarry x (NOT32 y) true).2 = decide (x ≤ y) := by
  have hi := SInt_inj x y hx hy
  rw [Bool.eq_iff_iff]
  simp [ConditionPassed, sub_flag_z x y hx hy, sub_flag_c x y hx hy, sub_flag_nv x y hx hy]
  try omega

theorem cond_ge (x y : Nat) (hx : x < 4294967296) (hy : y < 4294967296) :
    ConditionPassed 10 (AddWithCarry x (NOT32 y) true).2 = decide (SInt y ≤ SInt x) := by
  have hi := SInt_inj x y hx hy
  rw [Bool.eq_iff_iff]
  simp [ConditionPassed, sub_flag_z x y hx hy, sub_flag_c x y hx hy, sub_flag_nv x y hx hy]
  try omega

theorem cond_lt (x y : Nat) (hx : x < 4294967296) (hy : y < 4294967296) :
    ConditionPassed 11 (AddWithCarry x (NOT32 y) true).2 = decide (SInt x < SInt y) := by
  have hi := SInt_inj x y hx hy
  rw [Bool.eq_iff_iff]
  simp [ConditionPassed, sub_flag_z x y hx hy, sub_flag_c x y hx hy, sub_flag_nv x y hx hy]
  try omega

theorem cond_gt (x y : Nat) (hx : x < 4294967296) (hy : y < 4294967296) :
    ConditionPassed 12 (AddWithCarry x (NOT32 y) true).2 = decide (SInt y < SInt x) := by
  have hi := SInt_inj x y hx hy
  rw [Bool.eq_iff_iff]
  simp [ConditionPassed, sub_flag_z x y hx hy, sub_flag_c x y hx hy, sub_flag_nv x y hx hy]
  try omega

theorem cond_le (x y : Nat) (hx : x < 4294967296) (hy : y < 4294967296) :
    ConditionPassed 13 (AddWithCarry x (NOT32 y) true).2 = decide (SInt x ≤ SInt y) := by
  have hi := SInt_inj x y hx hy
  rw [Bool.eq_iff_iff]
  simp [ConditionPassed, sub_flag_z x y hx hy, sub_flag_c x y hx hy, sub_flag_nv x y hx hy]
  try omega

/-! ### Unfolding the executor one step at a time -/

theorem run_unfold (U : Nat → Flags) (base : Nat) (prog : List Emitted) (fuel pc : Nat)
    (m : Machine) :
    run U base prog (fuel + 1) pc m =
      match prog[pc]? with
      | none => if pc = prog.length then some (Outcome.fell m) else none
      | some e => afterStep U base prog fuel pc (step (U pc) e m) := by
  rw [run]
  cases hp : prog[pc]? with
  | none => simp
  | some e =>
    cases hs : step (U pc) e m with
    | next m1 => simp [afterStep]
    | branch t m1 => cases t <;> simp [afterStep]
    | stuck => simp [afterStep]

theorem afterStep_next (U : Nat → Flags) (base : Nat) (prog : List Emitted) (fuel pc : Nat)
    (m1 : Machine) :
    afterStep U base prog fuel pc (StepResult.next m1) = run U base prog fuel (pc + 1) m1 :=
  rfl

theorem afterStep_node (U : Nat → Flags) (base : Nat) (prog : List Emitted) (fuel pc k : Nat)
    (m1 : Machine) :
    afterStep U base prog fuel pc (StepResult.branch (Target.node (base + k)) m1)
      = run U base prog fuel k m1 := by
  simp [afterStep]

theorem afterStep_block (U : Nat → Flags) (base : Nat) (prog : List Emitted) (fuel pc id : Nat)
    (m1 : Machine) :
    afterStep U base prog fuel pc (StepResult.branch (Target.block id) m1)
      = some (Outcome.jumped id m1) :=
  rfl

theorem afterStep_launchpad (U : Nat → Flags) (base : Nat) (prog : List Emitted)
    (fuel pc : Nat) (kind : ThrowKind) (m1 : Machine) :
    afterStep U base prog fuel pc (StepResult.branch (Target.launchpad kind) m1)
      = some (Outcome.threw kind m1) :=
  rfl

theorem afterStep_ite (U : Nat → Flags) (base : Nat) (prog : List Emitted) (fuel pc : Nat)
    (c : Prop) [Decidable c] (a b : StepResult) :
    afterStep U base prog fuel pc (if c then a else b)
      = if c then afterStep U base prog fuel pc a else afterStep U base prog fuel pc b := by
  split <;> rfl

theorem run_end (U : Nat → Flags) (base : Nat) (prog : List Emitted) (fuel pc : Nat)
    (m : Machine) (h : prog[pc]? = none) (hl : prog.length = pc) :
    run U base prog (fuel + 1) pc m = some (Outcome.fell m) := by
  rw [run_unfold, h]
  simp [hl]

theorem run_at (U : Nat → Flags) (base : Nat) (prog : List Emitted) (fuel pc : Nat)
    (m : Machine) (e : Emitted) (h : prog[pc]? = some e) :
    run U base prog (fuel + 1) pc m = afterStep U base prog fuel pc (step (U pc) e m) := by
  rw [run_unfold, h]

theorem step_pseudo (U : Flags) (e : Emitted) (m : Machine) (hp : isPseudo e = true) :
    step U e m = StepResult.next m := by
  simp [step, hp]

theorem step_it (U : Flags) (l : LIR) (m : Machine)
    (ho : l.opcode = ArmOpcode.kThumb2It) (hn : l.is_nop = false) :
    step U (Emitted.node l) m
      = StepResult.next { m with itstate := l.opN 0 % 16 * 16 + l.opN 1 % 16 } := by
  simp [step, isPseudo, itOperands, ho, hn]

theorem step_cond (U : Flags) (e : Emitted) (m : Machine)
    (hp : isPseudo e = false) (hi : itOperands e = none) :
    step U e m =
      if ConditionPassed (CurrentCond m.itstate) m.flags then
        execute U (InITBlock m.itstate) e { m with itstate := ITAdvance m.itstate }
      else StepResult.next { m with itstate := ITAdvance m.itstate } := by
  simp [step, hp, hi]

theorem it_state_facts :
    CurrentCond 0 = 14 ∧ InITBlock 0 = false ∧ ITAdvance 0 = 0 := by
  decide

/-! ### Register moves (`OpRegCopy`) -/

theorem and_safe_bit (x : Nat) :
    x &&& (1 <<< kSafeOptimizations) = 0 ↔ x.testBit kSafeOptimizations = false := by
  have h : (1 <<< kSafeOptimizations) = 2 ^ 7 := by decide
  have hk : kSafeOptimizations = 7 := rfl
  have hp : ∀ i, Nat.testBit (2 ^ 7) i = decide (7 = i) := fun i => Nat.testBit_two_pow
  rw [h, hk]
  constructor
  · intro hx
    have h7 : Nat.testBit (x &&& 2 ^ 7) 7 = Nat.testBit 0 7 := by rw [hx]
    rw [Nat.testBit_and, hp] at h7
    simpa using h7
  · intro hb
    apply Nat.eq_of_testBit_eq
    intro i
    rw [Nat.testBit_and, hp]
    by_cases hi : 7 = i
    · subst hi
      simp [hb]
    · simp [hi]

theorem OpRegCopy_gp (cu : CompilationUnit) (r_dest r_src : Nat)
    (hd : ARM_FPREG r_dest = false) (hs : ARM_FPREG r_src = false) :
    (OpRegCopy r_dest r_src).run cu = Except.ok (cu.lir.length,
      { cu with lir := cu.lir ++ [Emitted.node (moveNode cu.disable_opt r_dest r_src)] }) := by
  have hbit := and_safe_bit cu.disable_opt
  by_cases hn : r_dest = r_src ∧ cu.disable_opt.testBit kSafeOptimizations = false
  · have hn1 : cu.disable_opt &&& (1 <<< kSafeOptimizations) = 0 ∧ r_dest = r_src :=
      ⟨hbit.mpr hn.2, hn.1⟩
    cases h1 : ARM_LOWREG r_dest <;> cases h2 : ARM_LOWREG r_src <;>
      simp [OpRegCopy, OpRegCopyNoInsert, AppendLIR, emit, RawLIR, moveNode, hd, hs, h1, h2,
        hn, hn1, StateT.run, bind, StateT.bind, Except.bind, get, getThe, MonadStateOf.get,
        StateT.get, pure, StateT.pure, Except.pure]
  · have hn1 : ¬ (cu.disable_opt &&& (1 <<< kSafeOptimizations) = 0 ∧ r_dest = r_src) :=
      fun h => hn ⟨h.2, hbit.mp h.1⟩
    cases h1 : ARM_LOWREG r_dest <;> cases h2 : ARM_LOWREG r_src <;>
      simp [OpRegCopy, OpRegCopyNoInsert, AppendLIR, emit, RawLIR, moveNode, hd, hs, h1, h2,
        hn, hn1, StateT.run, bind, StateT.bind, Except.bind, get, getThe, MonadStateOf.get,
        StateT.get, pure, StateT.pure, Except.pure]

theorem step_moveNode (U : Flags) (o d s : Nat) (m : Machine) (hit : m.itstate = 0) :
    ∃ f, step U (Emitted.node (moveNode o d s)) m = StepResult.next
      { regs := Function.update m.regs d (m.regs s), flags := f, itstate := 0, mem := m.mem } := by
  obtain ⟨f0, f1, f2⟩ := it_state_facts
  by_cases hn : d = s ∧ o.testBit kSafeOptimizations = false
  · refine ⟨m.flags, ?_⟩
    rw [step_pseudo _ _ _ (by simp [isPseudo, moveNode, hn])]
    obtain ⟨rfl, -⟩ := hn
    rw [Function.update_eq_self, ← hit]
  · cases h1 : ARM_LOWREG d <;> cases h2 : ARM_LOWREG s <;>
      rw [step_cond _ _ _ (by simp [isPseudo, moveNode, hn, h1, h2])
        (by simp [itOperands, moveNode, h1, h2])] <;>
      simp [hit, f0, f1, f2, cond_al, execute, executeNode, moveNode, h1, h2, softFlags,
        Machine.setReg, LIR.opN, LIR.op]

theorem run_two_moves (U : Nat → Flags) (base o1 o2 d1 s1 d2 s2 : Nat) (m : Machine)
    (hit : m.itstate = 0) :
    ∃ m', run U base [Emitted.node (moveNode o1 d1 s1), Emitted.node (moveNode o2 d2 s2)] 4 0 m
        = some (Outcome.fell m') ∧
      m'.regs = Function.update (Function.update m.regs d1 (m.regs s1)) d2
        (Function.update m.regs d1 (m.regs s1) s2) := by
  obtain ⟨fa, ha⟩ := step_moveNode (U 0) o1 d1 s1 m hit
  obtain ⟨fb, hb⟩ := step_moveNode (U 1) o2 d2 s2
    { regs := Function.update m.regs d1 (m.regs s1), flags := fa, itstate := 0, mem := m.mem } rfl
  refine ⟨⟨Function.update (Function.update m.regs d1 (m.regs s1)) d2
      (Function.update m.regs d1 (m.regs s1) s2), fb, 0, m.mem⟩, ?_, rfl⟩
  rw [run_at U base _ 3 0 m (Emitted.node (moveNode o1 d1 s1)) rfl, ha, afterStep_next,
    run_at U base _ 2 1 _ (Emitted.node (moveNode o2 d2 s2)) rfl, hb, afterStep_next,
    run_end U base [Emitted.node (moveNode o1 d1 s1), Emitted.node (moveNode o2 d2 s2)] 1 2 _
      rfl rfl]

theorem OpRegCopyWide_gp (cu : CompilationUnit) (dest_lo dest_hi src_lo src_hi : Nat)
    (h1 : ARM_FPREG dest_lo = false) (h2 : ARM_FPREG dest_hi = false)
    (h3 : ARM_FPREG src_lo = false) (h4 : ARM_FPREG src_hi = false) :
    (OpRegCopyWide dest_lo dest_hi src_lo src_hi).run cu = Except.ok ((),
      { cu with lir := cu.lir ++
          if src_hi = dest_lo then
            [Emitted.node (moveNode cu.disable_opt dest_hi src_hi),
             Emitted.node (moveNode cu.disable_opt dest_lo src_lo)]
          else
            [Emitted.node (moveNode cu.disable_opt dest_lo src_lo),
             Emitted.node (moveNode cu.disable_opt dest_hi src_hi)] }) := by
  have r1 := fun cu => OpRegCopy_gp cu dest_lo src_lo h1 h3
  have r2 := fun cu => OpRegCopy_gp cu dest_hi src_hi h2 h4
  simp only [StateT.run] at r1 r2
  by_cases h : src_hi = dest_lo
  · rw [if_pos h]
    simp only [OpRegCopyWide, h1, h2, h3, h4, Bool.and_self, Bool.false_eq_true, if_false,
      if_pos h, StateT.run, bind, StateT.bind, Except.bind, r1, r2]
    simp [pure, StateT.pure, Except.pure]
  · rw [if_neg h]
    simp only [OpRegCopyWide, h1, h2, h3, h4, Bool.and_self, Bool.false_eq_true, if_false,
      if_neg h, StateT.run, bind, StateT.bind, Except.bind, r1, r2]
    simp [pure, StateT.pure, Except.pure]

/-! ### Division by a small literal (`SmallLiteralDivide`) -/

theorem SmallLiteralDivide_emits (cu : CompilationUnit) (rl_src rl_dest : RegLocation)
    (r_magic r_hi r_lo : Nat) (lit : Int)
    (hlit : lit ∈ ([3, 5, 6, 7, 9, 10, 11, 12, 13, 14, 15] : List Int)) :
    ∃ cu',
      (SmallLiteralDivide Instruction.DIV_INT_LIT8 rl_src rl_dest lit r_magic r_hi r_lo).run cu
        = Except.ok (true, cu') ∧
      cu'.lir.drop cu.lir.length =
        divideBlock (magic_table.getD lit.toNat ⟨0, 0, .DivideNone⟩)
          rl_src.low_reg rl_dest.low_reg r_magic r_hi r_lo := by
  rw [mem_lits_iff] at hlit
  rcases hlit with rfl | rfl | rfl | rfl | rfl | rfl | rfl | rfl | rfl | rfl | rfl <;>
    simp [SmallLiteralDivide, magic_table, divideBlock, StateT.run, bind, StateT.bind, pure,
      StateT.pure, Except.pure, Except.bind, AllocTemp, call, LoadConstant, emit, LoadValue,
      EvalLoc, NewLIR4, OpRegRegRegShift, OpRegRegImm, OpRegReg, StoreValue]

theorem run_Divide3 (src dst r_magic r_hi r_lo : Nat) (n M : Int) (U : Nat → Flags)
    (m : Machine) (base : Nat)
    (hn1 : -2147483648 ≤ n) (hn2 : n < 2147483648)
    (hM1 : -2147483648 ≤ M) (hM2 : M < 2147483648)
    (hit : m.itstate = 0) (hsrc : m.regs src = toWord n)
    (h1 : r_magic ≠ src) (h2 : r_hi ≠ src) (h3 : r_lo ≠ src) :
    ∃ m', run U base (divideBlock ⟨toWord M, 0, .Divide3⟩ src dst r_magic r_hi r_lo) 8 0 m
        = some (Outcome.fell m') ∧
      m'.regs dst = toWord (M * n / 4294967296 - n / 2147483648) := by
  obtain ⟨q1, q2, q3, q4⟩ := EncodeShift_asr
  have hM : SInt (toWord M) = M := SInt_toWord M hM1 hM2
  have hN : SInt (toWord n) = n := SInt_toWord n hn1 hn2
  have e0 : (divideBlock ⟨toWord M, 0, .Divide3⟩ src dst r_magic r_hi r_lo)[0]? = some
      (Emitted.LoadConstant r_magic (SInt (toWord M))) := rfl
  have e1 : (divideBlock ⟨toWord M, 0, .Divide3⟩ src dst r_magic r_hi r_lo)[1]? = some
      (Emitted.node { opcode := .kThumb2Smull, operands := [(r_lo : Int), (r_hi : Int), (r_magic : Int), (src : Int)] }) := rfl
  have e2 : (divideBlock ⟨toWord M, 0, .Divide3⟩ src dst r_magic r_hi r_lo)[2]? = some
      (Emitted.OpRegRegRegShift .kOpSub dst r_hi src (EncodeShift kArmAsr 31)) := rfl
  have e3 : (divideBlock ⟨toWord M, 0, .Divide3⟩ src dst r_magic r_hi r_lo)[3]? = none := rfl
  have hlen : (divideBlock ⟨toWord M, 0, .Divide3⟩ src dst r_magic r_hi r_lo).length = 3 := rfl
  have r0 := fun fuel m => run_at U base _ fuel 0 m _ e0
  have r1 := fun fuel m => run_at U base _ fuel 1 m _ e1
  have r2 := fun fuel m => run_at U base _ fuel 2 m _ e2
  have r3 := fun fuel m => run_end U base _ fuel 3 m e3 hlen
  clear e0 e1 e2 e3 hlen
  generalize divideBlock ⟨toWord M, 0, .Divide3⟩ src dst r_magic r_hi r_lo = prog at *
  obtain ⟨f0, f1, f2⟩ := it_state_facts
  simp only [isPseudo, itOperands, reduceCtorEq, Bool.false_or, Bool.or_false, Bool.or_true,
      beq_iff_eq, beq_self_eq_true, beq_eq_false_iff_ne,
      afterStep_next, afterStep_node, afterStep_block, step_pseudo, step_it, step_cond,
      cond_al, execute, executeNode, dataProc, softFlags, Machine.setReg, LIR.opN, LIR.op,
      List.getD_cons_zero, List.getD_cons_succ, Int.toNat_ofNat, Int.reduceToNat,
      Function.update_same, Function.update_idem,
      Bool.false_eq_true, ↓reduceIte, Nat.reduceAdd, Nat.reduceMod, Nat.reduceMul,
      Nat.reduceDiv, ne_eq, OfNat.ofNat_ne_zero,
      not_false_eq_true, not_true_eq_false, decide_True, decide_False, hit, f0, f1, f2, r0, r1, r2, r3]
  refine ⟨_, rfl, ?_⟩
  simp [Function.update_noteq, h1.symm, h2.symm, h3.symm, hsrc, hN, hM, shiftOperand,
    q1, q2, q3, q4, AddWithCarry_sub, AddWithCarry_rsub, add_toWord]

theorem run_Divide5 (src dst r_magic r_hi r_lo : Nat) (n M : Int) (s : Nat) (U : Nat → Flags)
    (m : Machine) (base : Nat)
    (hs : s = 1 ∨ s = 2 ∨ s = 3)
    (hn1 : -2147483648 ≤ n) (hn2 : n < 2147483648)
    (hM1 : -2147483648 ≤ M) (hM2 : M < 2147483648)
    (hit : m.itstate = 0) (hsrc : m.regs src = toWord n)
    (h1 : r_magic ≠ src) (h2 : r_hi ≠ src) (h3 : r_lo ≠ src) (h4 : r_lo ≠ r_hi) :
    ∃ m', run U base (divideBlock ⟨toWord M, s, .Divide5⟩ src dst r_magic r_hi r_lo) 8 0 m
        = some (Outcome.fell m') ∧
      m'.regs dst = toWord (SInt (toWord (M * n / 4294967296)) / 2 ^ s - n / 2147483648) := by
  obtain ⟨q1, q2, q3, q4⟩ := EncodeShift_asr
  have hM : SInt (toWord M) = M := SInt_toWord M hM1 hM2
  have hN : SInt (toWord n) = n := SInt_toWord n hn1 hn2
  have e0 : (divideBlock ⟨toWord M, s, .Divide5⟩ src dst r_magic r_hi r_lo)[0]? = some
      (Emitted.LoadConstant r_magic (SInt (toWord M))) := rfl
  have e1 : (divideBlock ⟨toWord M, s, .Divide5⟩ src dst r_magic r_hi r_lo)[1]? = some
      (Emitted.node { opcode := .kThumb2Smull, operands := [(r_lo : Int), (r_hi : Int), (r_magic : Int), (src : Int)] }) := rfl
  have e2 : (divideBlock ⟨toWord M, s, .Divide5⟩ src dst r_magic r_hi r_lo)[2]? = some
      (Emitted.OpRegRegImm .kOpAsr r_lo src 31) := rfl
  have e3 : (divideBlock ⟨toWord M, s, .Divide5⟩ src dst r_magic r_hi r_lo)[3]? = some
      (Emitted.OpRegRegRegShift .kOpRsub dst r_lo r_hi (EncodeShift kArmAsr s)) := rfl
  have e4 : (divideBlock ⟨toWord M, s, .Divide5⟩ src dst r_magic r_hi r_lo)[4]? = none := rfl
  have hlen : (divideBlock ⟨toWord M, s, .Divide5⟩ src dst r_magic r_hi r_lo).length = 4 := rfl
  have r0 := fun fuel m => run_at U base _ fuel 0 m _ e0
  have r1 := fun fuel m => run_at U base _ fuel 1 m _ e1
  have r2 := fun fuel m => run_at U base _ fuel 2 m _ e2
  have r3 := fun fuel m => run_at U base _ fuel 3 m _ e3
  have r4 := fun fuel m => run_end U base _ fuel 4 m e4 hlen
  clear e0 e1 e2 e3 e4 hlen
  generalize divideBlock ⟨toWord M, s, .Divide5⟩ src dst r_magic r_hi r_lo = prog at *
  obtain ⟨f0, f1, f2⟩ := it_state_facts
  simp only [isPseudo, itOperands, reduceCtorEq, Bool.false_or, Bool.or_false, Bool.or_true,
      beq_iff_eq, beq_self_eq_true, beq_eq_false_iff_ne,
      afterStep_next, afterStep_node, afterStep_block, step_pseudo, step_it, step_cond,
      cond_al, execute, executeNode, dataProc, softFlags, Machine.setReg, LIR.opN, LIR.op,
      List.getD_cons_zero, List.getD_cons_succ, Int.toNat_ofNat, Int.reduceToNat,
      Function.update_same, Function.update_idem,
      Bool.false_eq_true, ↓reduceIte, Nat.reduceAdd, Nat.reduceMod, Nat.reduceMul,
      Nat.reduceDiv, ne_eq, OfNat.ofNat_ne_zero,
      not_false_eq_true, not_true_eq_false, decide_True, decide_False, hit, f0, f1, f2, r0, r1, r2, r3, r4]
  refine ⟨_, rfl, ?_⟩
  rcases hs with rfl | rfl | rfl <;>
  simp [Function.update_noteq, h1.symm, h2.symm, h3.symm, h4, h4.symm, hsrc, hN, hM, shiftOperand,
    q1, q2, q3, q4, AddWithCarry_sub, AddWithCarry_rsub, add_toWord]

theorem run_Divide7 (src dst r_magic r_hi r_lo : Nat) (n M : Int) (s : Nat) (U : Nat → Flags)
    (m : Machine) (base : Nat)
    (hs : s = 1 ∨ s = 2 ∨ s = 3)
    (hn1 : -2147483648 ≤ n) (hn2 : n < 2147483648)
    (hM1 : -2147483648 ≤ M) (hM2 : M < 2147483648)
    (hit : m.itstate = 0) (hsrc : m.regs src = toWord n)
    (h1 : r_magic ≠ src) (h2 : r_hi ≠ src) (h3 : r_lo ≠ src) (h4 : r_lo ≠ r_hi) :
    ∃ m', run U base (divideBlock ⟨toWord M, s, .Divide7⟩ src dst r_magic r_hi r_lo) 8 0 m
        = some (Outcome.fell m') ∧
      m'.regs dst = toWord (SInt (toWord (M * n / 4294967296 + n)) / 2 ^ s - n / 2147483648) := by
  obtain ⟨q1, q2, q3, q4⟩ := EncodeShift_asr
  have hM : SInt (toWord M) = M := SInt_toWord M hM1 hM2
  have hN : SInt (toWord n) = n := SInt_toWord n hn1 hn2
  have e0 : (divideBlock ⟨toWord M, s, .Divide7⟩ src dst r_magic r_hi r_lo)[0]? = some
      (Emitted.LoadConstant r_magic (SInt (toWord M))) := rfl
  have e1 : (divideBlock ⟨toWord M, s, .Divide7⟩ src dst r_magic r_hi r_lo)[1]? = some
      (Emitted.node { opcode := .kThumb2Smull, operands := [(r_lo : Int), (r_hi : Int), (r_magic : Int), (src : Int)] }) := rfl
  have e2 : (divideBlock ⟨toWord M, s, .Divide7⟩ src dst r_magic r_hi r_lo)[2]? = some
      (Emitted.OpRegReg .kOpAdd r_hi src) := rfl
  have e3 : (divideBlock ⟨toWord M, s, .Divide7⟩ src dst r_magic r_hi r_lo)[3]? = some
      (Emitted.OpRegRegImm .kOpAsr r_lo src 31) := rfl
  have e4 : (divideBlock ⟨toWord M, s, .Divide7⟩ src dst r_magic r_hi r_lo)[4]? = some
      (Emitted.OpRegRegRegShift .kOpRsub dst r_lo r_hi (EncodeShift kArmAsr s)) := rfl
  have e5 : (divideBlock ⟨toWord M, s, .Divide7⟩ src dst r_magic r_hi r_lo)[5]? = none := rfl
  have hlen : (divideBlock ⟨toWord M, s, .Divide7⟩ src dst r_magic r_hi r_lo).length = 5 := rfl
  have r0 := fun fuel m => run_at U base _ fuel 0 m _ e0
  have r1 := fun fuel m => run_at U base _ fuel 1 m _ e1
  have r2 := fun fuel m => run_at U base _ fuel 2 m _ e2
  have r3 := fun fuel m => run_at U base _ fuel 3 m _ e3
  have r4 := fun fuel m => run_at U base _ fuel 4 m _ e4
  have r5 := fun fuel m => run_end U base _ fuel 5 m e5 hlen
  clear e0 e1 e2 e3 e4 e5 hlen
  generalize divideBlock ⟨toWord M, s, .Divide7⟩ src dst r_magic r_hi r_lo = prog at *
  obtain ⟨f0, f1, f2⟩ := it_state_facts
  simp only [isPseudo, itOperands, reduceCtorEq, Bool.false_or, Bool.or_false, Bool.or_true,
      beq_iff_eq, beq_self_eq_true, beq_eq_false_iff_ne,
      afterStep_next, afterStep_node, afterStep_block, step_pseudo, step_it, step_cond,
      cond_al, execute, executeNode, dataProc, softFlags, Machine.setReg, LIR.opN, LIR.op,
      List.getD_cons_zero, List.getD_cons_succ, Int.toNat_ofNat, Int.reduceToNat,
      Function.update_same, Function.update_idem,
      Bool.false_eq_true, ↓reduceIte, Nat.reduceAdd, Nat.reduceMod, Nat.reduceMul,
      Nat.reduceDiv, ne_eq, OfNat.ofNat_ne_zero,
      not_false_eq_true, not_true_eq_false, decide_True, decide_False, hit, f0, f1, f2, r0, r1, r2, r3, r4, r5]
  refine ⟨_, rfl, ?_⟩
  rcases hs with rfl | rfl | rfl <;>
  simp [Function.update_noteq, h1.symm, h2.symm, h3.symm, h4, h4.symm, hsrc, hN, hM, shiftOperand,
    q1, q2, q3, q4, AddWithCarry_sub, AddWithCarry_rsub, add_toWord]

theorem quotient_3 (n : Int) (hn1 : -2147483648 ≤ n) (hn2 : n < 2147483648) :
    SInt (toWord (1431655766 * n / 4294967296 - n / 2147483648)) = Int.tdiv n 3 := by
  try simp only [Int.reducePow]
  simp (disch := omega) only [SInt_toWord]
  try simp only [ediv_add_self]
  try simp only [ediv_ediv_2, ediv_ediv_4, ediv_ediv_8]
  rw [tdiv_lit _ _ (by omega)]
  split <;> omega

theorem quotient_5 (n : Int) (hn1 : -2147483648 ≤ n) (hn2 : n < 2147483648) :
    SInt (toWord (SInt (toWord (1717986919 * n / 4294967296)) / 2 ^ 1 - n / 2147483648)) = Int.tdiv n 5 := by
  try simp only [Int.reducePow]
  simp (disch := omega) only [SInt_toWord]
  try simp only [ediv_add_self]
  try simp only [ediv_ediv_2, ediv_ediv_4, ediv_ediv_8]
  rw [tdiv_lit _ _ (by omega)]
  split <;> omega

theorem quotient_6 (n : Int) (hn1 : -2147483648 ≤ n) (hn2 : n < 2147483648) :
    SInt (toWord (715827883 * n / 4294967296 - n / 2147483648)) = Int.tdiv n 6 := by
  try simp only [Int.reducePow]
  simp (disch := omega) only [SInt_toWord]
  try simp only [ediv_add_self]
  try simp only [ediv_ediv_2, ediv_ediv_4, ediv_ediv_8]
  rw [tdiv_lit _ _ (by omega)]
  split <;> omega

theorem quotient_7 (n : Int) (hn1 : -2147483648 ≤ n) (hn2 : n < 2147483648) :
    SInt (toWord (SInt (toWord ((-1840700269) * n / 4294967296 + n)) / 2 ^ 2 - n / 2147483648)) = Int.tdiv n 7 := by
  try simp only [Int.reducePow]
  simp (disch := omega) only [SInt_toWord]
  try simp only [ediv_add_self]
  try simp only [ediv_ediv_2, ediv_ediv_4, ediv_ediv_8]
  rw [tdiv_lit _ _ (by omega)]
  split <;> omega

theorem quotient_9 (n : Int) (hn1 : -2147483648 ≤ n) (hn2 : n < 2147483648) :
    SInt (toWord (SInt (toWord (954437177 * n / 4294967296)) / 2 ^ 1 - n / 2147483648)) = Int.tdiv n 9 := by
  try simp only [Int.reducePow]
  simp (disch := omega) only [SInt_toWord]
  try simp only [ediv_add_self]
  try simp only [ediv_ediv_2, ediv_ediv_4, ediv_ediv_8]
  rw [tdiv_lit _ _ (by omega)]
  split <;> omega

theorem quotient_10 (n : Int) (hn1 : -2147483648 ≤ n) (hn2 : n < 2147483648) :
    SInt (toWord (SInt (toWord (1717986919 * n / 4294967296)) / 2 ^ 2 - n / 2147483648)) = Int.tdiv n 10 := by
  try simp only [Int.reducePow]
  simp (disch := omega) only [SInt_toWord]
  try simp only [ediv_add_self]
  try simp only [ediv_ediv_2, ediv_ediv_4, ediv_ediv_8]
  rw [tdiv_lit _ _ (by omega)]
  split <;> omega

theorem quotient_11 (n : Int) (hn1 : -2147483648 ≤ n) (hn2 : n < 2147483648) :
    SInt (toWord (SInt (toWord (780903145 * n / 4294967296)) / 2 ^ 1 - n / 2147483648)) = Int.tdiv n 11 := by
  try simp only [Int.reducePow]
  simp (disch := omega) only [SInt_toWord]
  try simp only [ediv_add_self]
  try simp only [ediv_ediv_2, ediv_ediv_4, ediv_ediv_8]
  rw [tdiv_lit _ _ (by omega)]
  split <;> omega

theorem quotient_12 (n : Int) (hn1 : -2147483648 ≤ n) (hn2 : n < 2147483648) :
    SInt (toWord (SInt (toWord (715827883 * n / 4294967296)) / 2 ^ 1 - n / 2147483648)) = Int.tdiv n 12 := by
  try simp only [Int.reducePow]
  simp (disch := omega) only [SInt_toWord]
  try simp only [ediv_add_self]
  try simp only [ediv_ediv_2, ediv_ediv_4, ediv_ediv_8]
  rw [tdiv_lit _ _ (by omega)]
  split <;> omega

theorem quotient_13 (n : Int) (hn1 : -2147483648 ≤ n) (hn2 : n < 2147483648) :
    SInt (toWord (SInt (toWord (1321528399 * n / 4294967296)) / 2 ^ 2 - n / 2147483648)) = Int.tdiv n 13 := by
  try simp only [Int.reducePow]
  simp (disch := omega) only [SInt_toWord]
  try simp only [ediv_add_self]
  try simp only [ediv_ediv_2, ediv_ediv_4, ediv_ediv_8]
  rw [tdiv_lit _ _ (by omega)]
  split <;> omega

theorem quotient_14 (n : Int) (hn1 : -2147483648 ≤ n) (hn2 : n < 2147483648) :
    SInt (toWord (SInt (toWord ((-1840700269) * n / 4294967296 + n)) / 2 ^ 3 - n / 2147483648)) = Int.tdiv n 14 := by
  try simp only [Int.reducePow]
  simp (disch := omega) only [SInt_toWord]
  try simp only [ediv_add_self]
  try simp only [ediv_ediv_2, ediv_ediv_4, ediv_ediv_8]
  rw [tdiv_lit _ _ (by omega)]
  split <;> omega

theorem quotient_15 (n : Int) (hn1 : -2147483648 ≤ n) (hn2 : n < 2147483648) :
    SInt (toWord (SInt (toWord ((-2004318071) * n / 4294967296 + n)) / 2 ^ 3 - n / 2147483648)) = Int.tdiv n 15 := by
  try simp only [Int.reducePow]
  simp (disch := omega) only [SInt_toWord]
  try simp only [ediv_add_self]
  try simp only [ediv_ediv_2, ediv_ediv_4, ediv_ediv_8]
  rw [tdiv_lit _ _ (by omega)]
  split <;> omega

/-- C1: for every literal in {3, 5, 6, 7, 9, ..., 15} and every signed 32-bit dividend `n`
held in the source register, `SmallLiteralDivide` (called for `DIV_INT_LIT8`) succeeds and
the block it emits (magic multiply, then the fix-up its pattern selects), run with enough
fuel from outside an IT block, ends with the signed reading of the result register equal to
`n / lit` rounded toward zero.  The temporaries are distinct from the source register and
`r_lo` from `r_hi`, as the allocator guarantees. -/
theorem C1_SmallLiteralDivide_quotient (cu : CompilationUnit) (rl_src rl_dest : RegLocation)
    (r_magic r_hi r_lo : Nat) (lit n : Int) (U : Nat → Flags) (m : Machine)
    (hlit : lit ∈ ([3, 5, 6, 7, 9, 10, 11, 12, 13, 14, 15] : List Int))
    (hn1 : -2147483648 ≤ n) (hn2 : n < 2147483648)
    (hit : m.itstate = 0) (hsrc : m.regs rl_src.low_reg = toWord n)
    (h1 : r_magic ≠ rl_src.low_reg) (h2 : r_hi ≠ rl_src.low_reg) (h3 : r_lo ≠ rl_src.low_reg)
    (h4 : r_lo ≠ r_hi) :
    ∃ cu' m',
      (SmallLiteralDivide Instruction.DIV_INT_LIT8 rl_src rl_dest lit r_magic r_hi r_lo).run cu
        = Except.ok (true, cu') ∧
      run U cu.lir.length (cu'.lir.drop cu.lir.length) 8 0 m = some (Outcome.fell m') ∧
      SInt (m'.regs rl_dest.low_reg) = Int.tdiv n lit := by
  obtain ⟨cu', hrun, hblk⟩ :=
    SmallLiteralDivide_emits cu rl_src rl_dest r_magic r_hi r_lo lit hlit
  refine ⟨cu', ?_⟩
  rw [hblk]
  rw [mem_lits_iff] at hlit
  rcases hlit with rfl | rfl | rfl | rfl | rfl | rfl | rfl | rfl | rfl | rfl | rfl
  · have hrow : magic_table.getD (3 : Int).toNat ⟨0, 0, .DivideNone⟩
        = ⟨toWord 1431655766, 0, .Divide3⟩ := by decide
    rw [hrow]
    obtain ⟨m', hm, hres⟩ :=
      run_Divide3 rl_src.low_reg rl_dest.low_reg r_magic r_hi r_lo n 1431655766 U m cu.lir.length
        hn1 hn2 (by norm_num) (by norm_num) hit hsrc h1 h2 h3
    exact ⟨m', hrun, hm, by rw [hres]; exact quotient_3 n hn1 hn2⟩
  · have hrow : magic_table.getD (5 : Int).toNat ⟨0, 0, .DivideNone⟩
        = ⟨toWord 1717986919, 1, .Divide5⟩ := by decide
    rw [hrow]
    obtain ⟨m', hm, hres⟩ :=
      run_Divide5 rl_src.low_reg rl_dest.low_reg r_magic r_hi r_lo n 1717986919 1 U m cu.lir.length
        (by simp) hn1 hn2 (by norm_num) (by norm_num) hit hsrc h1 h2 h3 h4
    exact ⟨m', hrun, hm, by rw [hres]; exact quotient_5 n hn1 hn2⟩
  · have hrow : magic_table.getD (6 : Int).toNat ⟨0, 0, .DivideNone⟩
        = ⟨toWord 715827883, 0, .Divide3⟩ := by decide
    rw [hrow]
    obtain ⟨m', hm, hres⟩ :=
      run_Divide3 rl_src.low_reg rl_dest.low_reg r_magic r_hi r_lo n 715827883 U m cu.lir.length
        hn1 hn2 (by norm_num) (by norm_num) hit hsrc h1 h2 h3
    exact ⟨m', hrun, hm, by rw [hres]; exact quotient_6 n hn1 hn2⟩
  · have hrow : magic_table.getD (7 : Int).toNat ⟨0, 0, .DivideNone⟩
        = ⟨toWord (-1840700269), 2, .Divide7⟩ := by decide
    rw [hrow]
    obtain ⟨m', hm, hres⟩ :=
      run_Divide7 rl_src.low_reg rl_dest.low_reg r_magic r_hi r_lo n (-1840700269) 2 U m cu.lir.length
        (by simp) hn1 hn2 (by norm_num) (by norm_num) hit hsrc h1 h2 h3 h4
    exact ⟨m', hrun, hm, by rw [hres]; exact quotient_7 n hn1 hn2⟩
  · have hrow : magic_table.getD (9 : Int).toNat ⟨0, 0, .DivideNone⟩
        = ⟨toWord 954437177, 1, .Divide5⟩ := by decide
    rw [hrow]
    obtain ⟨m', hm, hres⟩ :=
      run_Divide5 rl_src.low_reg rl_dest.low_reg r_magic r_hi r_lo n 954437177 1 U m cu.lir.length
        (by simp) hn1 hn2 (by norm_num) (by norm_num) hit hsrc h1 h2 h3 h4
    exact ⟨m', hrun, hm, by rw [hres]; exact quotient_9 n hn1 hn2⟩
  · have hrow : magic_table.getD (10 : Int).toNat ⟨0, 0, .DivideNone⟩
        = ⟨toWord 1717986919, 2, .Divide5⟩ := by decide
    rw [hrow]
    obtain ⟨m', hm, hres⟩ :=
      run_Divide5 rl_src.low_reg rl_dest.low_reg r_magic r_hi r_lo n 1717986919 2 U m cu.lir.length
        (by simp) hn1 hn2 (by norm_num) (by norm_num) hit hsrc h1 h2 h3 h4
    exact ⟨m', hrun, hm, by rw [hres]; exact quotient_10 n hn1 hn2⟩
  · have hrow : magic_table.getD (11 : Int).toNat ⟨0, 0, .DivideNone⟩
        = ⟨toWord 780903145, 1, .Divide5⟩ := by decide
    rw [hrow]
    obtain ⟨m', hm, hres⟩ :=
      run_Divide5 rl_src.low_reg rl_dest.low_reg r_magic r_hi r_lo n 780903145 1 U m cu.lir.length
        (by simp) hn1 hn2 (by norm_num) (by norm_num) hit hsrc h1 h2 h3 h4
    exact ⟨m', hrun, hm, by rw [hres]; exact quotient_11 n hn1 hn2⟩
  · have hrow : magic_table.getD (12 : Int).toNat ⟨0, 0, .DivideNone⟩
        = ⟨toWord 715827883, 1, .Divide5⟩ := by decide
    rw [hrow]
    obtain ⟨m', hm, hres⟩ :=
      run_Divide5 rl_src.low_reg rl_dest.low_reg r_magic r_hi r_lo n 715827883 1 U m cu.lir.length
        (by simp) hn1 hn2 (by norm_num) (by norm_num) hit hsrc h1 h2 h3 h4
    exact ⟨m', hrun, hm, by rw [hres]; exact quotient_12 n hn1 hn2⟩
  · have hrow : magic_table.getD (13 : Int).toNat ⟨0, 0, .DivideNone⟩
        = ⟨toWord 1321528399, 2, .Divide5⟩ := by decide
    rw [hrow]
    obtain ⟨m', hm, hres⟩ :=
      run_Divide5 rl_src.low_reg rl_dest.low_reg r_magic r_hi r_lo n 1321528399 2 U m cu.lir.length
        (by simp) hn1 hn2 (by norm_num) (by norm_num) hit hsrc h1 h2 h3 h4
    exact ⟨m', hrun, hm, by rw [hres]; exact quotient_13 n hn1 hn2⟩
  · have hrow : magic_table.getD (14 : Int).toNat ⟨0, 0, .DivideNone⟩
        = ⟨toWord (-1840700269), 3, .Divide7⟩ := by decide
    rw [hrow]
    obtain ⟨m', hm, hres⟩ :=
      run_Divide7 rl_src.low_reg rl_dest.low_reg r_magic r_hi r_lo n (-1840700269) 3 U m cu.lir.length
        (by simp) hn1 hn2 (by norm_num) (by norm_num) hit hsrc h1 h2 h3 h4
    exact ⟨m', hrun, hm, by rw [hres]; exact quotient_14 n hn1 hn2⟩
  · have hrow : magic_table.getD (15 : Int).toNat ⟨0, 0, .DivideNone⟩
        = ⟨toWord (-2004318071), 3, .Divide7⟩ := by decide
    rw [hrow]
    obtain ⟨m', hm, hres⟩ :=
      run_Divide7 rl_src.low_reg rl_dest.low_reg r_magic r_hi r_lo n (-2004318071) 3 U m cu.lir.length
        (by simp) hn1 hn2 (by norm_num) (by norm_num) hit hsrc h1 h2 h3 h4
    exact ⟨m', hrun, hm, by rw [hres]; exact quotient_15 n hn1 hn2⟩

/-- Witness for C1: dividing -7 by 3 with the source in r0, the result in r1 and the
temporaries r2, r3, r4. -/
theorem C1_SmallLiteralDivide_quotient_witness :
    ∃ cu' m',
      (SmallLiteralDivide Instruction.DIV_INT_LIT8 { low_reg := 0 } { low_reg := 1 } 3 2 3 4).run {}
        = Except.ok (true, cu') ∧
      run (fun _ => ⟨false, false, false, false⟩) 0 (cu'.lir.drop 0) 8 0
        ⟨fun r => if r = 0 then 4294967289 else 0, ⟨false, false, false, false⟩, 0, fun _ => 0⟩
        = some (Outcome.fell m') ∧
      SInt (m'.regs 1) = Int.tdiv (-7) 3 :=
  C1_SmallLiteralDivide_quotient {} { low_reg := 0 } { low_reg := 1 } 2 3 4 3 (-7)
    (fun _ => ⟨false, false, false, false⟩)
    ⟨fun r => if r = 0 then 4294967289 else 0, ⟨false, false, false, false⟩, 0, fun _ => 0⟩
    (by decide) (by decide) (by decide) rfl (by decide) (by decide) (by decide) (by decide)
    (by decide)

/-- C2: for every opcode and every integer literal, `SmallLiteralDivide` returns without a
fatal abort, and it returns true exactly when the opcode is `DIV_INT_LIT8` and the literal
is one of 3, 5, 6, 7, 9, 10, 11, 12, 13, 14, 15; so it declines for 0, 1, 2, 4, 8, for
negative literals, for literals from 16 on, and for every other opcode. -/
theorem C2_SmallLiteralDivide_accepts_iff (cu : CompilationUnit) (op : Instruction.Code)
    (rl_src rl_dest : RegLocation) (lit : Int) (r_magic r_hi r_lo : Nat) :
    ∃ b cu', (SmallLiteralDivide op rl_src rl_dest lit r_magic r_hi r_lo).run cu
        = Except.ok (b, cu') ∧
      (b = true ↔ (op = Instruction.DIV_INT_LIT8 ∧
        lit ∈ ([3, 5, 6, 7, 9, 10, 11, 12, 13, 14, 15] : List Int))) := by
  by_cases h0 : lit < 0
  · refine ⟨false, cu, ?_, ?_⟩
    · simp [SmallLiteralDivide, h0, StateT.run, bind, StateT.bind, pure, StateT.pure,
        Except.pure, Except.bind]
    · rw [mem_lits_iff]
      constructor
      · intro h; cases h
      · intro h; omega
  · by_cases h1 : lit ≥ 16
    · refine ⟨false, cu, ?_, ?_⟩
      · simp [SmallLiteralDivide, h0, h1, magic_table, StateT.run, bind, StateT.bind, pure,
          StateT.pure, Except.pure, Except.bind]
      · rw [mem_lits_iff]
        constructor
        · intro h; cases h
        · intro h; omega
    · have h2 : 0 ≤ lit := by omega
      have h3 : lit < 16 := by omega
      by_cases hop : op = Instruction.DIV_INT_LIT8
      · interval_cases lit <;>
          simp [SmallLiteralDivide, hop, magic_table, StateT.run, bind, StateT.bind, pure,
            StateT.pure, Except.pure, Except.bind, AllocTemp, call, LoadConstant, emit,
            LoadValue, EvalLoc, NewLIR4, OpRegRegRegShift, OpRegRegImm, OpRegReg, StoreValue]
      · interval_cases lit <;>
          simp [SmallLiteralDivide, hop, magic_table, StateT.run, bind, StateT.bind, pure,
            StateT.pure, Except.pure, Except.bind]

/-! ### The IT mask (`OpIT`) -/

theorem guide_cases (g : List Char) (hlen : g.length ≤ 3)
    (hTE : ∀ ch ∈ g, ch = 'T' ∨ ch = 'E') :
    g ∈ ([[], ['T'], ['E'], ['T', 'T'], ['T', 'E'], ['E', 'T'], ['E', 'E'],
      ['T', 'T', 'T'], ['T', 'T', 'E'], ['T', 'E', 'T'], ['T', 'E', 'E'],
      ['E', 'T', 'T'], ['E', 'T', 'E'], ['E', 'E', 'T'], ['E', 'E', 'E']] :
        List (List Char)) := by
  match g, hlen, hTE with
  | [], _, _ => simp
  | [a], _, h =>
    rcases h a (by simp) with rfl | rfl <;> simp
  | [a, b], _, h =>
    rcases h a (by simp) with rfl | rfl <;> rcases h b (by simp) with rfl | rfl <;> simp
  | [a, b, c], _, h =>
    rcases h a (by simp) with rfl | rfl <;> rcases h b (by simp) with rfl | rfl <;>
      rcases h c (by simp) with rfl | rfl <;> simp
  | _ :: _ :: _ :: _ :: _, hl, _ => simp at hl

/-- C3: for every condition code and every guide over `T`/`E` of length `n ≤ 3`, `OpIT`
appends one IT node whose mask operand is a 4-bit value with bit `3 - n` set and every
lower bit clear, whose bit `3 - i` for `i < n` is the low bit of the condition code when the
guide has `T` at `i` and its complement when it has `E`, and which decodes, against the
parity of the condition code, to the guide itself. -/
theorem C3_OpIT_mask (cu : CompilationUnit) (code : ArmConditionCode) (guide : List Char)
    (hlen : guide.length ≤ 3) (hTE : ∀ ch ∈ guide, ch = 'T' ∨ ch = 'E') :
    ∃ mask : Nat,
      (OpIT code guide).run cu = Except.ok (cu.lir.length,
        { cu with lir := cu.lir ++
            [Emitted.node { opcode := .kThumb2It,
                            operands := [(code.toNat : Int), (mask : Int)] }] })
      ∧ mask < 16
      ∧ (mask >>> (3 - guide.length)) &&& 1 = 1
      ∧ (∀ j, j < 3 - guide.length → (mask >>> j) &&& 1 = 0)
      ∧ (∀ i, i < guide.length →
          (mask >>> (3 - i)) &&& 1 =
            if guide.getD i ' ' = 'T' then code.toNat &&& 1 else 1 - (code.toNat &&& 1))
      ∧ decodeITMask (code.toNat &&& 1) mask = guide := by
  have hg := guide_cases guide hlen hTE
  simp only [List.mem_cons, List.mem_singleton, List.not_mem_nil, or_false] at hg
  rcases hg with rfl | rfl | rfl | rfl | rfl | rfl | rfl | rfl | rfl | rfl | rfl | rfl | rfl
      | rfl | rfl <;>
    cases code <;>
    refine ⟨_, rfl, ?_, ?_, ?_, ?_, ?_⟩ <;> decide

/-- Witness for C3: condition `hi` with the guide `TE`; the mask is 10. -/
theorem C3_OpIT_mask_witness :
    ∃ mask : Nat,
      (OpIT .kArmCondHi ['T', 'E']).run {} = Except.ok (0,
        { lir := [Emitted.node { opcode := .kThumb2It, operands := [8, (mask : Int)] }] })
      ∧ mask < 16
      ∧ (mask >>> (3 - 2)) &&& 1 = 1
      ∧ (∀ j, j < 3 - 2 → (mask >>> j) &&& 1 = 0)
      ∧ (∀ i, i < 2 →
          (mask >>> (3 - i)) &&& 1 =
            if ['T', 'E'].getD i ' ' = 'T' then 8 &&& 1 else 1 - (8 &&& 1))
      ∧ decodeITMask (8 &&& 1) mask = ['T', 'E'] :=
  C3_OpIT_mask {} .kArmCondHi ['T', 'E'] (by decide) (by decide)

/-! ### 64-bit three-way compare (`GenCmpLong`) -/

theorem OpIT_Hi_E (cu : CompilationUnit) :
    OpIT .kArmCondHi ['E'] cu = Except.ok (cu.lir.length,
      { cu with lir := cu.lir ++ [Emitted.node { opcode := .kThumb2It, operands := [8, 12] }] }) :=
  rfl

theorem GenCmpLong_emits (cu : CompilationUnit) (rl_dest rl_src1 rl_src2 : RegLocation)
    (t_reg : Nat) :
    ∃ cu', (GenCmpLong rl_dest rl_src1 rl_src2 t_reg).run cu = Except.ok ((), cu') ∧
      cu'.lir.drop cu.lir.length =
        cmpLongBlock cu.lir.length t_reg rl_src1.low_reg rl_src1.high_reg
          rl_src2.low_reg rl_src2.high_reg (-1) 1023 1 ∧
      cu'.calls = cu.calls ++ [Call.LoadValueWide rl_src1, Call.LoadValueWide rl_src2,
        Call.AllocTemp t_reg, Call.StoreValue rl_dest { low_reg := t_reg },
        Call.FreeTemp t_reg] := by
  have hmod : ModifiedImmediate (toWord (-1)) = 1023 := by decide
  simp only [GenCmpLong, bind, StateT.bind, StateT.run, LoadValueWide, call, pure, StateT.pure,
    Except.pure, Except.bind, AllocTemp, LoadConstant, emit, OpRegReg, OpCondBranch,
    OpRegRegReg]
  rw [OpIT_Hi_E]
  simp only [NewLIR2, emit, hmod]
  simp only [GenBarrier, bind, StateT.bind, emit, pure, StateT.pure, Except.pure, Except.bind]
  simp only [NewLIR0, emit]
  simp only [StoreValue, FreeTemp, call]
  simp only [List.append_assoc, List.singleton_append, List.cons_append, List.nil_append,
    List.length_append, List.length_cons, List.length_nil, Nat.zero_add, Nat.reduceAdd]
  simp only [setTarget, getTarget, getElem?_append_length_add, set_append_length_add,
    List.getElem?_cons_succ, List.getElem?_cons_zero, List.set_cons_succ, List.set_cons_zero]
  refine ⟨_, rfl, ?_, ?_⟩
  · simp [cmpLongBlock, ArmConditionEncoding, ArmConditionCode.toNat]
  · simp

theorem it_hi_e_facts :
    CurrentCond 140 = 8 ∧ InITBlock 140 = true ∧ ITAdvance 140 = 152 ∧
    CurrentCond 152 = 9 ∧ InITBlock 152 = true ∧ ITAdvance 152 = 0 := by
  decide

theorem AddWithCarry_self (x : Nat) :
    (AddWithCarry x (NOT32 x) true).1 = 0 := by
  simp only [AddWithCarry, NOT32, Bool.toNat_true]
  omega

theorem run_cmpLongBlock (base t l1 h1 l2 h2 : Nat) (k1 imm k2 : Int) (U : Nat → Flags)
    (m : Machine) (hit : m.itstate = 0)
    (ht1 : t ≠ l1) (ht2 : t ≠ h1) (ht3 : t ≠ l2) (ht4 : t ≠ h2)
    (b1 : m.regs l1 < 4294967296) (b2 : m.regs h1 < 4294967296)
    (b3 : m.regs l2 < 4294967296) (b4 : m.regs h2 < 4294967296) :
    ∃ m', run U base (cmpLongBlock base t l1 h1 l2 h2 k1 imm k2) 16 0 m
        = some (Outcome.fell m') ∧
      m'.regs t =
        if SInt (m.regs h1) < SInt (m.regs h2) then toWord k1
        else if SInt (m.regs h2) < SInt (m.regs h1) then
          (AddWithCarry (NOT32 (toWord k1)) 0 true).1
        else if m.regs l1 = m.regs l2 then 0
        else if m.regs l2 < m.regs l1 then
          (AddWithCarry (NOT32 (ThumbExpandImm imm.toNat)) 0 true).1
        else (AddWithCarry (NOT32 (toWord k2)) 0 true).1 := by
  have c0 := cond_eq (m.regs l1) (m.regs l2) b1 b3
  have c8 := cond_hi (m.regs l1) (m.regs l2) b1 b3
  have c9 := cond_ls (m.regs l1) (m.regs l2) b1 b3
  have c11 := cond_lt (m.regs h1) (m.regs h2) b2 b4
  have c12 := cond_gt (m.regs h1) (m.regs h2) b2 b4
  have e0 : (cmpLongBlock base t l1 h1 l2 h2 k1 imm k2)[0]? = some
      (Emitted.LoadConstant t k1) := rfl
  have e1 : (cmpLongBlock base t l1 h1 l2 h2 k1 imm k2)[1]? = some
      (Emitted.OpRegReg .kOpCmp h1 h2) := rfl
  have e2 : (cmpLongBlock base t l1 h1 l2 h2 k1 imm k2)[2]? = some
      (Emitted.node { opcode := .kThumbBCond, operands := [0, 11], target := .node (base + 12) }) := rfl
  have e3 : (cmpLongBlock base t l1 h1 l2 h2 k1 imm k2)[3]? = some
      (Emitted.node { opcode := .kThumbBCond, operands := [0, 12], target := .node (base + 10) }) := rfl
  have e4 : (cmpLongBlock base t l1 h1 l2 h2 k1 imm k2)[4]? = some
      (Emitted.OpRegRegReg .kOpSub t l1 l2) := rfl
  have e5 : (cmpLongBlock base t l1 h1 l2 h2 k1 imm k2)[5]? = some
      (Emitted.node { opcode := .kThumbBCond, operands := [0, 0], target := .node (base + 12) }) := rfl
  have e6 : (cmpLongBlock base t l1 h1 l2 h2 k1 imm k2)[6]? = some
      (Emitted.node { opcode := .kThumb2It, operands := [8, 12] }) := rfl
  have e7 : (cmpLongBlock base t l1 h1 l2 h2 k1 imm k2)[7]? = some
      (Emitted.node { opcode := .kThumb2MovImmShift, operands := [(t : Int), imm] }) := rfl
  have e8 : (cmpLongBlock base t l1 h1 l2 h2 k1 imm k2)[8]? = some
      (Emitted.LoadConstant t k2) := rfl
  have e9 : (cmpLongBlock base t l1 h1 l2 h2 k1 imm k2)[9]? = some
      (Emitted.GenBarrier) := rfl
  have e10 : (cmpLongBlock base t l1 h1 l2 h2 k1 imm k2)[10]? = some
      (Emitted.node { opcode := .kPseudoTargetLabel, operands := [] }) := rfl
  have e11 : (cmpLongBlock base t l1 h1 l2 h2 k1 imm k2)[11]? = some
      (Emitted.OpRegReg .kOpNeg t t) := rfl
  have e12 : (cmpLongBlock base t l1 h1 l2 h2 k1 imm k2)[12]? = some
      (Emitted.node { opcode := .kPseudoTargetLabel, operands := [] }) := rfl
  have e13 : (cmpLongBlock base t l1 h1 l2 h2 k1 imm k2)[13]? = none := rfl
  have hlen : (cmpLongBlock base t l1 h1 l2 h2 k1 imm k2).length = 13 := rfl
  have r0 := fun fuel m => run_at U base _ fuel 0 m _ e0
  have r1 := fun fuel m => run_at U base _ fuel 1 m _ e1
  have r2 := fun fuel m => run_at U base _ fuel 2 m _ e2
  have r3 := fun fuel m => run_at U base _ fuel 3 m _ e3
  have r4 := fun fuel m => run_at U base _ fuel 4 m _ e4
  have r5 := fun fuel m => run_at U base _ fuel 5 m _ e5
  have r6 := fun fuel m => run_at U base _ fuel 6 m _ e6
  have r7 := fun fuel m => run_at U base _ fuel 7 m _ e7
  have r8 := fun fuel m => run_at U base _ fuel 8 m _ e8
  have r9 := fun fuel m => run_at U base _ fuel 9 m _ e9
  have r10 := fun fuel m => run_at U base _ fuel 10 m _ e10
  have r11 := fun fuel m => run_at U base _ fuel 11 m _ e11
  have r12 := fun fuel m => run_at U base _ fuel 12 m _ e12
  have r13 := fun fuel m => run_end U base _ fuel 13 m e13 hlen
  clear e0 e1 e2 e3 e4 e5 e6 e7 e8 e9 e10 e11 e12 e13 hlen
  generalize cmpLongBlock base t l1 h1 l2 h2 k1 imm k2 = prog at *
  obtain ⟨f0, f1, f2⟩ := it_state_facts
  obtain ⟨g0, g1, g2, g3, g4, g5⟩ := it_hi_e_facts
  have u1 : ∀ v, Function.update m.regs t v l1 = m.regs l1 :=
    fun v => Function.update_noteq ht1.symm v m.regs
  have u2 : ∀ v, Function.update m.regs t v h1 = m.regs h1 :=
    fun v => Function.update_noteq ht2.symm v m.regs
  have u3 : ∀ v, Function.update m.regs t v l2 = m.regs l2 :=
    fun v => Function.update_noteq ht3.symm v m.regs
  have u4 : ∀ v, Function.update m.regs t v h2 = m.regs h2 :=
    fun v => Function.update_noteq ht4.symm v m.regs
  by_cases hlt : SInt (m.regs h1) < SInt (m.regs h2)
  · rw [if_pos hlt]
    simp only [isPseudo, itOperands, reduceCtorEq, Bool.false_or, Bool.or_false, Bool.or_true,
      beq_iff_eq, beq_self_eq_true, beq_eq_false_iff_ne,
      r0, r1, r2, r3, r4, r5, r6, r7, r8, r9, r10, r11, r12, r13,
      afterStep_next, afterStep_node, step_pseudo, step_it, step_cond, hit, f0, f1, f2,
      g0, g1, g2, g3, g4, g5,
      cond_al, execute, executeNode, dataProc, softFlags, Machine.setReg, LIR.opN, LIR.op,
      List.getD_cons_zero, List.getD_cons_succ, Int.toNat_ofNat, Int.reduceToNat,
      Function.update_same, Function.update_idem, u1, u2, u3, u4,
      Bool.false_eq_true, ↓reduceIte, Nat.reduceAdd, Nat.reduceMod, Nat.reduceMul,
      Nat.reduceDiv, ne_eq, OfNat.ofNat_ne_zero,
      not_false_eq_true, not_true_eq_false, decide_True, decide_False,
      c0, c8, c9, c11, c12, hlt]
    exact ⟨_, rfl, by simp⟩
  · rw [if_neg hlt]
    by_cases hgt : SInt (m.regs h2) < SInt (m.regs h1)
    · rw [if_pos hgt]
      simp only [isPseudo, itOperands, reduceCtorEq, Bool.false_or, Bool.or_false, Bool.or_true,
      beq_iff_eq, beq_self_eq_true, beq_eq_false_iff_ne,
      r0, r1, r2, r3, r4, r5, r6, r7, r8, r9, r10, r11, r12, r13,
      afterStep_next, afterStep_node, step_pseudo, step_it, step_cond, hit, f0, f1, f2,
      g0, g1, g2, g3, g4, g5,
      cond_al, execute, executeNode, dataProc, softFlags, Machine.setReg, LIR.opN, LIR.op,
      List.getD_cons_zero, List.getD_cons_succ, Int.toNat_ofNat, Int.reduceToNat,
      Function.update_same, Function.update_idem, u1, u2, u3, u4,
      Bool.false_eq_true, ↓reduceIte, Nat.reduceAdd, Nat.reduceMod, Nat.reduceMul,
      Nat.reduceDiv, ne_eq, OfNat.ofNat_ne_zero,
      not_false_eq_true, not_true_eq_false, decide_True, decide_False,
      c0, c8, c9, c11, c12, hlt, hgt]
      exact ⟨_, rfl, by simp⟩
    · rw [if_neg hgt]
      by_cases heq : m.regs l1 = m.regs l2
      · rw [if_pos heq]
        have d0 : decide (m.regs l1 = m.regs l2) = true := decide_eq_true heq
        have s0 : (AddWithCarry (m.regs l1) (NOT32 (m.regs l2)) true).1 = 0 := by
          rw [heq]; exact AddWithCarry_self _
        clear heq
        simp only [isPseudo, itOperands, reduceCtorEq, Bool.false_or, Bool.or_false, Bool.or_true,
      beq_iff_eq, beq_self_eq_true, beq_eq_false_iff_ne,
      r0, r1, r2, r3, r4, r5, r6, r7, r8, r9, r10, r11, r12, r13,
      afterStep_next, afterStep_node, step_pseudo, step_it, step_cond, hit, f0, f1, f2,
      g0, g1, g2, g3, g4, g5,
      cond_al, execute, executeNode, dataProc, softFlags, Machine.setReg, LIR.opN, LIR.op,
      List.getD_cons_zero, List.getD_cons_succ, Int.toNat_ofNat, Int.reduceToNat,
      Function.update_same, Function.update_idem, u1, u2, u3, u4,
      Bool.false_eq_true, ↓reduceIte, Nat.reduceAdd, Nat.reduceMod, Nat.reduceMul,
      Nat.reduceDiv, ne_eq, OfNat.ofNat_ne_zero,
      not_false_eq_true, not_true_eq_false, decide_True, decide_False,
      c0, c8, c9, c11, c12, hlt, hgt, d0]
        exact ⟨_, rfl, by simp [s0]⟩
      · rw [if_neg heq]
        by_cases hhi : m.regs l2 < m.regs l1
        · rw [if_pos hhi]
          have hls : ¬ m.regs l1 ≤ m.regs l2 := not_le.mpr hhi
          simp only [isPseudo, itOperands, reduceCtorEq, Bool.false_or, Bool.or_false, Bool.or_true,
      beq_iff_eq, beq_self_eq_true, beq_eq_false_iff_ne,
      r0, r1, r2, r3, r4, r5, r6, r7, r8, r9, r10, r11, r12, r13,
      afterStep_next, afterStep_node, step_pseudo, step_it, step_cond, hit, f0, f1, f2,
      g0, g1, g2, g3, g4, g5,
      cond_al, execute, executeNode, dataProc, softFlags, Machine.setReg, LIR.opN, LIR.op,
      List.getD_cons_zero, List.getD_cons_succ, Int.toNat_ofNat, Int.reduceToNat,
      Function.update_same, Function.update_idem, u1, u2, u3, u4,
      Bool.false_eq_true, ↓reduceIte, Nat.reduceAdd, Nat.reduceMod, Nat.reduceMul,
      Nat.reduceDiv, ne_eq, OfNat.ofNat_ne_zero,
      not_false_eq_true, not_true_eq_false, decide_True, decide_False,
      c0, c8, c9, c11, c12, hlt, hgt, heq, hhi, hls]
          exact ⟨_, rfl, by simp⟩
        · rw [if_neg hhi]
          have hls : m.regs l1 ≤ m.regs l2 := not_lt.mp hhi
          simp only [isPseudo, itOperands, reduceCtorEq, Bool.false_or, Bool.or_false, Bool.or_true,
      beq_iff_eq, beq_self_eq_true, beq_eq_false_iff_ne,
      r0, r1, r2, r3, r4, r5, r6, r7, r8, r9, r10, r11, r12, r13,
      afterStep_next, afterStep_node, step_pseudo, step_it, step_cond, hit, f0, f1, f2,
      g0, g1, g2, g3, g4, g5,
      cond_al, execute, executeNode, dataProc, softFlags, Machine.setReg, LIR.opN, LIR.op,
      List.getD_cons_zero, List.getD_cons_succ, Int.toNat_ofNat, Int.reduceToNat,
      Function.update_same, Function.update_idem, u1, u2, u3, u4,
      Bool.false_eq_true, ↓reduceIte, Nat.reduceAdd, Nat.reduceMod, Nat.reduceMul,
      Nat.reduceDiv, ne_eq, OfNat.ofNat_ne_zero,
      not_false_eq_true, not_true_eq_false, decide_True, decide_False,
      c0, c8, c9, c11, c12, hlt, hgt, heq, hhi, hls]
          exact ⟨_, rfl, by simp⟩

theorem cmpLong_constants :
    (AddWithCarry (NOT32 (toWord (-1))) 0 true).1 = 1 ∧
    (AddWithCarry (NOT32 (ThumbExpandImm (1023 : Int).toNat)) 0 true).1 = 1 ∧
    (AddWithCarry (NOT32 (toWord 1)) 0 true).1 = toWord (-1) ∧
    toWord 0 = 0 ∧ toWord 1 = 1 := by
  decide

/-- C4: for every pair of signed 64-bit values `a` and `b` held as (low, high) words in the
register pairs of the two sources, `GenCmpLong` succeeds and the block it emits, with its
three branches bound to the labels as the routine binds them, run from outside an IT block,
ends with the temporary `t_reg` (the result register handed to `StoreValue`) holding the
word for -1 when `a < b`, 0 when `a = b`, and +1 when `a > b`.  The temporary is distinct
from the four source registers, as the allocator guarantees. -/
theorem C4_GenCmpLong_three_way (cu : CompilationUnit)
    (rl_dest rl_src1 rl_src2 : RegLocation) (t_reg : Nat) (a b : Int) (U : Nat → Flags)
    (m : Machine)
    (ha1 : -9223372036854775808 ≤ a) (ha2 : a < 9223372036854775808)
    (hb1 : -9223372036854775808 ≤ b) (hb2 : b < 9223372036854775808)
    (hit : m.itstate = 0)
    (hal : m.regs rl_src1.low_reg = toWord a)
    (hah : m.regs rl_src1.high_reg = toWord (a / 4294967296))
    (hbl : m.regs rl_src2.low_reg = toWord b)
    (hbh : m.regs rl_src2.high_reg = toWord (b / 4294967296))
    (ht1 : t_reg ≠ rl_src1.low_reg) (ht2 : t_reg ≠ rl_src1.high_reg)
    (ht3 : t_reg ≠ rl_src2.low_reg) (ht4 : t_reg ≠ rl_src2.high_reg) :
    ∃ cu' m',
      (GenCmpLong rl_dest rl_src1 rl_src2 t_reg).run cu = Except.ok ((), cu') ∧
      run U cu.lir.length (cu'.lir.drop cu.lir.length) 16 0 m = some (Outcome.fell m') ∧
      m'.regs t_reg = toWord (if a < b then -1 else if a = b then 0 else 1) := by
  obtain ⟨cu', hrun, hblk, -⟩ := GenCmpLong_emits cu rl_dest rl_src1 rl_src2 t_reg
  obtain ⟨m', hm, hres⟩ := run_cmpLongBlock cu.lir.length t_reg rl_src1.low_reg
    rl_src1.high_reg rl_src2.low_reg rl_src2.high_reg (-1) 1023 1 U m hit ht1 ht2 ht3 ht4
    (by rw [hal]; exact toWord_lt _) (by rw [hah]; exact toWord_lt _)
    (by rw [hbl]; exact toWord_lt _) (by rw [hbh]; exact toWord_lt _)
  refine ⟨cu', m', hrun, by rw [hblk]; exact hm, ?_⟩
  obtain ⟨k1, k2, k3, k4, k5⟩ := cmpLong_constants
  rw [hres, k1, k2, k3, hal, hah, hbl, hbh,
    SInt_toWord (a / 4294967296) (by omega) (by omega),
    SInt_toWord (b / 4294967296) (by omega) (by omega)]
  have hw : toWord a = toWord b ↔ a % 4294967296 = b % 4294967296 := by
    unfold toWord; omega
  have hw2 : toWord b < toWord a ↔ b % 4294967296 < a % 4294967296 := by
    unfold toWord; omega
  simp only [hw, hw2]
  by_cases c1 : a < b
  · by_cases d1 : a / 4294967296 < b / 4294967296
    · simp [c1, d1]
    · have d2 : ¬ b / 4294967296 < a / 4294967296 := by omega
      have d3 : ¬ a % 4294967296 = b % 4294967296 := by omega
      have d4 : ¬ b % 4294967296 < a % 4294967296 := by omega
      simp [c1, d1, d2, d3, d4]
  · by_cases c2 : a = b
    · subst c2
      simp [k4]
    · have c3 : b < a := by omega
      by_cases d1 : b / 4294967296 < a / 4294967296
      · have d2 : ¬ a / 4294967296 < b / 4294967296 := by omega
        simp [c1, c2, d1, d2, k5]
      · have d2 : ¬ a / 4294967296 < b / 4294967296 := by omega
        have d3 : ¬ a % 4294967296 = b % 4294967296 := by omega
        have d4 : b % 4294967296 < a % 4294967296 := by omega
        simp [c1, c2, d1, d2, d3, d4, k5]

/-- Witness for C4: `a = -1`, `b = 2^32` (mixed signs), sources in (r0, r1) and (r2, r3),
temporary r4. -/
theorem C4_GenCmpLong_three_way_witness :
    ∃ cu' m',
      (GenCmpLong {} { low_reg := 0, high_reg := 1 } { low_reg := 2, high_reg := 3 } 4).run {}
        = Except.ok ((), cu') ∧
      run (fun _ => ⟨false, false, false, false⟩) 0 (cu'.lir.drop 0) 16 0
        ⟨fun r => if r = 0 then 4294967295 else if r = 1 then 4294967295
          else if r = 3 then 1 else 0, ⟨false, false, false, false⟩, 0, fun _ => 0⟩
        = some (Outcome.fell m') ∧
      m'.regs 4 = toWord (if (-1 : Int) < 4294967296 then -1
        else if (-1 : Int) = 4294967296 then 0 else 1) :=
  C4_GenCmpLong_three_way {} {} { low_reg := 0, high_reg := 1 } { low_reg := 2, high_reg := 3 }
    4 (-1) 4294967296 (fun _ => ⟨false, false, false, false⟩)
    ⟨fun r => if r = 0 then 4294967295 else if r = 1 then 4294967295
      else if r = 3 then 1 else 0, ⟨false, false, false, false⟩, 0, fun _ => 0⟩
    (by decide) (by decide) (by decide) (by decide) rfl (by decide) (by decide) (by decide)
    (by decide) (by decide) (by decide) (by decide) (by decide)

/-! ### Fused 64-bit compare and branch (`GenFusedLongCmpBranch`) -/

theorem run_fused_Eq (base T N l1 h1 l2 h2 : Nat) (U : Nat → Flags) (m : Machine)
    (hit : m.itstate = 0)
    (b1 : m.regs l1 < 4294967296) (b2 : m.regs h1 < 4294967296)
    (b3 : m.regs l2 < 4294967296) (b4 : m.regs h2 < 4294967296) :
    ∃ out, run U base (fusedBlock .kCondEq T N l1 h1 l2 h2) 8 0 m = some out ∧
      (holds .kCondEq (pairValue (m.regs l1) (m.regs h1)) (pairValue (m.regs l2) (m.regs h2))
          = true → out.label = some T) ∧
      (holds .kCondEq (pairValue (m.regs l1) (m.regs h1)) (pairValue (m.regs l2) (m.regs h2))
          = false → out.label = some N ∨ out.label = none) := by
  have c0 := cond_eq (m.regs l1) (m.regs l2) b1 b3
  have c1 := cond_ne (m.regs l1) (m.regs l2) b1 b3
  have c1h := cond_ne (m.regs h1) (m.regs h2) b2 b4
  have c2 := cond_cs (m.regs l1) (m.regs l2) b1 b3
  have c3 := cond_cc (m.regs l1) (m.regs l2) b1 b3
  have c8 := cond_hi (m.regs l1) (m.regs l2) b1 b3
  have c9 := cond_ls (m.regs l1) (m.regs l2) b1 b3
  have c11 := cond_lt (m.regs h1) (m.regs h2) b2 b4
  have c12 := cond_gt (m.regs h1) (m.regs h2) b2 b4
  have s1 := SInt_cases (m.regs h1)
  have s2 := SInt_cases (m.regs h2)
  have e0 : (fusedBlock .kCondEq T N l1 h1 l2 h2)[0]? = some
      (Emitted.OpRegReg .kOpCmp h1 h2) := rfl
  have e1 : (fusedBlock .kCondEq T N l1 h1 l2 h2)[1]? = some
      (Emitted.node { opcode := .kThumbBCond, operands := [0, 1], target := .block N }) := rfl
  have e2 : (fusedBlock .kCondEq T N l1 h1 l2 h2)[2]? = some
      (Emitted.OpRegReg .kOpCmp l1 l2) := rfl
  have e3 : (fusedBlock .kCondEq T N l1 h1 l2 h2)[3]? = some
      (Emitted.node { opcode := .kThumbBCond, operands := [0, 0], target := .block T }) := rfl
  have e4 : (fusedBlock .kCondEq T N l1 h1 l2 h2)[4]? = none := rfl
  have hlen : (fusedBlock .kCondEq T N l1 h1 l2 h2).length = 4 := rfl
  have r0 := fun fuel m => run_at U base _ fuel 0 m _ e0
  have r1 := fun fuel m => run_at U base _ fuel 1 m _ e1
  have r2 := fun fuel m => run_at U base _ fuel 2 m _ e2
  have r3 := fun fuel m => run_at U base _ fuel 3 m _ e3
  have r4 := fun fuel m => run_end U base _ fuel 4 m e4 hlen
  clear e0 e1 e2 e3 e4 hlen
  generalize fusedBlock .kCondEq T N l1 h1 l2 h2 = prog at *
  obtain ⟨f0, f1, f2⟩ := it_state_facts
  simp only [isPseudo, itOperands, reduceCtorEq, Bool.false_or, Bool.or_false, Bool.or_true,
      beq_iff_eq, beq_self_eq_true, beq_eq_false_iff_ne,
      afterStep_next, afterStep_node, afterStep_block, step_pseudo, step_it, step_cond,
      cond_al, execute, executeNode, dataProc, softFlags, Machine.setReg, LIR.opN, LIR.op,
      List.getD_cons_zero, List.getD_cons_succ, Int.toNat_ofNat, Int.reduceToNat,
      Function.update_same, Function.update_idem,
      Bool.false_eq_true, ↓reduceIte, Nat.reduceAdd, Nat.reduceMod, Nat.reduceMul,
      Nat.reduceDiv, ne_eq, OfNat.ofNat_ne_zero,
      not_false_eq_true, not_true_eq_false, decide_True, decide_False, afterStep_ite, decide_eq_true_eq,
      hit, f0, f1, f2, c0, c1, c1h, c2, c3, c8, c9, c11, c12, r0, r1, r2, r3, r4]
  split_ifs <;> refine ⟨_, rfl, ?_, ?_⟩ <;>
    simp only [holds, pairValue, Outcome.label, decide_eq_true_eq, decide_eq_false_iff_not,
      Option.some.injEq, reduceCtorEq, or_true, or_false, gt_iff_lt, ge_iff_le, ne_eq] <;>
    intro hpv <;> first | trivial | omega

theorem run_fused_Ne (base T N l1 h1 l2 h2 : Nat) (U : Nat → Flags) (m : Machine)
    (hit : m.itstate = 0)
    (b1 : m.regs l1 < 4294967296) (b2 : m.regs h1 < 4294967296)
    (b3 : m.regs l2 < 4294967296) (b4 : m.regs h2 < 4294967296) :
    ∃ out, run U base (fusedBlock .kCondNe T N l1 h1 l2 h2) 8 0 m = some out ∧
      (holds .kCondNe (pairValue (m.regs l1) (m.regs h1)) (pairValue (m.regs l2) (m.regs h2))
          = true → out.label = some T) ∧
      (holds .kCondNe (pairValue (m.regs l1) (m.regs h1)) (pairValue (m.regs l2) (m.regs h2))
          = false → out.label = some N ∨ out.label = none) := by
  have c0 := cond_eq (m.regs l1) (m.regs l2) b1 b3
  have c1 := cond_ne (m.regs l1) (m.regs l2) b1 b3
  have c1h := cond_ne (m.regs h1) (m.regs h2) b2 b4
  have c2 := cond_cs (m.regs l1) (m.regs l2) b1 b3
  have c3 := cond_cc (m.regs l1) (m.regs l2) b1 b3
  have c8 := cond_hi (m.regs l1) (m.regs l2) b1 b3
  have c9 := cond_ls (m.regs l1) (m.regs l2) b1 b3
  have c11 := cond_lt (m.regs h1) (m.regs h2) b2 b4
  have c12 := cond_gt (m.regs h1) (m.regs h2) b2 b4
  have s1 := SInt_cases (m.regs h1)
  have s2 := SInt_cases (m.regs h2)
  have e0 : (fusedBlock .kCondNe T N l1 h1 l2 h2)[0]? = some
      (Emitted.OpRegReg .kOpCmp h1 h2) := rfl
  have e1 : (fusedBlock .kCondNe T N l1 h1 l2 h2)[1]? = some
      (Emitted.node { opcode := .kThumbBCond, operands := [0, 1], target := .block T }) := rfl
  have e2 : (fusedBlock .kCondNe T N l1 h1 l2 h2)[2]? = some
      (Emitted.OpRegReg .kOpCmp l1 l2) := rfl
  have e3 : (fusedBlock .kCondNe T N l1 h1 l2 h2)[3]? = some
      (Emitted.node { opcode := .kThumbBCond, operands := [0, 1], target := .block T }) := rfl
  have e4 : (fusedBlock .kCondNe T N l1 h1 l2 h2)[4]? = none := rfl
  have hlen : (fusedBlock .kCondNe T N l1 h1 l2 h2).length = 4 := rfl
  have r0 := fun fuel m => run_at U base _ fuel 0 m _ e0
  have r1 := fun fuel m => run_at U base _ fuel 1 m _ e1
  have r2 := fun fuel m => run_at U base _ fuel 2 m _ e2
  have r3 := fun fuel m => run_at U base _ fuel 3 m _ e3
  have r4 := fun fuel m => run_end U base _ fuel 4 m e4 hlen
  clear e0 e1 e2 e3 e4 hlen
  generalize fusedBlock .kCondNe T N l1 h1 l2 h2 = prog at *
  obtain ⟨f0, f1, f2⟩ := it_state_facts
  simp only [isPseudo, itOperands, reduceCtorEq, Bool.false_or, Bool.or_false, Bool.or_true,
      beq_iff_eq, beq_self_eq_true, beq_eq_false_iff_ne,
      afterStep_next, afterStep_node, afterStep_block, step_pseudo, step_it, step_cond,
      cond_al, execute, executeNode, dataProc, softFlags, Machine.setReg, LIR.opN, LIR.op,
      List.getD_cons_zero, List.getD_cons_succ, Int.toNat_ofNat, Int.reduceToNat,
      Function.update_same, Function.update_idem,
      Bool.false_eq_true, ↓reduceIte, Nat.reduceAdd, Nat.reduceMod, Nat.reduceMul,
      Nat.reduceDiv, ne_eq, OfNat.ofNat_ne_zero,
      not_false_eq_true, not_true_eq_false, decide_True, decide_False, afterStep_ite, decide_eq_true_eq,
      hit, f0, f1, f2, c0, c1, c1h, c2, c3, c8, c9, c11, c12, r0, r1, r2, r3, r4]
  split_ifs <;> refine ⟨_, rfl, ?_, ?_⟩ <;>
    simp only [holds, pairValue, Outcome.label, decide_eq_true_eq, decide_eq_false_iff_not,
      Option.some.injEq, reduceCtorEq, or_true, or_false, gt_iff_lt, ge_iff_le, ne_eq] <;>
    intro hpv <;> first | trivial | omega

theorem run_fused_Lt (base T N l1 h1 l2 h2 : Nat) (U : Nat → Flags) (m : Machine)
    (hit : m.itstate = 0)
    (b1 : m.regs l1 < 4294967296) (b2 : m.regs h1 < 4294967296)
    (b3 : m.regs l2 < 4294967296) (b4 : m.regs h2 < 4294967296) :
    ∃ out, run U base (fusedBlock .kCondLt T N l1 h1 l2 h2) 8 0 m = some out ∧
      (holds .kCondLt (pairValue (m.regs l1) (m.regs h1)) (pairValue (m.regs l2) (m.regs h2))
          = true → out.label = some T) ∧
      (holds .kCondLt (pairValue (m.regs l1) (m.regs h1)) (pairValue (m.regs l2) (m.regs h2))
          = false → out.label = some N ∨ out.label = none) := by
  have c0 := cond_eq (m.regs l1) (m.regs l2) b1 b3
  have c1 := cond_ne (m.regs l1) (m.regs l2) b1 b3
  have c1h := cond_ne (m.regs h1) (m.regs h2) b2 b4
  have c2 := cond_cs (m.regs l1) (m.regs l2) b1 b3
  have c3 := cond_cc (m.regs l1) (m.regs l2) b1 b3
  have c8 := cond_hi (m.regs l1) (m.regs l2) b1 b3
  have c9 := cond_ls (m.regs l1) (m.regs l2) b1 b3
  have c11 := cond_lt (m.regs h1) (m.regs h2) b2 b4
  have c12 := cond_gt (m.regs h1) (m.regs h2) b2 b4
  have s1 := SInt_cases (m.regs h1)
  have s2 := SInt_cases (m.regs h2)
  have e0 : (fusedBlock .kCondLt T N l1 h1 l2 h2)[0]? = some
      (Emitted.OpRegReg .kOpCmp h1 h2) := rfl
  have e1 : (fusedBlock .kCondLt T N l1 h1 l2 h2)[1]? = some
      (Emitted.node { opcode := .kThumbBCond, operands := [0, 11], target := .block T }) := rfl
  have e2 : (fusedBlock .kCondLt T N l1 h1 l2 h2)[2]? = some
      (Emitted.node { opcode := .kThumbBCond, operands := [0, 12], target := .block N }) := rfl
  have e3 : (fusedBlock .kCondLt T N l1 h1 l2 h2)[3]? = some
      (Emitted.OpRegReg .kOpCmp l1 l2) := rfl
  have e4 : (fusedBlock .kCondLt T N l1 h1 l2 h2)[4]? = some
      (Emitted.node { opcode := .kThumbBCond, operands := [0, 3], target := .block T }) := rfl
  have e5 : (fusedBlock .kCondLt T N l1 h1 l2 h2)[5]? = none := rfl
  have hlen : (fusedBlock .kCondLt T N l1 h1 l2 h2).length = 5 := rfl
  have r0 := fun fuel m => run_at U base _ fuel 0 m _ e0
  have r1 := fun fuel m => run_at U base _ fuel 1 m _ e1
  have r2 := fun fuel m => run_at U base _ fuel 2 m _ e2
  have r3 := fun fuel m => run_at U base _ fuel 3 m _ e3
  have r4 := fun fuel m => run_at U base _ fuel 4 m _ e4
  have r5 := fun fuel m => run_end U base _ fuel 5 m e5 hlen
  clear e0 e1 e2 e3 e4 e5 hlen
  generalize fusedBlock .kCondLt T N l1 h1 l2 h2 = prog at *
  obtain ⟨f0, f1, f2⟩ := it_state_facts
  simp only [isPseudo, itOperands, reduceCtorEq, Bool.false_or, Bool.or_false, Bool.or_true,
      beq_iff_eq, beq_self_eq_true, beq_eq_false_iff_ne,
      afterStep_next, afterStep_node, afterStep_block, step_pseudo, step_it, step_cond,
      cond_al, execute, executeNode, dataProc, softFlags, Machine.setReg, LIR.opN, LIR.op,
      List.getD_cons_zero, List.getD_cons_succ, Int.toNat_ofNat, Int.reduceToNat,
      Function.update_same, Function.update_idem,
      Bool.false_eq_true, ↓reduceIte, Nat.reduceAdd, Nat.reduceMod, Nat.reduceMul,
      Nat.reduceDiv, ne_eq, OfNat.ofNat_ne_zero,
      not_false_eq_true, not_true_eq_false, decide_True, decide_False, afterStep_ite, decide_eq_true_eq,
      hit, f0, f1, f2, c0, c1, c1h, c2, c3, c8, c9, c11, c12, r0, r1, r2, r3, r4, r5]
  split_ifs <;> refine ⟨_, rfl, ?_, ?_⟩ <;>
    simp only [holds, pairValue, Outcome.label, decide_eq_true_eq, decide_eq_false_iff_not,
      Option.some.injEq, reduceCtorEq, or_true, or_false, gt_iff_lt, ge_iff_le, ne_eq] <;>
    intro hpv <;> first | trivial | omega

theorem run_fused_Le (base T N l1 h1 l2 h2 : Nat) (U : Nat → Flags) (m : Machine)
    (hit : m.itstate = 0)
    (b1 : m.regs l1 < 4294967296) (b2 : m.regs h1 < 4294967296)
    (b3 : m.regs l2 < 4294967296) (b4 : m.regs h2 < 4294967296) :
    ∃ out, run U base (fusedBlock .kCondLe T N l1 h1 l2 h2) 8 0 m = some out ∧
      (holds .kCondLe (pairValue (m.regs l1) (m.regs h1)) (pairValue (m.regs l2) (m.regs h2))
          = true → out.label = some T) ∧
      (holds .kCondLe (pairValue (m.regs l1) (m.regs h1)) (pairValue (m.regs l2) (m.regs h2))
          = false → out.label = some N ∨ out.label = none) := by
  have c0 := cond_eq (m.regs l1) (m.regs l2) b1 b3
  have c1 := cond_ne (m.regs l1) (m.regs l2) b1 b3
  have c1h := cond_ne (m.regs h1) (m.regs h2) b2 b4
  have c2 := cond_cs (m.regs l1) (m.regs l2) b1 b3
  have c3 := cond_cc (m.regs l1) (m.regs l2) b1 b3
  have c8 := cond_hi (m.regs l1) (m.regs l2) b1 b3
  have c9 := cond_ls (m.regs l1) (m.regs l2) b1 b3
  have c11 := cond_lt (m.regs h1) (m.regs h2) b2 b4
  have c12 := cond_gt (m.regs h1) (m.regs h2) b2 b4
  have s1 := SInt_cases (m.regs h1)
  have s2 := SInt_cases (m.regs h2)
  have e0 : (fusedBlock .kCondLe T N l1 h1 l2 h2)[0]? = some
      (Emitted.OpRegReg .kOpCmp h1 h2) := rfl
  have e1 : (fusedBlock .kCondLe T N l1 h1 l2 h2)[1]? = some
      (Emitted.node { opcode := .kThumbBCond, operands := [0, 11], target := .block T }) := rfl
  have e2 : (fusedBlock .kCondLe T N l1 h1 l2 h2)[2]? = some
      (Emitted.node { opcode := .kThumbBCond, operands := [0, 12], target := .block N }) := rfl
  have e3 : (fusedBlock .kCondLe T N l1 h1 l2 h2)[3]? = some
      (Emitted.OpRegReg .kOpCmp l1 l2) := rfl
  have e4 : (fusedBlock .kCondLe T N l1 h1 l2 h2)[4]? = some
      (Emitted.node { opcode := .kThumbBCond, operands := [0, 9], target := .block T }) := rfl
  have e5 : (fusedBlock .kCondLe T N l1 h1 l2 h2)[5]? = none := rfl
  have hlen : (fusedBlock .kCondLe T N l1 h1 l2 h2).length = 5 := rfl
  have r0 := fun fuel m => run_at U base _ fuel 0 m _ e0
  have r1 := fun fuel m => run_at U base _ fuel 1 m _ e1
  have r2 := fun fuel m => run_at U base _ fuel 2 m _ e2
  have r3 := fun fuel m => run_at U base _ fuel 3 m _ e3
  have r4 := fun fuel m => run_at U base _ fuel 4 m _ e4
  have r5 := fun fuel m => run_end U base _ fuel 5 m e5 hlen
  clear e0 e1 e2 e3 e4 e5 hlen
  generalize fusedBlock .kCondLe T N l1 h1 l2 h2 = prog at *
  obtain ⟨f0, f1, f2⟩ := it_state_facts
  simp only [isPseudo, itOperands, reduceCtorEq, Bool.false_or, Bool.or_false, Bool.or_true,
      beq_iff_eq, beq_self_eq_true, beq_eq_false_iff_ne,
      afterStep_next, afterStep_node, afterStep_block, step_pseudo, step_it, step_cond,
      cond_al, execute, executeNode, dataProc, softFlags, Machine.setReg, LIR.opN, LIR.op,
      List.getD_cons_zero, List.getD_cons_succ, Int.toNat_ofNat, Int.reduceToNat,
      Function.update_same, Function.update_idem,
      Bool.false_eq_true, ↓reduceIte, Nat.reduceAdd, Nat.reduceMod, Nat.reduceMul,
      Nat.reduceDiv, ne_eq, OfNat.ofNat_ne_zero,
      not_false_eq_true, not_true_eq_false, decide_True, decide_False, afterStep_ite, decide_eq_true_eq,
      hit, f0, f1, f2, c0, c1, c1h, c2, c3, c8, c9, c11, c12, r0, r1, r2, r3, r4, r5]
  split_ifs <;> refine ⟨_, rfl, ?_, ?_⟩ <;>
    simp only [holds, pairValue, Outcome.label, decide_eq_true_eq, decide_eq_false_iff_not,
      Option.some.injEq, reduceCtorEq, or_true, or_false, gt_iff_lt, ge_iff_le, ne_eq] <;>
    intro hpv <;> first | trivial | omega

theorem run_fused_Gt (base T N l1 h1 l2 h2 : Nat) (U : Nat → Flags) (m : Machine)
    (hit : m.itstate = 0)
    (b1 : m.regs l1 < 4294967296) (b2 : m.regs h1 < 4294967296)
    (b3 : m.regs l2 < 4294967296) (b4 : m.regs h2 < 4294967296) :
    ∃ out, run U base (fusedBlock .kCondGt T N l1 h1 l2 h2) 8 0 m = some out ∧
      (holds .kCondGt (pairValue (m.regs l1) (m.regs h1)) (pairValue (m.regs l2) (m.regs h2))
          = true → out.label = some T) ∧
      (holds .kCondGt (pairValue (m.regs l1) (m.regs h1)) (pairValue (m.regs l2) (m.regs h2))
          = false → out.label = some N ∨ out.label = none) := by
  have c0 := cond_eq (m.regs l1) (m.regs l2) b1 b3
  have c1 := cond_ne (m.regs l1) (m.regs l2) b1 b3
  have c1h := cond_ne (m.regs h1) (m.regs h2) b2 b4
  have c2 := cond_cs (m.regs l1) (m.regs l2) b1 b3
  have c3 := cond_cc (m.regs l1) (m.regs l2) b1 b3
  have c8 := cond_hi (m.regs l1) (m.regs l2) b1 b3
  have c9 := cond_ls (m.regs l1) (m.regs l2) b1 b3
  have c11 := cond_lt (m.regs h1) (m.regs h2) b2 b4
  have c12 := cond_gt (m.regs h1) (m.regs h2) b2 b4
  have s1 := SInt_cases (m.regs h1)
  have s2 := SInt_cases (m.regs h2)
  have e0 : (fusedBlock .kCondGt T N l1 h1 l2 h2)[0]? = some
      (Emitted.OpRegReg .kOpCmp h1 h2) := rfl
  have e1 : (fusedBlock .kCondGt T N l1 h1 l2 h2)[1]? = some
      (Emitted.node { opcode := .kThumbBCond, operands := [0, 12], target := .block T }) := rfl
  have e2 : (fusedBlock .kCondGt T N l1 h1 l2 h2)[2]? = some
      (Emitted.node { opcode := .kThumbBCond, operands := [0, 11], target := .block N }) := rfl
  have e3 : (fusedBlock .kCondGt T N l1 h1 l2 h2)[3]? = some
      (Emitted.OpRegReg .kOpCmp l1 l2) := rfl
  have e4 : (fusedBlock .kCondGt T N l1 h1 l2 h2)[4]? = some
      (Emitted.node { opcode := .kThumbBCond, operands := [0, 8], target := .block T }) := rfl
  have e5 : (fusedBlock .kCondGt T N l1 h1 l2 h2)[5]? = none := rfl
  have hlen : (fusedBlock .kCondGt T N l1 h1 l2 h2).length = 5 := rfl
  have r0 := fun fuel m => run_at U base _ fuel 0 m _ e0
  have r1 := fun fuel m => run_at U base _ fuel 1 m _ e1
  have r2 := fun fuel m => run_at U base _ fuel 2 m _ e2
  have r3 := fun fuel m => run_at U base _ fuel 3 m _ e3
  have r4 := fun fuel m => run_at U base _ fuel 4 m _ e4
  have r5 := fun fuel m => run_end U base _ fuel 5 m e5 hlen
  clear e0 e1 e2 e3 e4 e5 hlen
  generalize fusedBlock .kCondGt T N l1 h1 l2 h2 = prog at *
  obtain ⟨f0, f1, f2⟩ := it_state_facts
  simp only [isPseudo, itOperands, reduceCtorEq, Bool.false_or, Bool.or_false, Bool.or_true,
      beq_iff_eq, beq_self_eq_true, beq_eq_false_iff_ne,
      afterStep_next, afterStep_node, afterStep_block, step_pseudo, step_it, step_cond,
      cond_al, execute, executeNode, dataProc, softFlags, Machine.setReg, LIR.opN, LIR.op,
      List.getD_cons_zero, List.getD_cons_succ, Int.toNat_ofNat, Int.reduceToNat,
      Function.update_same, Function.update_idem,
      Bool.false_eq_true, ↓reduceIte, Nat.reduceAdd, Nat.reduceMod, Nat.reduceMul,
      Nat.reduceDiv, ne_eq, OfNat.ofNat_ne_zero,
      not_false_eq_true, not_true_eq_false, decide_True, decide_False, afterStep_ite, decide_eq_true_eq,
      hit, f0, f1, f2, c0, c1, c1h, c2, c3, c8, c9, c11, c12, r0, r1, r2, r3, r4, r5]
  split_ifs <;> refine ⟨_, rfl, ?_, ?_⟩ <;>
    simp only [holds, pairValue, Outcome.label, decide_eq_true_eq, decide_eq_false_iff_not,
      Option.some.injEq, reduceCtorEq, or_true, or_false, gt_iff_lt, ge_iff_le, ne_eq] <;>
    intro hpv <;> first | trivial | omega

theorem run_fused_Ge (base T N l1 h1 l2 h2 : Nat) (U : Nat → Flags) (m : Machine)
    (hit : m.itstate = 0)
    (b1 : m.regs l1 < 4294967296) (b2 : m.regs h1 < 4294967296)
    (b3 : m.regs l2 < 4294967296) (b4 : m.regs h2 < 4294967296) :
    ∃ out, run U base (fusedBlock .kCondGe T N l1 h1 l2 h2) 8 0 m = some out ∧
      (holds .kCondGe (pairValue (m.regs l1) (m.regs h1)) (pairValue (m.regs l2) (m.regs h2))
          = true → out.label = some T) ∧
      (holds .kCondGe (pairValue (m.regs l1) (m.regs h1)) (pairValue (m.regs l2) (m.regs h2))
          = false → out.label = some N ∨ out.label = none) := by
  have c0 := cond_eq (m.regs l1) (m.regs l2) b1 b3
  have c1 := cond_ne (m.regs l1) (m.regs l2) b1 b3
  have c1h := cond_ne (m.regs h1) (m.regs h2) b2 b4
  have c2 := cond_cs (m.regs l1) (m.regs l2) b1 b3
  have c3 := cond_cc (m.regs l1) (m.regs l2) b1 b3
  have c8 := cond_hi (m.regs l1) (m.regs l2) b1 b3
  have c9 := cond_ls (m.regs l1) (m.regs l2) b1 b3
  have c11 := cond_lt (m.regs h1) (m.regs h2) b2 b4
  have c12 := cond_gt (m.regs h1) (m.regs h2) b2 b4
  have s1 := SInt_cases (m.regs h1)
  have s2 := SInt_cases (m.regs h2)
  have e0 : (fusedBlock .kCondGe T N l1 h1 l2 h2)[0]? = some
      (Emitted.OpRegReg .kOpCmp h1 h2) := rfl
  have e1 : (fusedBlock .kCondGe T N l1 h1 l2 h2)[1]? = some
      (Emitted.node { opcode := .kThumbBCond, operands := [0, 12], target := .block T }) := rfl
  have e2 : (fusedBlock .kCondGe T N l1 h1 l2 h2)[2]? = some
      (Emitted.node { opcode := .kThumbBCond, operands := [0, 11], target := .block N }) := rfl
  have e3 : (fusedBlock .kCondGe T N l1 h1 l2 h2)[3]? = some
      (Emitted.OpRegReg .kOpCmp l1 l2) := rfl
  have e4 : (fusedBlock .kCondGe T N l1 h1 l2 h2)[4]? = some
      (Emitted.node { opcode := .kThumbBCond, operands := [0, 2], target := .block T }) := rfl
  have e5 : (fusedBlock .kCondGe T N l1 h1 l2 h2)[5]? = none := rfl
  have hlen : (fusedBlock .kCondGe T N l1 h1 l2 h2).length = 5 := rfl
  have r0 := fun fuel m => run_at U base _ fuel 0 m _ e0
  have r1 := fun fuel m => run_at U base _ fuel 1 m _ e1
  have r2 := fun fuel m => run_at U base _ fuel 2 m _ e2
  have r3 := fun fuel m => run_at U base _ fuel 3 m _ e3
  have r4 := fun fuel m => run_at U base _ fuel 4 m _ e4
  have r5 := fun fuel m => run_end U base _ fuel 5 m e5 hlen
  clear e0 e1 e2 e3 e4 e5 hlen
  generalize fusedBlock .kCondGe T N l1 h1 l2 h2 = prog at *
  obtain ⟨f0, f1, f2⟩ := it_state_facts
  simp only [isPseudo, itOperands, reduceCtorEq, Bool.false_or, Bool.or_false, Bool.or_true,
      beq_iff_eq, beq_self_eq_true, beq_eq_false_iff_ne,
      afterStep_next, afterStep_node, afterStep_block, step_pseudo, step_it, step_cond,
      cond_al, execute, executeNode, dataProc, softFlags, Machine.setReg, LIR.opN, LIR.op,
      List.getD_cons_zero, List.getD_cons_succ, Int.toNat_ofNat, Int.reduceToNat,
      Function.update_same, Function.update_idem,
      Bool.false_eq_true, ↓reduceIte, Nat.reduceAdd, Nat.reduceMod, Nat.reduceMul,
      Nat.reduceDiv, ne_eq, OfNat.ofNat_ne_zero,
      not_false_eq_true, not_true_eq_false, decide_True, decide_False, afterStep_ite, decide_eq_true_eq,
      hit, f0, f1, f2, c0, c1, c1h, c2, c3, c8, c9, c11, c12, r0, r1, r2, r3, r4, r5]
  split_ifs <;> refine ⟨_, rfl, ?_, ?_⟩ <;>
    simp only [holds, pairValue, Outcome.label, decide_eq_true_eq, decide_eq_false_iff_not,
      Option.some.injEq, reduceCtorEq, or_true, or_false, gt_iff_lt, ge_iff_le, ne_eq] <;>
    intro hpv <;> first | trivial | omega

theorem run_fused (cc : ConditionCode) (base T N l1 h1 l2 h2 : Nat) (U : Nat → Flags)
    (m : Machine)
    (hcc : cc = .kCondEq ∨ cc = .kCondNe ∨ cc = .kCondLt ∨ cc = .kCondLe ∨ cc = .kCondGt
      ∨ cc = .kCondGe)
    (hit : m.itstate = 0)
    (b1 : m.regs l1 < 4294967296) (b2 : m.regs h1 < 4294967296)
    (b3 : m.regs l2 < 4294967296) (b4 : m.regs h2 < 4294967296) :
    ∃ out, run U base (fusedBlock cc T N l1 h1 l2 h2) 8 0 m = some out ∧
      (holds cc (pairValue (m.regs l1) (m.regs h1)) (pairValue (m.regs l2) (m.regs h2))
          = true → out.label = some T) ∧
      (holds cc (pairValue (m.regs l1) (m.regs h1)) (pairValue (m.regs l2) (m.regs h2))
          = false → out.label = some N ∨ out.label = none) := by
  rcases hcc with rfl | rfl | rfl | rfl | rfl | rfl
  · exact run_fused_Eq base T N l1 h1 l2 h2 U m hit b1 b2 b3 b4
  · exact run_fused_Ne base T N l1 h1 l2 h2 U m hit b1 b2 b3 b4
  · exact run_fused_Lt base T N l1 h1 l2 h2 U m hit b1 b2 b3 b4
  · exact run_fused_Le base T N l1 h1 l2 h2 U m hit b1 b2 b3 b4
  · exact run_fused_Gt base T N l1 h1 l2 h2 U m hit b1 b2 b3 b4
  · exact run_fused_Ge base T N l1 h1 l2 h2 U m hit b1 b2 b3 b4

theorem GenFusedLongCmpBranch_emits (cu : CompilationUnit) (bb : BasicBlock)
    (cc : ConditionCode) (rl_src1 rl_src2 : RegLocation)
    (hcc : cc = .kCondEq ∨ cc = .kCondNe ∨ cc = .kCondLt ∨ cc = .kCondLe ∨ cc = .kCondGt
      ∨ cc = .kCondGe) :
    (GenFusedLongCmpBranch bb ⟨cc⟩ rl_src1 rl_src2).run cu = Except.ok ((),
      { cu with
        lir := cu.lir ++ fusedBlock cc bb.taken bb.fall_through rl_src1.low_reg
          rl_src1.high_reg rl_src2.low_reg rl_src2.high_reg,
        calls := cu.calls ++ [Call.LoadValueWide rl_src1, Call.LoadValueWide rl_src2] }) := by
  rcases hcc with rfl | rfl | rfl | rfl | rfl | rfl <;>
    simp [GenFusedLongCmpBranch, fusedBlock, StateT.run, bind, StateT.bind, Except.bind, pure,
      StateT.pure, Except.pure, LoadValueWide, call, OpRegReg, OpCondBranch, emit,
      ArmConditionEncoding, ArmConditionCode.toNat]

theorem pairValue_toWord (a : Int) (h1 : -9223372036854775808 ≤ a)
    (h2 : a < 9223372036854775808) :
    pairValue (toWord a) (toWord (a / 4294967296)) = a := by
  unfold pairValue
  rw [SInt_toWord _ (by omega) (by omega)]
  unfold toWord
  omega

/-- C5: for each of the six predicates `==`, `!=`, `<`, `<=`, `>`, `>=` and every pair of
signed 64-bit values `a` and `b` held as (low, high) words in the register pairs of the two
operands, `GenFusedLongCmpBranch` succeeds and the block it emits, run from outside an IT
block, ends at the label of the taken successor exactly when the predicate holds of
`(a, b)`; when it does not hold, the run ends at the label of the fall-through successor or
falls through the last conditional branch.  The two successors are distinct blocks. -/
theorem C5_GenFusedLongCmpBranch_taken_iff (cu : CompilationUnit) (bb : BasicBlock)
    (cc : ConditionCode) (rl_src1 rl_src2 : RegLocation) (a b : Int) (U : Nat → Flags)
    (m : Machine)
    (hcc : cc = .kCondEq ∨ cc = .kCondNe ∨ cc = .kCondLt ∨ cc = .kCondLe ∨ cc = .kCondGt
      ∨ cc = .kCondGe)
    (ha1 : -9223372036854775808 ≤ a) (ha2 : a < 9223372036854775808)
    (hb1 : -9223372036854775808 ≤ b) (hb2 : b < 9223372036854775808)
    (hit : m.itstate = 0)
    (hal : m.regs rl_src1.low_reg = toWord a)
    (hah : m.regs rl_src1.high_reg = toWord (a / 4294967296))
    (hbl : m.regs rl_src2.low_reg = toWord b)
    (hbh : m.regs rl_src2.high_reg = toWord (b / 4294967296))
    (hne : bb.taken ≠ bb.fall_through) :
    ∃ cu' out,
      (GenFusedLongCmpBranch bb ⟨cc⟩ rl_src1 rl_src2).run cu = Except.ok ((), cu') ∧
      run U cu.lir.length (cu'.lir.drop cu.lir.length) 8 0 m = some out ∧
      (out.label = some bb.taken ↔ holds cc a b = true) ∧
      (holds cc a b = false → out.label = some bb.fall_through ∨ out.label = none) := by
  obtain ⟨out, hrun, ht, hn⟩ := run_fused cc cu.lir.length bb.taken bb.fall_through
    rl_src1.low_reg rl_src1.high_reg rl_src2.low_reg rl_src2.high_reg U m hcc hit
    (by rw [hal]; exact toWord_lt _) (by rw [hah]; exact toWord_lt _)
    (by rw [hbl]; exact toWord_lt _) (by rw [hbh]; exact toWord_lt _)
  rw [hal, hah, hbl, hbh, pairValue_toWord a ha1 ha2, pairValue_toWord b hb1 hb2] at ht hn
  refine ⟨_, out, GenFusedLongCmpBranch_emits cu bb cc rl_src1 rl_src2 hcc, ?_, ?_, hn⟩
  · simpa using hrun
  · constructor
    · intro hl
      cases hh : holds cc a b with
      | true => rfl
      | false =>
        rcases hn hh with h | h
        · rw [hl] at h
          exact absurd (Option.some.inj h) hne
        · rw [hl] at h
          cases h
    · exact ht

/-- Instance of the fused compare-and-branch theorem: `a = -1`, `b = 2^32`, predicate
`<`, operands in (r0, r1) and (r2, r3), successors the blocks 7 (taken) and 8. -/
theorem C5_GenFusedLongCmpBranch_taken_iff_witness :
    ∃ cu' out,
      (GenFusedLongCmpBranch ⟨7, 8⟩ ⟨.kCondLt⟩ { low_reg := 0, high_reg := 1 }
        { low_reg := 2, high_reg := 3 }).run {} = Except.ok ((), cu') ∧
      run (fun _ => ⟨false, false, false, false⟩) 0 (cu'.lir.drop 0) 8 0
        ⟨fun r => if r = 0 then 4294967295 else if r = 1 then 4294967295
          else if r = 3 then 1 else 0, ⟨false, false, false, false⟩, 0, fun _ => 0⟩
        = some out ∧
      (out.label = some 7 ↔ holds .kCondLt (-1) 4294967296 = true) ∧
      (holds .kCondLt (-1) 4294967296 = false → out.label = some 8 ∨ out.label = none) :=
  C5_GenFusedLongCmpBranch_taken_iff {} ⟨7, 8⟩ .kCondLt { low_reg := 0, high_reg := 1 }
    { low_reg := 2, high_reg := 3 } (-1) 4294967296 (fun _ => ⟨false, false, false, false⟩)
    ⟨fun r => if r = 0 then 4294967295 else if r = 1 then 4294967295
      else if r = 3 then 1 else 0, ⟨false, false, false, false⟩, 0, fun _ => 0⟩
    (by decide) (by decide) (by decide) (by decide) (by decide) rfl (by decide) (by decide)
    (by decide) (by decide) (by decide)

/-! ### Wide register copies (`OpRegCopyWide`) -/

/-- Where the overlap branch of `OpRegCopyWide` is right: when the destination low
register is the source high register, the registers of each pair differ, and the
destination high register is not the source low register, the two moves emitted (high
half first), run from outside an IT block, leave the original source low word in the
destination low register and the original source high word in the destination high
register. -/
theorem OpRegCopyWide_overlap_no_swap (cu : CompilationUnit) (dest_lo dest_hi src_lo src_hi : Nat)
    (U : Nat → Flags) (m : Machine)
    (g1 : ARM_FPREG dest_lo = false) (g2 : ARM_FPREG dest_hi = false)
    (g3 : ARM_FPREG src_lo = false) (g4 : ARM_FPREG src_hi = false)
    (hov : dest_lo = src_hi) (hd : dest_lo ≠ dest_hi) (_hs : src_lo ≠ src_hi)
    (hsw : dest_hi ≠ src_lo) (hit : m.itstate = 0) :
    ∃ cu' m',
      (OpRegCopyWide dest_lo dest_hi src_lo src_hi).run cu = Except.ok ((), cu') ∧
      run U cu.lir.length (cu'.lir.drop cu.lir.length) 4 0 m = some (Outcome.fell m') ∧
      m'.regs dest_lo = m.regs src_lo ∧ m'.regs dest_hi = m.regs src_hi := by
  obtain ⟨m', hm, hr⟩ := run_two_moves U cu.lir.length cu.disable_opt cu.disable_opt
    dest_hi src_hi dest_lo src_lo m hit
  refine ⟨_, m', OpRegCopyWide_gp cu dest_lo dest_hi src_lo src_hi g1 g2 g3 g4, ?_, ?_, ?_⟩
  · simpa [hov.symm] using hm
  · rw [hr]
    simp [Function.update_noteq hsw.symm]
  · rw [hr]
    simp [Function.update_noteq hd.symm]

/-- The overlap branch at work: the pair (r0, r1) copied to (r1, r2). -/
theorem OpRegCopyWide_overlap_no_swap_instance :
    ∃ cu' m',
      (OpRegCopyWide 1 2 0 1).run {} = Except.ok ((), cu') ∧
      run (fun _ => ⟨false, false, false, false⟩) 0 (cu'.lir.drop 0) 4 0
        ⟨fun r => if r = 0 then 5 else if r = 1 then 9 else 0,
          ⟨false, false, false, false⟩, 0, fun _ => 0⟩ = some (Outcome.fell m') ∧
      m'.regs 1 = 5 ∧ m'.regs 2 = 9 :=
  OpRegCopyWide_overlap_no_swap {} 1 2 0 1 (fun _ => ⟨false, false, false, false⟩)
    ⟨fun r => if r = 0 then 5 else if r = 1 then 9 else 0,
      ⟨false, false, false, false⟩, 0, fun _ => 0⟩
    (by decide) (by decide) (by decide) (by decide) (by decide) (by decide) (by decide)
    (by decide) rfl

/-- C7, failing input: the pair (r0, r1), holding 5 and 9, is copied to the pair (r1, r0).
The destination low register r1 is the source high register, the registers of each pair
differ, and `OpRegCopyWide` takes its overlap branch: it appends the move `r0 := r1` and
then the move `r1 := r0`.  After running the two moves the destination high register r0
holds 9, the original source high word, but the destination low register r1 holds 9 as
well, and not the original source low word 5, which the first move has overwritten. -/
theorem C7_OpRegCopyWide_swap_failing_input :
    ∃ cu' m',
      (OpRegCopyWide 1 0 0 1).run {} = Except.ok ((), cu') ∧
      cu'.lir = [Emitted.node (moveNode 0 0 1), Emitted.node (moveNode 0 1 0)] ∧
      run (fun _ => ⟨false, false, false, false⟩) 0 cu'.lir 4 0
        ⟨fun r => if r = 0 then 5 else if r = 1 then 9 else 0,
          ⟨false, false, false, false⟩, 0, fun _ => 0⟩ = some (Outcome.fell m') ∧
      m'.regs 0 = 9 ∧ m'.regs 1 = 9 ∧ m'.regs 1 ≠ 5 := by
  obtain ⟨m', hm, hr⟩ := run_two_moves (fun _ => ⟨false, false, false, false⟩) 0 0 0 0 1 1 0
    ⟨fun r => if r = 0 then 5 else if r = 1 then 9 else 0,
      ⟨false, false, false, false⟩, 0, fun _ => 0⟩ rfl
  refine ⟨_, m', OpRegCopyWide_gp {} 1 0 0 1 (by decide) (by decide) (by decide) (by decide),
    rfl, hm, ?_, ?_, ?_⟩
  · rw [hr]; decide
  · rw [hr]; decide
  · rw [hr]; decide


/-! ### The min/max intrinsic (`GenInlinedMinMaxInt`) -/

theorem it_minmax_facts :
    CurrentCond 204 = 12 ∧ InITBlock 204 = true ∧ ITAdvance 204 = 216 ∧
    CurrentCond 216 = 13 ∧ InITBlock 216 = true ∧ ITAdvance 216 = 0 ∧
    CurrentCond 180 = 11 ∧ InITBlock 180 = true ∧ ITAdvance 180 = 168 ∧
    CurrentCond 168 = 10 ∧ InITBlock 168 = true ∧ ITAdvance 168 = 0 := by
  decide

theorem run_minBlock (base s1 s2 res : Nat) (U : Nat → Flags) (m : Machine)
    (hit : m.itstate = 0)
    (b1 : m.regs s1 < 4294967296) (b2 : m.regs s2 < 4294967296) :
    ∃ m', run U base (minMaxBlock true s1 s2 res) 8 0 m = some (Outcome.fell m') ∧
      m'.regs res = if SInt (m.regs s2) < SInt (m.regs s1) then m.regs s2 else m.regs s1 := by
  have c10 := cond_ge (m.regs s1) (m.regs s2) b1 b2
  have c11 := cond_lt (m.regs s1) (m.regs s2) b1 b2
  have c12 := cond_gt (m.regs s1) (m.regs s2) b1 b2
  have c13 := cond_le (m.regs s1) (m.regs s2) b1 b2
  obtain ⟨g0, g1, g2, g3, g4, g5, g6, g7, g8, g9, g10, g11⟩ := it_minmax_facts
  have e0 : (minMaxBlock true s1 s2 res)[0]? = some
      (Emitted.OpRegReg .kOpCmp s1 s2) := rfl
  have e1 : (minMaxBlock true s1 s2 res)[1]? = some
      (Emitted.node { opcode := .kThumb2It, operands := [12, 12] }) := rfl
  have e2 : (minMaxBlock true s1 s2 res)[2]? = some
      (Emitted.OpRegReg .kOpMov res s2) := rfl
  have e3 : (minMaxBlock true s1 s2 res)[3]? = some
      (Emitted.OpRegReg .kOpMov res s1) := rfl
  have e4 : (minMaxBlock true s1 s2 res)[4]? = some
      (Emitted.GenBarrier) := rfl
  have e5 : (minMaxBlock true s1 s2 res)[5]? = none := rfl
  have hlen : (minMaxBlock true s1 s2 res).length = 5 := rfl
  have r0 := fun fuel m => run_at U base _ fuel 0 m _ e0
  have r1 := fun fuel m => run_at U base _ fuel 1 m _ e1
  have r2 := fun fuel m => run_at U base _ fuel 2 m _ e2
  have r3 := fun fuel m => run_at U base _ fuel 3 m _ e3
  have r4 := fun fuel m => run_at U base _ fuel 4 m _ e4
  have r5 := fun fuel m => run_end U base _ fuel 5 m e5 hlen
  clear e0 e1 e2 e3 e4 e5 hlen
  generalize minMaxBlock true s1 s2 res = prog at *
  obtain ⟨f0, f1, f2⟩ := it_state_facts
  simp only [isPseudo, itOperands, reduceCtorEq, Bool.false_or, Bool.or_false, Bool.or_true,
      beq_iff_eq, beq_self_eq_true, beq_eq_false_iff_ne,
      afterStep_next, afterStep_node, afterStep_block, step_pseudo, step_it, step_cond,
      cond_al, execute, executeNode, dataProc, softFlags, Machine.setReg, LIR.opN, LIR.op,
      List.getD_cons_zero, List.getD_cons_succ, Int.toNat_ofNat, Int.reduceToNat,
      Function.update_same, Function.update_idem,
      Bool.false_eq_true, ↓reduceIte, Nat.reduceAdd, Nat.reduceMod, Nat.reduceMul,
      Nat.reduceDiv, ne_eq, OfNat.ofNat_ne_zero,
      not_false_eq_true, not_true_eq_false, decide_True, decide_False, afterStep_ite, decide_eq_true_eq,
      hit, f0, f1, f2, g0, g1, g2, g3, g4, g5, g6, g7, g8, g9, g10, g11,
      c10, c11, c12, c13, r0, r1, r2, r3, r4, r5]
  split_ifs <;> first
    | omega
    | exact ⟨_, rfl, by simp⟩

theorem run_maxBlock (base s1 s2 res : Nat) (U : Nat → Flags) (m : Machine)
    (hit : m.itstate = 0)
    (b1 : m.regs s1 < 4294967296) (b2 : m.regs s2 < 4294967296) :
    ∃ m', run U base (minMaxBlock false s1 s2 res) 8 0 m = some (Outcome.fell m') ∧
      m'.regs res = if SInt (m.regs s1) < SInt (m.regs s2) then m.regs s2 else m.regs s1 := by
  have c10 := cond_ge (m.regs s1) (m.regs s2) b1 b2
  have c11 := cond_lt (m.regs s1) (m.regs s2) b1 b2
  have c12 := cond_gt (m.regs s1) (m.regs s2) b1 b2
  have c13 := cond_le (m.regs s1) (m.regs s2) b1 b2
  obtain ⟨g0, g1, g2, g3, g4, g5, g6, g7, g8, g9, g10, g11⟩ := it_minmax_facts
  have e0 : (minMaxBlock false s1 s2 res)[0]? = some
      (Emitted.OpRegReg .kOpCmp s1 s2) := rfl
  have e1 : (minMaxBlock false s1 s2 res)[1]? = some
      (Emitted.node { opcode := .kThumb2It, operands := [11, 4] }) := rfl
  have e2 : (minMaxBlock false s1 s2 res)[2]? = some
      (Emitted.OpRegReg .kOpMov res s2) := rfl
  have e3 : (minMaxBlock false s1 s2 res)[3]? = some
      (Emitted.OpRegReg .kOpMov res s1) := rfl
  have e4 : (minMaxBlock false s1 s2 res)[4]? = some
      (Emitted.GenBarrier) := rfl
  have e5 : (minMaxBlock false s1 s2 res)[5]? = none := rfl
  have hlen : (minMaxBlock false s1 s2 res).length = 5 := rfl
  have r0 := fun fuel m => run_at U base _ fuel 0 m _ e0
  have r1 := fun fuel m => run_at U base _ fuel 1 m _ e1
  have r2 := fun fuel m => run_at U base _ fuel 2 m _ e2
  have r3 := fun fuel m => run_at U base _ fuel 3 m _ e3
  have r4 := fun fuel m => run_at U base _ fuel 4 m _ e4
  have r5 := fun fuel m => run_end U base _ fuel 5 m e5 hlen
  clear e0 e1 e2 e3 e4 e5 hlen
  generalize minMaxBlock false s1 s2 res = prog at *
  obtain ⟨f0, f1, f2⟩ := it_state_facts
  simp only [isPseudo, itOperands, reduceCtorEq, Bool.false_or, Bool.or_false, Bool.or_true,
      beq_iff_eq, beq_self_eq_true, beq_eq_false_iff_ne,
      afterStep_next, afterStep_node, afterStep_block, step_pseudo, step_it, step_cond,
      cond_al, execute, executeNode, dataProc, softFlags, Machine.setReg, LIR.opN, LIR.op,
      List.getD_cons_zero, List.getD_cons_succ, Int.toNat_ofNat, Int.reduceToNat,
      Function.update_same, Function.update_idem,
      Bool.false_eq_true, ↓reduceIte, Nat.reduceAdd, Nat.reduceMod, Nat.reduceMul,
      Nat.reduceDiv, ne_eq, OfNat.ofNat_ne_zero,
      not_false_eq_true, not_true_eq_false, decide_True, decide_False, afterStep_ite, decide_eq_true_eq,
      hit, f0, f1, f2, g0, g1, g2, g3, g4, g5, g6, g7, g8, g9, g10, g11,
      c10, c11, c12, c13, r0, r1, r2, r3, r4, r5]
  split_ifs <;> first
    | omega
    | exact ⟨_, rfl, by simp⟩

theorem OpIT_minmax (cu : CompilationUnit) (is_min : Bool) :
    OpIT (if is_min then .kArmCondGt else .kArmCondLt) ['E'] cu = Except.ok (cu.lir.length,
      { cu with lir := cu.lir ++
          [Emitted.node { opcode := .kThumb2It,
                          operands := if is_min then [12, 12] else [11, 4] }] }) := by
  cases is_min <;> rfl

theorem GenInlinedMinMaxInt_emits (cu : CompilationUnit) (info : CallInfo) (is_min : Bool) :
    (GenInlinedMinMaxInt info is_min).run cu = Except.ok (true,
      { cu with
        lir := cu.lir ++ minMaxBlock is_min (info.args.getD 0 {}).low_reg
          (info.args.getD 1 {}).low_reg info.result.low_reg,
        calls := cu.calls ++ [Call.LoadValue (info.args.getD 0 {}),
          Call.LoadValue (info.args.getD 1 {}), Call.EvalLoc info.result,
          Call.StoreValue info.result info.result] }) := by
  simp only [GenInlinedMinMaxInt, bind, StateT.bind, StateT.run, LoadValue, call, pure,
    StateT.pure, Except.pure, Except.bind, InlineTarget, EvalLoc, OpRegReg, emit]
  rw [OpIT_minmax]
  simp [minMaxBlock, GenBarrier, bind, StateT.bind, emit, pure, StateT.pure, Except.pure,
    Except.bind, StoreValue, call]

/-- C9: for every pair of signed 32-bit values `a` and `b` held in the registers of the
two arguments, and every choice of result register (it may be the register of either
argument), `GenInlinedMinMaxInt` returns true and the block it emits (compare, IT, two
predicated moves), run from outside an IT block, ends with the result register holding
`min a b` when `is_min` is true and `max a b` when it is false. -/
theorem C9_GenInlinedMinMaxInt_result (cu : CompilationUnit) (info : CallInfo)
    (is_min : Bool) (a b : Int) (U : Nat → Flags) (m : Machine)
    (ha1 : -2147483648 ≤ a) (ha2 : a < 2147483648)
    (hb1 : -2147483648 ≤ b) (hb2 : b < 2147483648)
    (hit : m.itstate = 0)
    (h1 : m.regs (info.args.getD 0 {}).low_reg = toWord a)
    (h2 : m.regs (info.args.getD 1 {}).low_reg = toWord b) :
    ∃ cu' m',
      (GenInlinedMinMaxInt info is_min).run cu = Except.ok (true, cu') ∧
      run U cu.lir.length (cu'.lir.drop cu.lir.length) 8 0 m = some (Outcome.fell m') ∧
      SInt (m'.regs info.result.low_reg) = if is_min then min a b else max a b := by
  have sa := SInt_toWord a ha1 ha2
  have sb := SInt_toWord b hb1 hb2
  cases is_min with
  | true =>
    obtain ⟨m', hm, hres⟩ := run_minBlock cu.lir.length (info.args.getD 0 {}).low_reg
      (info.args.getD 1 {}).low_reg info.result.low_reg U m hit
      (by rw [h1]; exact toWord_lt _) (by rw [h2]; exact toWord_lt _)
    refine ⟨_, m', GenInlinedMinMaxInt_emits cu info true, by simpa using hm, ?_⟩
    rw [hres, h1, h2, sa, sb]
    by_cases h : b < a
    · simp [h, sb, min_def]; omega
    · simp [h, sa, min_def]; omega
  | false =>
    obtain ⟨m', hm, hres⟩ := run_maxBlock cu.lir.length (info.args.getD 0 {}).low_reg
      (info.args.getD 1 {}).low_reg info.result.low_reg U m hit
      (by rw [h1]; exact toWord_lt _) (by rw [h2]; exact toWord_lt _)
    refine ⟨_, m', GenInlinedMinMaxInt_emits cu info false, by simpa using hm, ?_⟩
    rw [hres, h1, h2, sa, sb]
    by_cases h : a < b
    · simp [h, sb, max_def]; omega
    · simp [h, sa, max_def]; omega

/-- Instance of the min/max theorem: `min (-3) 5` with the arguments in r0 and r1 and the
result register r0, the register of the first argument. -/
theorem C9_GenInlinedMinMaxInt_result_witness :
    ∃ cu' m',
      (GenInlinedMinMaxInt ⟨[{ low_reg := 0 }, { low_reg := 1 }], { low_reg := 0 }⟩ true).run {}
        = Except.ok (true, cu') ∧
      run (fun _ => ⟨false, false, false, false⟩) 0 (cu'.lir.drop 0) 8 0
        ⟨fun r => if r = 0 then 4294967293 else if r = 1 then 5 else 0,
          ⟨false, false, false, false⟩, 0, fun _ => 0⟩ = some (Outcome.fell m') ∧
      SInt (m'.regs 0) = if true = true then min (-3) 5 else max (-3) 5 :=
  C9_GenInlinedMinMaxInt_result {} ⟨[{ low_reg := 0 }, { low_reg := 1 }], { low_reg := 0 }⟩
    true (-3) 5 (fun _ => ⟨false, false, false, false⟩)
    ⟨fun r => if r = 0 then 4294967293 else if r = 1 then 5 else 0,
      ⟨false, false, false, false⟩, 0, fun _ => 0⟩
    (by decide) (by decide) (by decide) (by decide) rfl (by decide) (by decide)

/-! ### Memory barriers (`GenMemBarrier`) -/

/-- C10: in a multi-core build (`ANDROID_SMP` not 0) `GenMemBarrier` appends, for each of
the four barrier kinds, exactly one `dmb` node whose single operand is the store-only
flavor `kST` when the kind is store-store and the full flavor `kSY` otherwise (the two
flavors differ), and whose def mask is `ENCODE_ALL`; in a single-core build
(`ANDROID_SMP = 0`) it appends nothing.  It never aborts and logs no collaborator call. -/
theorem C10_GenMemBarrier_node (cu : CompilationUnit) (smp : Nat) (kind : MemBarrierKind) :
    (GenMemBarrier smp kind).run cu = Except.ok ((),
      { cu with lir := cu.lir ++
          if smp ≠ 0 then
            [Emitted.node { opcode := .kThumb2Dmb,
                            operands := [if kind = .kStoreStore then kST else kSY],
                            def_mask := some ENCODE_ALL }]
          else [] })
    ∧ kST ≠ kSY := by
  refine ⟨?_, by decide⟩
  by_cases h : smp = 0
  · subst h
    simp [GenMemBarrier, StateT.run, pure, StateT.pure, Except.pure]
  · cases kind <;>
      simp [GenMemBarrier, h, StateT.run, bind, StateT.bind, Except.bind, NewLIR1, emit,
        setDefMask, getElem?_append_length, set_append_length]

/-- C11: for every condition code and every guide string, `OpIT` aborts fatally exactly
when the guide has more than 3 characters; for the empty guide it succeeds and appends
the IT node whose mask operand is 8 (only bit 3, the terminator, set). -/
theorem C11_OpIT_fatal_iff (cu : CompilationUnit) (code : ArmConditionCode)
    (guide : List Char) :
    ((∃ msg, (OpIT code guide).run cu = Except.error msg) ↔ guide.length > 3)
    ∧ (OpIT code []).run cu = Except.ok (cu.lir.length,
        { cu with lir := cu.lir ++
            [Emitted.node { opcode := .kThumb2It, operands := [(code.toNat : Int), 8] }] }) := by
  refine ⟨?_, by cases code <;> rfl⟩
  by_cases h : guide.length > 3
  · simp [OpIT, h, StateT.run, fatal]
  · simp [OpIT, h, StateT.run, NewLIR2, emit]

/-! ### Operations that are not lowered on Arm -/

/-- C12: for every argument tuple and every compilation unit, each of `GenAddLong`,
`GenSubLong`, `GenAndLong`, `GenOrLong`, `GenXorLong`, `GenRegMemCheck`, `OpLea` and
`OpTlsCmp` ends in the fatal abort: it yields neither a result nor a compilation unit, so
it appends no instruction and returns nothing to its caller. -/
theorem C12_unsupported_fatal (cu : CompilationUnit) (rl_dest rl_src1 rl_src2 : RegLocation)
    (c_code : ConditionCode) (reg1 reg2 base : Nat) (scale offset val : Int)
    (kind : ThrowKind) :
    (GenAddLong rl_dest rl_src1 rl_src2).run cu
        = Except.error "Unexpected use of GenAddLong for Arm"
    ∧ (GenSubLong rl_dest rl_src1 rl_src2).run cu
        = Except.error "Unexpected use of GenSubLong for Arm"
    ∧ (GenAndLong rl_dest rl_src1 rl_src2).run cu
        = Except.error "Unexpected use of GenAndLong for Arm"
    ∧ (GenOrLong rl_dest rl_src1 rl_src2).run cu
        = Except.error "Unexpected use of GenOrLong for Arm"
    ∧ (GenXorLong rl_dest rl_src1 rl_src2).run cu
        = Except.error "Unexpected use of genXoLong for Arm"
    ∧ (GenRegMemCheck c_code reg1 base offset kind).run cu
        = Except.error "Unexpected use of GenRegMemCheck for Arm"
    ∧ (OpLea base reg1 reg2 scale offset).run cu
        = Except.error "Unexpected use of OpLea for Arm"
    ∧ (OpTlsCmp offset val).run cu
        = Except.error "Unexpected use of OpTlsCmp for Arm" :=
  ⟨rfl, rfl, rfl, rfl, rfl, rfl, rfl, rfl⟩

/-! ### Compare with an immediate and branch (`OpCmpImmBranch`) -/

theorem low_byte_test (lit : Int) (h1 : -2147483648 ≤ lit) (h2 : lit < 2147483648) :
    (toWord lit &&& 0xff = toWord lit) ↔ (0 ≤ lit ∧ lit ≤ 255) := by
  have h : (0xff : Nat) = 2 ^ 8 - 1 := rfl
  rw [h, Nat.and_pow_two_sub_one_eq_mod]
  unfold toWord
  omega

/-- C14: for every predicate, register, target and 32-bit literal, `OpCmpImmBranch`
succeeds and appends exactly the items of `cmpImmBlock`: when the register is low, the
literal is 0 and the encoded condition is eq or ne, a single `cbz` (eq) or `cbnz` (ne) node
on the register and no compare; otherwise one compare followed by the conditional branch
carrying the encoded condition, the compare being the compact compare-immediate when the
register is low and the literal is in `[0, 255]`, else the wide compare-immediate with
operand `ModifiedImmediate` of the literal when that is non-negative, else a load of the
literal into the temporary followed by a register-register compare.  The node returned is
the last one appended, and it carries the target. -/
theorem C14_OpCmpImmBranch_selection (cu : CompilationUnit) (cond : ConditionCode)
    (reg : Nat) (check_value : Int) (target : Target) (t_reg : Nat)
    (h1 : -2147483648 ≤ check_value) (h2 : check_value < 2147483648) :
    ∃ branch cu',
      (OpCmpImmBranch cond reg check_value target t_reg).run cu = Except.ok (branch, cu') ∧
      cu'.lir = cu.lir ++ cmpImmBlock cond reg check_value target t_reg ∧
      branch + 1 = cu'.lir.length := by
  have hb := low_byte_test check_value h1 h2
  by_cases c1 : ARM_LOWREG reg = true ∧ check_value = 0 ∧
      (ArmConditionEncoding cond = .kArmCondEq ∨ ArmConditionEncoding cond = .kArmCondNe)
  · simp only [OpCmpImmBranch, cmpImmBlock, if_pos c1, bind, StateT.bind, StateT.run,
      Except.bind, NewLIR2, emit, setTarget, getElem?_append_length, set_append_length,
      List.getElem?_cons_zero, List.set_cons_zero, pure, StateT.pure, Except.pure]
    exact ⟨_, _, rfl, rfl, by simp⟩
  · by_cases c2 : ARM_LOWREG reg = true ∧ 0 ≤ check_value ∧ check_value ≤ 255
    · have c2' : ARM_LOWREG reg = true ∧ (toWord check_value &&& 0xff) = toWord check_value :=
        ⟨c2.1, hb.mpr c2.2⟩
      simp only [OpCmpImmBranch, cmpImmBlock, if_neg c1, if_pos c2, if_pos c2', bind,
        StateT.bind, StateT.run, Except.bind, NewLIR2, emit, pure, StateT.pure, Except.pure]
      simp only [List.append_assoc, List.singleton_append, List.length_append,
        List.length_cons, List.length_nil, Nat.zero_add, setTarget,
        getElem?_append_length_add, set_append_length_add, List.getElem?_cons_succ,
        List.getElem?_cons_zero, List.set_cons_succ, List.set_cons_zero]
      exact ⟨_, _, rfl, rfl, by simp⟩
    · have c2' : ¬ (ARM_LOWREG reg = true ∧
          (toWord check_value &&& 0xff) = toWord check_value) :=
        fun h => c2 ⟨h.1, hb.mp h.2⟩
      by_cases c3 : 0 ≤ ModifiedImmediate (toWord check_value)
      · simp only [OpCmpImmBranch, cmpImmBlock, if_neg c1, if_neg c2, if_neg c2', ge_iff_le,
          if_pos c3, bind, StateT.bind, StateT.run, Except.bind, NewLIR2, emit, pure,
          StateT.pure, Except.pure]
        simp only [List.append_assoc, List.singleton_append, List.length_append,
          List.length_cons, List.length_nil, Nat.zero_add, setTarget,
          getElem?_append_length_add, set_append_length_add, List.getElem?_cons_succ,
          List.getElem?_cons_zero, List.set_cons_succ, List.set_cons_zero]
        exact ⟨_, _, rfl, rfl, by simp⟩
      · simp only [OpCmpImmBranch, cmpImmBlock, if_neg c1, if_neg c2, if_neg c2', ge_iff_le,
          if_neg c3, bind, StateT.bind, StateT.run, Except.bind, NewLIR2, emit, pure,
          StateT.pure, Except.pure, AllocTemp, call, LoadConstant, OpRegReg]
        simp only [List.append_assoc, List.singleton_append, List.cons_append,
          List.nil_append, List.length_append,
          List.length_cons, List.length_nil, Nat.zero_add, Nat.reduceAdd, setTarget,
          getElem?_append_length_add, set_append_length_add, List.getElem?_cons_succ,
          List.getElem?_cons_zero, List.set_cons_succ, List.set_cons_zero]
        exact ⟨_, _, rfl, rfl, by simp⟩

/-- Instance of the selection theorem: `r9 == 70000`, a high register and a literal
without a modified-immediate encoding, so the literal is loaded into the temporary r12. -/
theorem C14_OpCmpImmBranch_selection_witness :
    ∃ branch cu',
      (OpCmpImmBranch .kCondEq 9 70000 (Target.block 4) 12).run {} = Except.ok (branch, cu') ∧
      cu'.lir = [] ++ cmpImmBlock .kCondEq 9 70000 (Target.block 4) 12 ∧
      branch + 1 = cu'.lir.length :=
  C14_OpCmpImmBranch_selection {} .kCondEq 9 70000 (Target.block 4) 12 (by decide) (by decide)

/-- C16: for every input, `SmallLiteralDivide` either returns true, or returns false with
the compilation unit exactly as it found it: no node appended, and no collaborator call
(no `AllocTemp`, `LoadValue`, `EvalLoc` or `StoreValue`) made. -/
theorem C16_SmallLiteralDivide_decline_pure (cu : CompilationUnit) (op : Instruction.Code)
    (rl_src rl_dest : RegLocation) (lit : Int) (r_magic r_hi r_lo : Nat) :
    (SmallLiteralDivide op rl_src rl_dest lit r_magic r_hi r_lo).run cu
        = Except.ok (false, cu)
    ∨ ∃ cu', (SmallLiteralDivide op rl_src rl_dest lit r_magic r_hi r_lo).run cu
        = Except.ok (true, cu') := by
  by_cases h0 : lit < 0
  · left
    simp [SmallLiteralDivide, h0, StateT.run, bind, StateT.bind, pure, StateT.pure,
      Except.pure, Except.bind]
  · by_cases h1 : lit ≥ 16
    · left
      simp [SmallLiteralDivide, h0, h1, magic_table, StateT.run, bind, StateT.bind, pure,
        StateT.pure, Except.pure, Except.bind]
    · have h2 : 0 ≤ lit := by omega
      have h3 : lit < 16 := by omega
      by_cases hop : op = Instruction.DIV_INT_LIT8
      · interval_cases lit <;>
          simp [SmallLiteralDivide, hop, magic_table, StateT.run, bind, StateT.bind, pure,
            StateT.pure, Except.pure, Except.bind, AllocTemp, call, LoadConstant, emit,
            LoadValue, EvalLoc, NewLIR4, OpRegRegRegShift, OpRegRegImm, OpRegReg, StoreValue]
      · left
        interval_cases lit <;>
          simp [SmallLiteralDivide, hop, magic_table, StateT.run, bind, StateT.bind, pure,
            StateT.pure, Except.pure, Except.bind]

/-- C17: for every pair of general-purpose registers, `OpRegCopy` appends exactly one
node, also when the two registers coincide.  Its operands are the two registers; its opcode
is the low-low move when both are low registers, the high-high move when neither is, the
high-to-low move when only `r_dest` is low and the low-to-high move when only `r_src` is
low; and it is flagged as a no-op exactly when `r_dest = r_src` and the safe-optimizations
bit of `disable_opt` is clear. -/
theorem C17_OpRegCopy_single_move (cu : CompilationUnit) (r_dest r_src : Nat)
    (hd : ARM_FPREG r_dest = false) (hs : ARM_FPREG r_src = false) :
    ∃ opcode,
      (OpRegCopy r_dest r_src).run cu = Except.ok (cu.lir.length,
        { cu with lir := cu.lir ++
            [Emitted.node
              { opcode := opcode, operands := [(r_dest : Int), (r_src : Int)],
                is_nop := decide (r_dest = r_src ∧
                  cu.disable_opt.testBit kSafeOptimizations = false) }] })
      ∧ (ARM_LOWREG r_dest = true ∧ ARM_LOWREG r_src = true → opcode = .kThumbMovRR)
      ∧ (ARM_LOWREG r_dest = false ∧ ARM_LOWREG r_src = false → opcode = .kThumbMovRR_H2H)
      ∧ (ARM_LOWREG r_dest = true ∧ ARM_LOWREG r_src = false → opcode = .kThumbMovRR_H2L)
      ∧ (ARM_LOWREG r_dest = false ∧ ARM_LOWREG r_src = true → opcode = .kThumbMovRR_L2H) := by
  refine ⟨(moveNode cu.disable_opt r_dest r_src).opcode,
    OpRegCopy_gp cu r_dest r_src hd hs, ?_, ?_, ?_, ?_⟩ <;>
  · rintro ⟨a, b⟩
    simp [moveNode, a, b]

/-- Instance of the single-move theorem: r3 copied to itself with no optimization
disabled; the one node appended is flagged as a no-op. -/
theorem C17_OpRegCopy_single_move_witness :
    ∃ opcode,
      (OpRegCopy 3 3).run {} = Except.ok (0,
        { lir := [] ++
            [Emitted.node
              { opcode := opcode, operands := [3, 3],
                is_nop := decide ((3 : Nat) = 3 ∧
                  Nat.testBit 0 kSafeOptimizations = false) }] })
      ∧ (ARM_LOWREG 3 = true ∧ ARM_LOWREG 3 = true → opcode = .kThumbMovRR)
      ∧ (ARM_LOWREG 3 = false ∧ ARM_LOWREG 3 = false → opcode = .kThumbMovRR_H2H)
      ∧ (ARM_LOWREG 3 = true ∧ ARM_LOWREG 3 = false → opcode = .kThumbMovRR_H2L)
      ∧ (ARM_LOWREG 3 = false ∧ ARM_LOWREG 3 = true → opcode = .kThumbMovRR_L2H) :=
  C17_OpRegCopy_single_move {} 3 3 (by decide) (by decide)

/-- C18: for every wide copy between general-purpose register pairs through
`OpRegCopyWide` in which the source high register is not the destination low register and
the destination registers differ (the destination high register may be the source low
register), exactly two move nodes are appended, the move of the low half first, and
running them from outside an IT block leaves the original source low word in the
destination low register and the original source high word in the destination high
register. -/
theorem C18_OpRegCopyWide_disjoint (cu : CompilationUnit)
    (dest_lo dest_hi src_lo src_hi : Nat) (U : Nat → Flags) (m : Machine)
    (g1 : ARM_FPREG dest_lo = false) (g2 : ARM_FPREG dest_hi = false)
    (g3 : ARM_FPREG src_lo = false) (g4 : ARM_FPREG src_hi = false)
    (hov : src_hi ≠ dest_lo) (hd : dest_lo ≠ dest_hi) (hit : m.itstate = 0) :
    ∃ n1 n2 cu' m',
      (OpRegCopyWide dest_lo dest_hi src_lo src_hi).run cu = Except.ok ((), cu') ∧
      cu'.lir = cu.lir ++ [Emitted.node n1, Emitted.node n2] ∧
      n1.operands = [(dest_lo : Int), (src_lo : Int)] ∧
      n2.operands = [(dest_hi : Int), (src_hi : Int)] ∧
      run U cu.lir.length (cu'.lir.drop cu.lir.length) 4 0 m = some (Outcome.fell m') ∧
      m'.regs dest_lo = m.regs src_lo ∧ m'.regs dest_hi = m.regs src_hi := by
  obtain ⟨m', hm, hr⟩ := run_two_moves U cu.lir.length cu.disable_opt cu.disable_opt
    dest_lo src_lo dest_hi src_hi m hit
  refine ⟨moveNode cu.disable_opt dest_lo src_lo, moveNode cu.disable_opt dest_hi src_hi, _,
    m', OpRegCopyWide_gp cu dest_lo dest_hi src_lo src_hi g1 g2 g3 g4, ?_, rfl, rfl, ?_, ?_, ?_⟩
  · simp [hov]
  · simpa [hov] using hm
  · rw [hr]
    simp [Function.update_noteq hd]
  · rw [hr]
    simp [Function.update_noteq hov]

/-- Instance of the disjoint-copy theorem: the pair (r0, r1) copied to (r2, r0), where the
destination high register is the source low register. -/
theorem C18_OpRegCopyWide_disjoint_witness :
    ∃ n1 n2 cu' m',
      (OpRegCopyWide 2 0 0 1).run {} = Except.ok ((), cu') ∧
      cu'.lir = [] ++ [Emitted.node n1, Emitted.node n2] ∧
      n1.operands = [2, 0] ∧
      n2.operands = [0, 1] ∧
      run (fun _ => ⟨false, false, false, false⟩) 0 (cu'.lir.drop 0) 4 0
        ⟨fun r => if r = 0 then 5 else if r = 1 then 9 else 0,
          ⟨false, false, false, false⟩, 0, fun _ => 0⟩ = some (Outcome.fell m') ∧
      m'.regs 2 = 5 ∧ m'.regs 0 = 9 :=
  C18_OpRegCopyWide_disjoint {} 2 0 0 1 (fun _ => ⟨false, false, false, false⟩)
    ⟨fun r => if r = 0 then 5 else if r = 1 then 9 else 0,
      ⟨false, false, false, false⟩, 0, fun _ => 0⟩
    (by decide) (by decide) (by decide) (by decide) (by decide) (by decide) rfl

/-! ### 64-bit negate (`GenNegLong`) -/

theorem run_negBlock (base z rlo rhi slo hs : Nat) (U : Nat → Flags) (m : Machine)
    (hit : m.itstate = 0) :
    ∃ m', run U base (negBlock z rlo rhi slo hs) 8 0 m = some (Outcome.fell m') ∧
      m'.regs =
        Function.update
          (Function.update (Function.update m.regs z (toWord 0)) rlo
            (AddWithCarry (toWord 0)
              (NOT32 (Function.update m.regs z (toWord 0) slo)) true).1)
          rhi
          (AddWithCarry
            (Function.update (Function.update m.regs z (toWord 0)) rlo
              (AddWithCarry (toWord 0)
                (NOT32 (Function.update m.regs z (toWord 0) slo)) true).1 z)
            (NOT32 (Function.update (Function.update m.regs z (toWord 0)) rlo
              (AddWithCarry (toWord 0)
                (NOT32 (Function.update m.regs z (toWord 0) slo)) true).1 hs))
            (AddWithCarry (toWord 0)
              (NOT32 (Function.update m.regs z (toWord 0) slo)) true).2.c).1 := by
  have e0 : (negBlock z rlo rhi slo hs)[0]? = some
      (Emitted.LoadConstant z 0) := rfl
  have e1 : (negBlock z rlo rhi slo hs)[1]? = some
      (Emitted.OpRegRegReg .kOpSub rlo z slo) := rfl
  have e2 : (negBlock z rlo rhi slo hs)[2]? = some
      (Emitted.OpRegRegReg .kOpSbc rhi z hs) := rfl
  have e3 : (negBlock z rlo rhi slo hs)[3]? = none := rfl
  have hlen : (negBlock z rlo rhi slo hs).length = 3 := rfl
  have r0 := fun fuel m => run_at U base _ fuel 0 m _ e0
  have r1 := fun fuel m => run_at U base _ fuel 1 m _ e1
  have r2 := fun fuel m => run_at U base _ fuel 2 m _ e2
  have r3 := fun fuel m => run_end U base _ fuel 3 m e3 hlen
  clear e0 e1 e2 e3 hlen
  generalize negBlock z rlo rhi slo hs = prog at *
  obtain ⟨f0, f1, f2⟩ := it_state_facts
  simp only [isPseudo, itOperands, reduceCtorEq, Bool.false_or, Bool.or_false, Bool.or_true,
      beq_iff_eq, beq_self_eq_true, beq_eq_false_iff_ne,
      afterStep_next, afterStep_node, afterStep_block, step_pseudo, step_it, step_cond,
      cond_al, execute, executeNode, dataProc, softFlags, Machine.setReg, LIR.opN, LIR.op,
      List.getD_cons_zero, List.getD_cons_succ, Int.toNat_ofNat, Int.reduceToNat,
      Function.update_same, Function.update_idem,
      Bool.false_eq_true, ↓reduceIte, Nat.reduceAdd, Nat.reduceMod, Nat.reduceMul,
      Nat.reduceDiv, ne_eq, OfNat.ofNat_ne_zero,
      not_false_eq_true, not_true_eq_false, decide_True, decide_False, hit, f0, f1, f2, r0, r1, r2, r3]
  exact ⟨_, rfl, rfl⟩

theorem GenNegLong_emits (cu : CompilationUnit) (rl_dest rl_src : RegLocation)
    (z_reg t_reg : Nat) :
    (GenNegLong rl_dest rl_src z_reg t_reg).run cu = Except.ok (false,
      { cu with
        lir := cu.lir ++ negBlock z_reg rl_dest.low_reg rl_dest.high_reg rl_src.low_reg
          (if rl_dest.low_reg = rl_src.high_reg then t_reg else rl_src.high_reg),
        calls := cu.calls ++
          ([Call.LoadValueWide rl_src, Call.EvalLoc rl_dest, Call.AllocTemp z_reg] ++
            (if rl_dest.low_reg = rl_src.high_reg then
              [Call.AllocTemp t_reg, Call.FreeTemp t_reg] else []) ++
            [Call.FreeTemp z_reg, Call.StoreValueWide rl_dest rl_dest]) }) := by
  by_cases h : rl_dest.low_reg = rl_src.high_reg <;>
    simp [GenNegLong, negBlock, h, StateT.run, bind, StateT.bind, Except.bind, pure,
      StateT.pure, Except.pure, LoadValueWide, EvalLoc, AllocTemp, FreeTemp, StoreValueWide,
      call, LoadConstantNoClobber, OpRegRegReg, emit]

theorem neg_words (v : Nat) (hv : v < 18446744073709551616) :
    (AddWithCarry 0 (NOT32 (v % 4294967296)) true).1
        = (18446744073709551616 - v) % 18446744073709551616 % 4294967296 ∧
    (AddWithCarry 0 (NOT32 (v / 4294967296))
        (AddWithCarry 0 (NOT32 (v % 4294967296)) true).2.c).1
        = (18446744073709551616 - v) % 18446744073709551616 / 4294967296 := by
  have hc : (AddWithCarry 0 (NOT32 (v % 4294967296)) true).2.c
      = decide (v % 4294967296 = 0) := by
    simp only [AddWithCarry, NOT32, Bool.toNat_true, decide_eq_decide]
    omega
  rw [hc]
  by_cases h0 : v % 4294967296 = 0
  · simp only [h0, decide_True, AddWithCarry, NOT32, Bool.toNat_true]
    omega
  · simp only [h0, decide_False, AddWithCarry, NOT32, Bool.toNat_true, Bool.toNat_false]
    omega

/-- C15: for every 64-bit source value `v` held as (low, high) words in the source pair,
when the low register of the result is not the high register of the source, `GenNegLong`
succeeds and the block it emits (load of zero, subtract of the low word from zero,
subtract with borrow of the high word from zero), run from outside an IT block, leaves in
the result pair the low and high words of `(2^64 - v) mod 2^64`.  The high register of
the result may be the low register of the source.  The zero temporary is distinct from the
source registers and from the low register of the result, and the registers of the result
pair are distinct, as the allocator guarantees. -/
theorem C15_GenNegLong_plain (cu : CompilationUnit) (rl_dest rl_src : RegLocation)
    (z_reg t_reg : Nat) (v : Nat) (U : Nat → Flags) (m : Machine)
    (hv : v < 18446744073709551616) (hit : m.itstate = 0)
    (hlo : m.regs rl_src.low_reg = v % 4294967296)
    (hhi : m.regs rl_src.high_reg = v / 4294967296)
    (hov : rl_dest.low_reg ≠ rl_src.high_reg)
    (hz1 : z_reg ≠ rl_src.low_reg) (hz2 : z_reg ≠ rl_src.high_reg)
    (hz3 : z_reg ≠ rl_dest.low_reg) (hd : rl_dest.low_reg ≠ rl_dest.high_reg) :
    ∃ cu' m',
      (GenNegLong rl_dest rl_src z_reg t_reg).run cu = Except.ok (false, cu') ∧
      run U cu.lir.length (cu'.lir.drop cu.lir.length) 8 0 m = some (Outcome.fell m') ∧
      m'.regs rl_dest.low_reg
        = (18446744073709551616 - v) % 18446744073709551616 % 4294967296 ∧
      m'.regs rl_dest.high_reg
        = (18446744073709551616 - v) % 18446744073709551616 / 4294967296 := by
  obtain ⟨m', hm, hr⟩ := run_negBlock cu.lir.length z_reg rl_dest.low_reg rl_dest.high_reg
    rl_src.low_reg rl_src.high_reg U m hit
  obtain ⟨n1, n2⟩ := neg_words v hv
  have hw : toWord 0 = 0 := by decide
  refine ⟨_, m', GenNegLong_emits cu rl_dest rl_src z_reg t_reg, ?_, ?_, ?_⟩
  · simpa [hov] using hm
  · rw [hr, hw]
    simp [Function.update_noteq hd, Function.update_noteq hz1.symm, hlo, n1]
  · rw [hr, hw]
    simp [Function.update_noteq hz1.symm, Function.update_noteq hz2.symm,
      Function.update_noteq hz3, Function.update_noteq hov.symm, hlo, hhi, n2]

/-- Instance of the negate theorem: `v = 1` in (r0, r1), result in (r2, r0), zero
temporary r4; the result pair ends holding `2^64 - 1`. -/
theorem C15_GenNegLong_plain_witness :
    ∃ cu' m',
      (GenNegLong { low_reg := 2, high_reg := 0 } { low_reg := 0, high_reg := 1 } 4 3).run {}
        = Except.ok (false, cu') ∧
      run (fun _ => ⟨false, false, false, false⟩) 0 (cu'.lir.drop 0) 8 0
        ⟨fun r => if r = 0 then 1 else 0, ⟨false, false, false, false⟩, 0, fun _ => 0⟩
        = some (Outcome.fell m') ∧
      m'.regs 2 = (18446744073709551616 - 1) % 18446744073709551616 % 4294967296 ∧
      m'.regs 0 = (18446744073709551616 - 1) % 18446744073709551616 / 4294967296 :=
  C15_GenNegLong_plain {} { low_reg := 2, high_reg := 0 } { low_reg := 0, high_reg := 1 } 4 3 1
    (fun _ => ⟨false, false, false, false⟩)
    ⟨fun r => if r = 0 then 1 else 0, ⟨false, false, false, false⟩, 0, fun _ => 0⟩
    (by decide) rfl (by decide) (by decide) (by decide) (by decide) (by decide) (by decide)
    (by decide)

/-- C8, failing input: the source value 1 is held in (r0, r1) and the result pair is
(r1, r2), so the low register of the result is the high register of the source and
`GenNegLong` takes its overlap path, with zero temporary r4 and extra temporary r3, which
happens to hold 7.  The block emitted subtracts with borrow the never-written temporary r3
instead of the source high word: the result pair ends holding the low word `0xFFFFFFFF`
and the high word `0xFFFFFFF8`, while the high word of `(2^64 - 1) mod 2^64` is
`0xFFFFFFFF`. -/
theorem C8_GenNegLong_overlap_failing_input :
    ∃ cu' m',
      (GenNegLong { low_reg := 1, high_reg := 2 } { low_reg := 0, high_reg := 1 } 4 3).run {}
        = Except.ok (false, cu') ∧
      run (fun _ => ⟨false, false, false, false⟩) 0 cu'.lir 8 0
        ⟨fun r => if r = 0 then 1 else if r = 3 then 7 else 0,
          ⟨false, false, false, false⟩, 0, fun _ => 0⟩ = some (Outcome.fell m') ∧
      m'.regs 1 = 4294967295 ∧ m'.regs 2 = 4294967288 ∧
      (18446744073709551616 - 1) % 18446744073709551616 / 4294967296 = 4294967295 := by
  obtain ⟨m', hm, hr⟩ := run_negBlock 0 4 1 2 0 3 (fun _ => ⟨false, false, false, false⟩)
    ⟨fun r => if r = 0 then 1 else if r = 3 then 7 else 0,
      ⟨false, false, false, false⟩, 0, fun _ => 0⟩ rfl
  refine ⟨_, m', GenNegLong_emits {} { low_reg := 1, high_reg := 2 }
    { low_reg := 0, high_reg := 1 } 4 3, hm, ?_, ?_, by decide⟩
  · rw [hr]; decide
  · rw [hr]; decide

/-! ### Multiplication by a two-bit literal (`GenMultiplyByTwoBitMultiplier`) -/

theorem EncodeShift_lsl (d : Nat) (h : d < 32) : EncodeShift kArmLsl d = 4 * d := by
  interval_cases d <;> rfl

theorem shiftOperand_lsl (v d : Nat) (c : Bool) (h : d < 32) :
    shiftOperand v (4 * d) c = v * 2 ^ d % 4294967296 := by
  have h1 : 4 * d % 4 = 0 := by omega
  have h2 : 4 * d / 4 % 32 = d := by omega
  have h3 : d % 32 = d := Nat.mod_eq_of_lt h
  simp [shiftOperand, h1, h2, h3]

theorem two_bit_product (x f s : Nat) (hfs : f ≤ s) :
    (x + x * 2 ^ (s - f) % 4294967296) % 4294967296 * 2 ^ f % 4294967296
      = x * (2 ^ f + 2 ^ s) % 4294967296 := by
  have hs : 2 ^ s = 2 ^ (s - f) * 2 ^ f := by
    rw [← pow_add]
    congr 1
    omega
  have h1 : (x + x * 2 ^ (s - f) % 4294967296) % 4294967296
      = (x + x * 2 ^ (s - f)) % 4294967296 := by omega
  rw [h1, Nat.mod_mul_mod, hs]
  congr 1
  ring

theorem run_twoBit_one (base res src sh : Nat) (U : Nat → Flags) (m : Machine)
    (hit : m.itstate = 0) :
    ∃ m', run U base [Emitted.OpRegRegRegShift .kOpAdd res src src sh] 4 0 m
        = some (Outcome.fell m') ∧
      m'.regs res = (m.regs src + shiftOperand (m.regs src) sh m.flags.c) % 4294967296 := by
  have e0 : ([Emitted.OpRegRegRegShift .kOpAdd res src src sh])[0]? = some
      (Emitted.OpRegRegRegShift .kOpAdd res src src sh) := rfl
  have e1 : ([Emitted.OpRegRegRegShift .kOpAdd res src src sh])[1]? = none := rfl
  have hlen : ([Emitted.OpRegRegRegShift .kOpAdd res src src sh]).length = 1 := rfl
  have r0 := fun fuel m => run_at U base _ fuel 0 m _ e0
  have r1 := fun fuel m => run_end U base _ fuel 1 m e1 hlen
  clear e0 e1 hlen
  generalize [Emitted.OpRegRegRegShift .kOpAdd res src src sh] = prog at *
  obtain ⟨f0, f1, f2⟩ := it_state_facts
  simp only [isPseudo, itOperands, reduceCtorEq, Bool.false_or, Bool.or_false, Bool.or_true,
      beq_iff_eq, beq_self_eq_true, beq_eq_false_iff_ne,
      afterStep_next, afterStep_node, afterStep_block, step_pseudo, step_it, step_cond,
      cond_al, execute, executeNode, dataProc, softFlags, Machine.setReg, LIR.opN, LIR.op,
      List.getD_cons_zero, List.getD_cons_succ, Int.toNat_ofNat, Int.reduceToNat,
      Function.update_same, Function.update_idem,
      Bool.false_eq_true, ↓reduceIte, Nat.reduceAdd, Nat.reduceMod, Nat.reduceMul,
      Nat.reduceDiv, ne_eq, OfNat.ofNat_ne_zero,
      not_false_eq_true, not_true_eq_false, decide_True, decide_False, hit, f0, f1, f2, r0, r1]
  exact ⟨_, rfl, by simp⟩

theorem run_twoBit_two (base res src sh : Nat) (fb : Int) (U : Nat → Flags) (m : Machine)
    (hit : m.itstate = 0) :
    ∃ m', run U base [Emitted.OpRegRegRegShift .kOpAdd res src src sh, Emitted.OpRegRegImm .kOpLsl res res fb] 4 0 m
        = some (Outcome.fell m') ∧
      m'.regs res = (m.regs src + shiftOperand (m.regs src) sh m.flags.c) % 4294967296
          * 2 ^ fb.toNat % 4294967296 := by
  have e0 : ([Emitted.OpRegRegRegShift .kOpAdd res src src sh, Emitted.OpRegRegImm .kOpLsl res res fb])[0]? = some
      (Emitted.OpRegRegRegShift .kOpAdd res src src sh) := rfl
  have e1 : ([Emitted.OpRegRegRegShift .kOpAdd res src src sh, Emitted.OpRegRegImm .kOpLsl res res fb])[1]? = some
      (Emitted.OpRegRegImm .kOpLsl res res fb) := rfl
  have e2 : ([Emitted.OpRegRegRegShift .kOpAdd res src src sh, Emitted.OpRegRegImm .kOpLsl res res fb])[2]? = none := rfl
  have hlen : ([Emitted.OpRegRegRegShift .kOpAdd res src src sh, Emitted.OpRegRegImm .kOpLsl res res fb]).length = 2 := rfl
  have r0 := fun fuel m => run_at U base _ fuel 0 m _ e0
  have r1 := fun fuel m => run_at U base _ fuel 1 m _ e1
  have r2 := fun fuel m => run_end U base _ fuel 2 m e2 hlen
  clear e0 e1 e2 hlen
  generalize [Emitted.OpRegRegRegShift .kOpAdd res src src sh, Emitted.OpRegRegImm .kOpLsl res res fb] = prog at *
  obtain ⟨f0, f1, f2⟩ := it_state_facts
  simp only [isPseudo, itOperands, reduceCtorEq, Bool.false_or, Bool.or_false, Bool.or_true,
      beq_iff_eq, beq_self_eq_true, beq_eq_false_iff_ne,
      afterStep_next, afterStep_node, afterStep_block, step_pseudo, step_it, step_cond,
      cond_al, execute, executeNode, dataProc, softFlags, Machine.setReg, LIR.opN, LIR.op,
      List.getD_cons_zero, List.getD_cons_succ, Int.toNat_ofNat, Int.reduceToNat,
      Function.update_same, Function.update_idem,
      Bool.false_eq_true, ↓reduceIte, Nat.reduceAdd, Nat.reduceMod, Nat.reduceMul,
      Nat.reduceDiv, ne_eq, OfNat.ofNat_ne_zero,
      not_false_eq_true, not_true_eq_false, decide_True, decide_False, hit, f0, f1, f2, r0, r1, r2]
  exact ⟨_, rfl, by simp⟩

theorem GenMultiplyByTwoBitMultiplier_emits (cu : CompilationUnit)
    (rl_src rl_result : RegLocation) (lit first_bit second_bit : Int) :
    (GenMultiplyByTwoBitMultiplier rl_src rl_result lit first_bit second_bit).run cu
      = Except.ok ((),
        { cu with lir := cu.lir ++
            (Emitted.OpRegRegRegShift .kOpAdd rl_result.low_reg rl_src.low_reg rl_src.low_reg
                (EncodeShift kArmLsl (toWord (second_bit - first_bit))) ::
              if first_bit ≠ 0 then
                [Emitted.OpRegRegImm .kOpLsl rl_result.low_reg rl_result.low_reg first_bit]
              else []) }) := by
  by_cases h : first_bit = 0 <;>
    simp [GenMultiplyByTwoBitMultiplier, h, StateT.run, bind, StateT.bind, Except.bind, pure,
      StateT.pure, Except.pure, OpRegRegRegShift, OpRegRegImm, emit]

/-- C19: for every 32-bit source value `x` and every pair of bit positions
`0 ≤ first_bit < second_bit ≤ 31`, with `lit = 2^first_bit + 2^second_bit`,
`GenMultiplyByTwoBitMultiplier` succeeds and the block it emits (add of `x` and `x` shifted
left by `second_bit - first_bit`, then, unless `first_bit` is 0, a shift left by
`first_bit`), run from outside an IT block, leaves `(x * lit) mod 2^32` in the result
register. -/
theorem C19_GenMultiplyByTwoBitMultiplier_product (cu : CompilationUnit)
    (rl_src rl_result : RegLocation) (first_bit second_bit : Nat) (x : Nat)
    (U : Nat → Flags) (m : Machine)
    (hfs : first_bit < second_bit) (hs : second_bit ≤ 31) (hit : m.itstate = 0)
    (hx : m.regs rl_src.low_reg = x) :
    ∃ cu' m',
      (GenMultiplyByTwoBitMultiplier rl_src rl_result
          ((2 ^ first_bit + 2 ^ second_bit : Nat) : Int) first_bit second_bit).run cu
        = Except.ok ((), cu') ∧
      run U cu.lir.length (cu'.lir.drop cu.lir.length) 4 0 m = some (Outcome.fell m') ∧
      m'.regs rl_result.low_reg = x * (2 ^ first_bit + 2 ^ second_bit) % 4294967296 := by
  have hd : toWord ((second_bit : Int) - (first_bit : Int)) = second_bit - first_bit := by
    unfold toWord
    omega
  have hsh : EncodeShift kArmLsl (toWord ((second_bit : Int) - (first_bit : Int)))
      = 4 * (second_bit - first_bit) := by
    rw [hd]
    exact EncodeShift_lsl _ (by omega)
  have hso := fun c => shiftOperand_lsl x (second_bit - first_bit) c (by omega)
  have hprod := two_bit_product x first_bit second_bit (by omega)
  have hemit := GenMultiplyByTwoBitMultiplier_emits cu rl_src rl_result
    ((2 ^ first_bit + 2 ^ second_bit : Nat) : Int) first_bit second_bit
  rw [hsh] at hemit
  by_cases h0 : first_bit = 0
  · have hz : ¬ ((first_bit : Int) ≠ 0) := by omega
    rw [if_neg hz] at hemit
    obtain ⟨m', hm, hr⟩ := run_twoBit_one cu.lir.length rl_result.low_reg rl_src.low_reg
      (4 * (second_bit - first_bit)) U m hit
    refine ⟨_, m', hemit, ?_, ?_⟩
    · simpa using hm
    · rw [hr, hx, hso, ← hprod, h0]
      simp
  · have hne : (first_bit : Int) ≠ 0 := by omega
    rw [if_pos hne] at hemit
    obtain ⟨m', hm, hr⟩ := run_twoBit_two cu.lir.length rl_result.low_reg rl_src.low_reg
      (4 * (second_bit - first_bit)) first_bit U m hit
    refine ⟨_, m', hemit, ?_, ?_⟩
    · simpa using hm
    · rw [hr, hx, hso, ← hprod]
      simp

/-- Instance of the two-bit multiplier theorem: `x = 7`, `lit = 2^1 + 2^3 = 10`. -/
theorem C19_GenMultiplyByTwoBitMultiplier_product_witness :
    ∃ cu' m',
      (GenMultiplyByTwoBitMultiplier { low_reg := 0 } { low_reg := 1 }
          ((2 ^ 1 + 2 ^ 3 : Nat) : Int) (1 : Nat) (3 : Nat)).run {}
        = Except.ok ((), cu') ∧
      run (fun _ => ⟨false, false, false, false⟩) 0 (cu'.lir.drop 0) 4 0
        ⟨fun r => if r = 0 then 7 else 0, ⟨false, false, false, false⟩, 0, fun _ => 0⟩
        = some (Outcome.fell m') ∧
      m'.regs 1 = 7 * (2 ^ 1 + 2 ^ 3) % 4294967296 :=
  C19_GenMultiplyByTwoBitMultiplier_product {} { low_reg := 0 } { low_reg := 1 } 1 3 7
    (fun _ => ⟨false, false, false, false⟩)
    ⟨fun r => if r = 0 then 7 else 0, ⟨false, false, false, false⟩, 0, fun _ => 0⟩
    (by decide) (by decide) rfl (by decide)

/-! ### Division-by-zero check of a 64-bit divisor (`GenDivZeroCheck`) -/

theorem or_eq_zero (x y : Nat) : x ||| y = 0 ↔ x = 0 ∧ y = 0 := by
  constructor
  · intro h
    have hb : ∀ i, (x.testBit i || y.testBit i) = false := fun i => by
      rw [← Nat.testBit_or, h, Nat.zero_testBit]
    constructor <;> apply Nat.eq_of_testBit_eq <;> intro i <;> have hi := hb i <;>
      simp_all
  · rintro ⟨rfl, rfl⟩
    rfl

theorem shiftOperand_zero (v : Nat) (c : Bool) : shiftOperand v 0 c = v % 4294967296 := by
  simp [shiftOperand]

theorem cond_z (f : Flags) : ConditionPassed 0 f = f.z := rfl

theorem run_divZeroBlock (base t lo hi : Nat) (U : Nat → Flags) (m : Machine)
    (hit : m.itstate = 0) :
    ∃ m', run U base (divZeroBlock t lo hi) 4 0 m
        = some (if m.regs lo ||| m.regs hi % 4294967296 = 0
            then Outcome.threw .kThrowDivZero m' else Outcome.fell m') ∧
      m'.regs = Function.update m.regs t (m.regs lo ||| m.regs hi % 4294967296) := by
  have e0 : (divZeroBlock t lo hi)[0]? = some
      (Emitted.node { opcode := .kThumb2OrrRRRs, operands := [(t : Int), (lo : Int), (hi : Int), 0] }) := rfl
  have e1 : (divZeroBlock t lo hi)[1]? = some
      (Emitted.node { opcode := .kThumbBCond, operands := [0, 0], target := .launchpad .kThrowDivZero }) := rfl
  have e2 : (divZeroBlock t lo hi)[2]? = none := rfl
  have hlen : (divZeroBlock t lo hi).length = 2 := rfl
  have r0 := fun fuel m => run_at U base _ fuel 0 m _ e0
  have r1 := fun fuel m => run_at U base _ fuel 1 m _ e1
  have r2 := fun fuel m => run_end U base _ fuel 2 m e2 hlen
  clear e0 e1 e2 hlen
  generalize divZeroBlock t lo hi = prog at *
  obtain ⟨f0, f1, f2⟩ := it_state_facts
  simp only [isPseudo, itOperands, reduceCtorEq, Bool.false_or, Bool.or_false, Bool.or_true,
      beq_iff_eq, beq_self_eq_true, beq_eq_false_iff_ne,
      afterStep_next, afterStep_node, afterStep_block, afterStep_launchpad, step_pseudo, step_it, step_cond,
      cond_al, execute, executeNode, dataProc, softFlags, Machine.setReg, LIR.opN, LIR.op,
      List.getD_cons_zero, List.getD_cons_succ, Int.toNat_ofNat, Int.reduceToNat,
      Function.update_same, Function.update_idem,
      Bool.false_eq_true, ↓reduceIte, Nat.reduceAdd, Nat.reduceMod, Nat.reduceMul,
      Nat.reduceDiv, ne_eq, OfNat.ofNat_ne_zero,
      not_false_eq_true, not_true_eq_false, decide_True, decide_False, afterStep_ite, decide_eq_true_eq, cond_z, shiftOperand_zero,
      hit, f0, f1, f2, r0, r1, r2]
  split_ifs <;> exact ⟨_, rfl, rfl⟩

theorem GenDivZeroCheck_emits (cu : CompilationUnit) (reg_lo reg_hi t_reg : Nat) :
    (GenDivZeroCheck reg_lo reg_hi t_reg).run cu = Except.ok ((),
      { cu with
        lir := cu.lir ++ divZeroBlock t_reg reg_lo reg_hi,
        calls := cu.calls ++ [Call.AllocTemp t_reg, Call.FreeTemp t_reg] }) := by
  simp [GenDivZeroCheck, divZeroBlock, StateT.run, bind, StateT.bind, Except.bind, pure,
    StateT.pure, Except.pure, AllocTemp, FreeTemp, call, NewLIR4, GenCheck, OpCondBranch, emit,
    ArmConditionEncoding, ArmConditionCode.toNat]

/-- C20: for every 64-bit value `v` held as (low, high) words in `reg_lo` and `reg_hi`,
`GenDivZeroCheck` succeeds and the block it emits (flag-setting OR of the two halves into
the temporary, then the check on `eq`), run from outside an IT block, ends in the
divide-by-zero throw exactly when `v` is zero and falls through otherwise; in both cases
`reg_lo` and `reg_hi` hold what they held before.  The only collaborator calls are the
acquisition and the release of the temporary, both made before the check is emitted.  The
temporary is distinct from the two registers, as the allocator guarantees. -/
theorem C20_GenDivZeroCheck_throws_iff (cu : CompilationUnit) (reg_lo reg_hi t_reg : Nat)
    (v : Nat) (U : Nat → Flags) (m : Machine)
    (hv : v < 18446744073709551616) (hit : m.itstate = 0)
    (hlo : m.regs reg_lo = v % 4294967296) (hhi : m.regs reg_hi = v / 4294967296)
    (ht1 : t_reg ≠ reg_lo) (ht2 : t_reg ≠ reg_hi) :
    ∃ cu' out m',
      (GenDivZeroCheck reg_lo reg_hi t_reg).run cu = Except.ok ((), cu') ∧
      cu'.calls = cu.calls ++ [Call.AllocTemp t_reg, Call.FreeTemp t_reg] ∧
      run U cu.lir.length (cu'.lir.drop cu.lir.length) 4 0 m = some out ∧
      (out = Outcome.threw .kThrowDivZero m' ↔ v = 0) ∧
      (v ≠ 0 → out = Outcome.fell m') ∧
      m'.regs reg_lo = m.regs reg_lo ∧ m'.regs reg_hi = m.regs reg_hi := by
  obtain ⟨m', hm, hr⟩ := run_divZeroBlock cu.lir.length t_reg reg_lo reg_hi U m hit
  have hz : (m.regs reg_lo ||| m.regs reg_hi % 4294967296 = 0) ↔ v = 0 := by
    rw [or_eq_zero, hlo, hhi]
    omega
  refine ⟨_, _, m', GenDivZeroCheck_emits cu reg_lo reg_hi t_reg, rfl, by simpa using hm,
    ?_, ?_, ?_, ?_⟩
  · by_cases h0 : v = 0
    · simp [hz.mpr h0, h0]
    · have h1 : ¬ (m.regs reg_lo ||| m.regs reg_hi % 4294967296 = 0) := fun h => h0 (hz.mp h)
      simp [h1, h0]
  · intro h0
    have h1 : ¬ (m.regs reg_lo ||| m.regs reg_hi % 4294967296 = 0) := fun h => h0 (hz.mp h)
    simp [h1]
  · rw [hr, Function.update_noteq ht1.symm]
  · rw [hr, Function.update_noteq ht2.symm]

/-- Instance of the zero-check theorem: `v = 2^32` (low word zero, high word one) in
(r0, r1), temporary r2; the check falls through. -/
theorem C20_GenDivZeroCheck_throws_iff_witness :
    ∃ cu' out m',
      (GenDivZeroCheck 0 1 2).run {} = Except.ok ((), cu') ∧
      cu'.calls = [] ++ [Call.AllocTemp 2, Call.FreeTemp 2] ∧
      run (fun _ => ⟨false, false, false, false⟩) 0 (cu'.lir.drop 0) 4 0
        ⟨fun r => if r = 1 then 1 else 0, ⟨false, false, false, false⟩, 0, fun _ => 0⟩
        = some out ∧
      (out = Outcome.threw .kThrowDivZero m' ↔ 4294967296 = 0) ∧
      (4294967296 ≠ 0 → out = Outcome.fell m') ∧
      m'.regs 0 = 0 ∧ m'.regs 1 = 1 :=
  C20_GenDivZeroCheck_throws_iff {} 0 1 2 4294967296 (fun _ => ⟨false, false, false, false⟩)
    ⟨fun r => if r = 1 then 1 else 0, ⟨false, false, false, false⟩, 0, fun _ => 0⟩
    (by decide) rfl (by decide) (by decide) (by decide) (by decide)

/-! ### The compare-and-swap intrinsic (`GenInlinedCas32`) -/

theorem it_eq_te_facts :
    CurrentCond 6 = 0 ∧ InITBlock 6 = true ∧ ITAdvance 6 = 12 ∧
    CurrentCond 12 = 0 ∧ InITBlock 12 = true ∧ ITAdvance 12 = 24 ∧
    CurrentCond 24 = 1 ∧ InITBlock 24 = true ∧ ITAdvance 24 = 0 := by
  decide

theorem toNat_kSY : (kSY : Int).toNat = 15 := rfl

theorem run_casBlock_smp (base obj off ptr old exp new res : Nat) (U : Nat → Flags)
    (m : Machine) (hit : m.itstate = 0)
    (hmem : m.mem ((m.regs obj + m.regs off) % 4294967296) < 4294967296)
    (hexp : m.regs exp < 4294967296)
    (h1 : ptr ≠ exp) (h2 : ptr ≠ new) (h3 : old ≠ exp) (h4 : old ≠ new) (h5 : old ≠ ptr) :
    ∃ m', run U base (casBlock true obj off ptr old exp new res) 12 0 m = some (Outcome.fell m') ∧
      if m.mem ((m.regs obj + m.regs off) % 4294967296) = m.regs exp then
        m'.mem = Function.update m.mem ((m.regs obj + m.regs off) % 4294967296) (m.regs new)
          ∧ m'.regs res = 1
      else m'.mem = m.mem ∧ m'.regs res = 0 := by
  obtain ⟨g0, g1, g2, g3, g4, g5, g6, g7, g8⟩ := it_eq_te_facts
  have u1 : ∀ (f : Nat → Nat) v, Function.update f ptr v exp = f exp :=
    fun f v => Function.update_noteq h1.symm v f
  have u2 : ∀ (f : Nat → Nat) v, Function.update f ptr v new = f new :=
    fun f v => Function.update_noteq h2.symm v f
  have u3 : ∀ (f : Nat → Nat) v, Function.update f old v exp = f exp :=
    fun f v => Function.update_noteq h3.symm v f
  have u4 : ∀ (f : Nat → Nat) v, Function.update f old v new = f new :=
    fun f v => Function.update_noteq h4.symm v f
  have u5 : ∀ (f : Nat → Nat) v, Function.update f old v ptr = f ptr :=
    fun f v => Function.update_noteq h5.symm v f
  have c0 := cond_eq _ _ hmem hexp
  have c1 := cond_ne _ _ hmem hexp
  have e0 : (casBlock true obj off ptr old exp new res)[0]? = some
      (Emitted.node { opcode := .kThumb2Dmb, operands := [kSY], def_mask := some ENCODE_ALL }) := rfl
  have e1 : (casBlock true obj off ptr old exp new res)[1]? = some
      (Emitted.OpRegRegReg .kOpAdd ptr obj off) := rfl
  have e2 : (casBlock true obj off ptr old exp new res)[2]? = some
      (Emitted.node { opcode := .kThumb2Ldrex, operands := [(old : Int), (ptr : Int), 0] }) := rfl
  have e3 : (casBlock true obj off ptr old exp new res)[3]? = some
      (Emitted.OpRegReg .kOpCmp old exp) := rfl
  have e4 : (casBlock true obj off ptr old exp new res)[4]? = some
      (Emitted.node { opcode := .kThumb2It, operands := [0, 6] }) := rfl
  have e5 : (casBlock true obj off ptr old exp new res)[5]? = some
      (Emitted.node { opcode := .kThumb2Strex, operands := [(res : Int), (new : Int), (ptr : Int), 0] }) := rfl
  have e6 : (casBlock true obj off ptr old exp new res)[6]? = some
      (Emitted.OpRegImm .kOpXor res 1) := rfl
  have e7 : (casBlock true obj off ptr old exp new res)[7]? = some
      (Emitted.OpRegReg .kOpXor res res) := rfl
  have e8 : (casBlock true obj off ptr old exp new res)[8]? = none := rfl
  have hlen : (casBlock true obj off ptr old exp new res).length = 8 := rfl
  have r0 := fun fuel m => run_at U base _ fuel 0 m _ e0
  have r1 := fun fuel m => run_at U base _ fuel 1 m _ e1
  have r2 := fun fuel m => run_at U base _ fuel 2 m _ e2
  have r3 := fun fuel m => run_at U base _ fuel 3 m _ e3
  have r4 := fun fuel m => run_at U base _ fuel 4 m _ e4
  have r5 := fun fuel m => run_at U base _ fuel 5 m _ e5
  have r6 := fun fuel m => run_at U base _ fuel 6 m _ e6
  have r7 := fun fuel m => run_at U base _ fuel 7 m _ e7
  have r8 := fun fuel m => run_end U base _ fuel 8 m e8 hlen
  clear e0 e1 e2 e3 e4 e5 e6 e7 e8 hlen
  generalize casBlock true obj off ptr old exp new res = prog at *
  obtain ⟨f0, f1, f2⟩ := it_state_facts
  by_cases heq : m.mem ((m.regs obj + m.regs off) % 4294967296) = m.regs exp
  · simp only [if_pos heq]
    rw [decide_eq_true heq] at c0
    rw [decide_eq_false (not_not.mpr heq)] at c1
    clear heq
    simp only [isPseudo, itOperands, reduceCtorEq, Bool.false_or, Bool.or_false, Bool.or_true,
      beq_iff_eq, beq_self_eq_true, beq_eq_false_iff_ne,
      afterStep_next, afterStep_node, afterStep_block, afterStep_launchpad, step_pseudo, step_it, step_cond,
      cond_al, execute, executeNode, dataProc, softFlags, Machine.setReg, LIR.opN, LIR.op,
      List.getD_cons_zero, List.getD_cons_succ, Int.toNat_ofNat, Int.reduceToNat,
      Function.update_same, Function.update_idem,
      Bool.false_eq_true, ↓reduceIte, Nat.reduceAdd, Nat.reduceMod, Nat.reduceMul,
      Nat.reduceDiv, ne_eq, OfNat.ofNat_ne_zero,
      not_false_eq_true, not_true_eq_false, decide_True, decide_False, Nat.reducePow, Nat.add_zero, Nat.mod_mod,
      hit, f0, f1, f2, g0, g1, g2, g3, g4, g5, g6, g7, g8, u1, u2, u3, u4, u5,
      c0, c1, r0, r1, r2, r3, r4, r5, r6, r7, r8]
    exact ⟨_, rfl, rfl, by simp; decide⟩
  · simp only [if_neg heq]
    rw [decide_eq_false heq] at c0
    rw [decide_eq_true heq] at c1
    clear heq
    simp only [isPseudo, itOperands, reduceCtorEq, Bool.false_or, Bool.or_false, Bool.or_true,
      beq_iff_eq, beq_self_eq_true, beq_eq_false_iff_ne,
      afterStep_next, afterStep_node, afterStep_block, afterStep_launchpad, step_pseudo, step_it, step_cond,
      cond_al, execute, executeNode, dataProc, softFlags, Machine.setReg, LIR.opN, LIR.op,
      List.getD_cons_zero, List.getD_cons_succ, Int.toNat_ofNat, Int.reduceToNat,
      Function.update_same, Function.update_idem,
      Bool.false_eq_true, ↓reduceIte, Nat.reduceAdd, Nat.reduceMod, Nat.reduceMul,
      Nat.reduceDiv, ne_eq, OfNat.ofNat_ne_zero,
      not_false_eq_true, not_true_eq_false, decide_True, decide_False, Nat.reducePow, Nat.add_zero, Nat.mod_mod,
      hit, f0, f1, f2, g0, g1, g2, g3, g4, g5, g6, g7, g8, u1, u2, u3, u4, u5,
      c0, c1, r0, r1, r2, r3, r4, r5, r6, r7, r8]
    exact ⟨_, rfl, rfl, by simp⟩

theorem run_casBlock_up (base obj off ptr old exp new res : Nat) (U : Nat → Flags)
    (m : Machine) (hit : m.itstate = 0)
    (hmem : m.mem ((m.regs obj + m.regs off) % 4294967296) < 4294967296)
    (hexp : m.regs exp < 4294967296)
    (h1 : ptr ≠ exp) (h2 : ptr ≠ new) (h3 : old ≠ exp) (h4 : old ≠ new) (h5 : old ≠ ptr) :
    ∃ m', run U base (casBlock false obj off ptr old exp new res) 12 0 m = some (Outcome.fell m') ∧
      if m.mem ((m.regs obj + m.regs off) % 4294967296) = m.regs exp then
        m'.mem = Function.update m.mem ((m.regs obj + m.regs off) % 4294967296) (m.regs new)
          ∧ m'.regs res = 1
      else m'.mem = m.mem ∧ m'.regs res = 0 := by
  obtain ⟨g0, g1, g2, g3, g4, g5, g6, g7, g8⟩ := it_eq_te_facts
  have u1 : ∀ (f : Nat → Nat) v, Function.update f ptr v exp = f exp :=
    fun f v => Function.update_noteq h1.symm v f
  have u2 : ∀ (f : Nat → Nat) v, Function.update f ptr v new = f new :=
    fun f v => Function.update_noteq h2.symm v f
  have u3 : ∀ (f : Nat → Nat) v, Function.update f old v exp = f exp :=
    fun f v => Function.update_noteq h3.symm v f
  have u4 : ∀ (f : Nat → Nat) v, Function.update f old v new = f new :=
    fun f v => Function.update_noteq h4.symm v f
  have u5 : ∀ (f : Nat → Nat) v, Function.update f old v ptr = f ptr :=
    fun f v => Function.update_noteq h5.symm v f
  have c0 := cond_eq _ _ hmem hexp
  have c1 := cond_ne _ _ hmem hexp
  have e0 : (casBlock false obj off ptr old exp new res)[0]? = some
      (Emitted.OpRegRegReg .kOpAdd ptr obj off) := rfl
  have e1 : (casBlock false obj off ptr old exp new res)[1]? = some
      (Emitted.node { opcode := .kThumb2Ldrex, operands := [(old : Int), (ptr : Int), 0] }) := rfl
  have e2 : (casBlock false obj off ptr old exp new res)[2]? = some
      (Emitted.OpRegReg .kOpCmp old exp) := rfl
  have e3 : (casBlock false obj off ptr old exp new res)[3]? = some
      (Emitted.node { opcode := .kThumb2It, operands := [0, 6] }) := rfl
  have e4 : (casBlock false obj off ptr old exp new res)[4]? = some
      (Emitted.node { opcode := .kThumb2Strex, operands := [(res : Int), (new : Int), (ptr : Int), 0] }) := rfl
  have e5 : (casBlock false obj off ptr old exp new res)[5]? = some
      (Emitted.OpRegImm .kOpXor res 1) := rfl
  have e6 : (casBlock false obj off ptr old exp new res)[6]? = some
      (Emitted.OpRegReg .kOpXor res res) := rfl
  have e7 : (casBlock false obj off ptr old exp new res)[7]? = none := rfl
  have hlen : (casBlock false obj off ptr old exp new res).length = 7 := rfl
  have r0 := fun fuel m => run_at U base _ fuel 0 m _ e0
  have r1 := fun fuel m => run_at U base _ fuel 1 m _ e1
  have r2 := fun fuel m => run_at U base _ fuel 2 m _ e2
  have r3 := fun fuel m => run_at U base _ fuel 3 m _ e3
  have r4 := fun fuel m => run_at U base _ fuel 4 m _ e4
  have r5 := fun fuel m => run_at U base _ fuel 5 m _ e5
  have r6 := fun fuel m => run_at U base _ fuel 6 m _ e6
  have r7 := fun fuel m => run_end U base _ fuel 7 m e7 hlen
  clear e0 e1 e2 e3 e4 e5 e6 e7 hlen
  generalize casBlock false obj off ptr old exp new res = prog at *
  obtain ⟨f0, f1, f2⟩ := it_state_facts
  by_cases heq : m.mem ((m.regs obj + m.regs off) % 4294967296) = m.regs exp
  · simp only [if_pos heq]
    rw [decide_eq_true heq] at c0
    rw [decide_eq_false (not_not.mpr heq)] at c1
    clear heq
    simp only [isPseudo, itOperands, reduceCtorEq, Bool.false_or, Bool.or_false, Bool.or_true,
      beq_iff_eq, beq_self_eq_true, beq_eq_false_iff_ne,
      afterStep_next, afterStep_node, afterStep_block, afterStep_launchpad, step_pseudo, step_it, step_cond,
      cond_al, execute, executeNode, dataProc, softFlags, Machine.setReg, LIR.opN, LIR.op,
      List.getD_cons_zero, List.getD_cons_succ, Int.toNat_ofNat, Int.reduceToNat,
      Function.update_same, Function.update_idem,
      Bool.false_eq_true, ↓reduceIte, Nat.reduceAdd, Nat.reduceMod, Nat.reduceMul,
      Nat.reduceDiv, ne_eq, OfNat.ofNat_ne_zero,
      not_false_eq_true, not_true_eq_false, decide_True, decide_False, Nat.reducePow, Nat.add_zero, Nat.mod_mod,
      hit, f0, f1, f2, g0, g1, g2, g3, g4, g5, g6, g7, g8, u1, u2, u3, u4, u5,
      c0, c1, r0, r1, r2, r3, r4, r5, r6, r7]
    exact ⟨_, rfl, rfl, by simp; decide⟩
  · simp only [if_neg heq]
    rw [decide_eq_false heq] at c0
    rw [decide_eq_true heq] at c1
    clear heq
    simp only [isPseudo, itOperands, reduceCtorEq, Bool.false_or, Bool.or_false, Bool.or_true,
      beq_iff_eq, beq_self_eq_true, beq_eq_false_iff_ne,
      afterStep_next, afterStep_node, afterStep_block, afterStep_launchpad, step_pseudo, step_it, step_cond,
      cond_al, execute, executeNode, dataProc, softFlags, Machine.setReg, LIR.opN, LIR.op,
      List.getD_cons_zero, List.getD_cons_succ, Int.toNat_ofNat, Int.reduceToNat,
      Function.update_same, Function.update_idem,
      Bool.false_eq_true, ↓reduceIte, Nat.reduceAdd, Nat.reduceMod, Nat.reduceMul,
      Nat.reduceDiv, ne_eq, OfNat.ofNat_ne_zero,
      not_false_eq_true, not_true_eq_false, decide_True, decide_False, Nat.reducePow, Nat.add_zero, Nat.mod_mod,
      hit, f0, f1, f2, g0, g1, g2, g3, g4, g5, g6, g7, g8, u1, u2, u3, u4, u5,
      c0, c1, r0, r1, r2, r3, r4, r5, r6, r7]
    exact ⟨_, rfl, rfl, by simp⟩

theorem GenMemBarrier_StoreLoad (cu : CompilationUnit) (smp : Nat) :
    GenMemBarrier smp .kStoreLoad cu = Except.ok ((),
      { cu with lir := cu.lir ++
          if smp ≠ 0 then
            [Emitted.node { opcode := .kThumb2Dmb, operands := [kSY],
                            def_mask := some ENCODE_ALL }]
          else [] }) := by
  by_cases h : smp = 0
  · subst h
    simp [GenMemBarrier, pure, StateT.pure, Except.pure]
  · simp [GenMemBarrier, h, bind, StateT.bind, Except.bind, NewLIR1, emit,
      setDefMask, getElem?_append_length, set_append_length]

theorem OpIT_Eq_TE (cu : CompilationUnit) :
    OpIT .kArmCondEq ['T', 'E'] cu = Except.ok (cu.lir.length,
      { cu with lir := cu.lir ++ [Emitted.node { opcode := .kThumb2It, operands := [0, 6] }] }) :=
  rfl

theorem GenInlinedCas32_emits (cu : CompilationUnit) (smp : Nat) (info : CallInfo)
    (need_write_barrier : Bool) (r_ptr r_old_value : Nat) :
    (GenInlinedCas32 smp info need_write_barrier r_ptr r_old_value).run cu = Except.ok (true,
      { cu with
        lir := cu.lir ++ casBlock (decide (smp ≠ 0)) (info.args.getD 1 {}).low_reg
          (info.args.getD 2 {}).low_reg r_ptr r_old_value (info.args.getD 4 {}).low_reg
          (info.args.getD 5 {}).low_reg info.result.low_reg,
        calls := cu.calls ++ casCalls info need_write_barrier r_ptr r_old_value }) := by
  simp only [GenInlinedCas32, bind, StateT.bind, StateT.run, InlineTarget, pure, StateT.pure,
    Except.pure, Except.bind, GenMemBarrier_StoreLoad]
  by_cases h : smp = 0 <;> cases need_write_barrier <;>
    simp only [h, LoadValue, call, bind, StateT.bind, pure, StateT.pure, Except.pure,
      Except.bind, MarkGCCard, AllocTemp, OpRegRegReg, emit, ClobberSReg, FreeTemp, NewLIR3,
      NewLIR4, OpRegReg, EvalLoc, OpIT_Eq_TE, OpRegImm, StoreValue, ne_eq, not_true_eq_false,
      not_false_eq_true, if_true, if_false, Bool.false_eq_true] <;>
    simp [casBlock, casCalls, h]

/-- C6: for the block `GenInlinedCas32` emits (barrier in a multi-core build, address
computation, exclusive load, compare, and the group predicated by `OpIT(eq, "TE")`), run
from outside an IT block with no interference (an attempted exclusive store succeeds with
status 0): the routine returns true, and if the word loaded from object + offset equals
the expected value, memory ends with the new value stored at that address and the result
register holds exactly 1; if it differs, memory is unchanged and the result register holds
exactly 0.  The address temporary and the old-value temporary are distinct from each other
and from the registers of the expected and the new value, as the allocator guarantees. -/
theorem C6_GenInlinedCas32_result (cu : CompilationUnit) (smp : Nat) (info : CallInfo)
    (need_write_barrier : Bool) (r_ptr r_old_value : Nat) (U : Nat → Flags) (m : Machine)
    (hit : m.itstate = 0)
    (hmem : m.mem ((m.regs (info.args.getD 1 {}).low_reg
      + m.regs (info.args.getD 2 {}).low_reg) % 4294967296) < 4294967296)
    (hexp : m.regs (info.args.getD 4 {}).low_reg < 4294967296)
    (h1 : r_ptr ≠ (info.args.getD 4 {}).low_reg) (h2 : r_ptr ≠ (info.args.getD 5 {}).low_reg)
    (h3 : r_old_value ≠ (info.args.getD 4 {}).low_reg)
    (h4 : r_old_value ≠ (info.args.getD 5 {}).low_reg) (h5 : r_old_value ≠ r_ptr) :
    ∃ cu' m',
      (GenInlinedCas32 smp info need_write_barrier r_ptr r_old_value).run cu
        = Except.ok (true, cu') ∧
      run U cu.lir.length (cu'.lir.drop cu.lir.length) 12 0 m = some (Outcome.fell m') ∧
      if m.mem ((m.regs (info.args.getD 1 {}).low_reg
          + m.regs (info.args.getD 2 {}).low_reg) % 4294967296)
          = m.regs (info.args.getD 4 {}).low_reg then
        m'.mem = Function.update m.mem
            ((m.regs (info.args.getD 1 {}).low_reg
              + m.regs (info.args.getD 2 {}).low_reg) % 4294967296)
            (m.regs (info.args.getD 5 {}).low_reg)
          ∧ m'.regs info.result.low_reg = 1
      else m'.mem = m.mem ∧ m'.regs info.result.low_reg = 0 := by
  by_cases hs : smp = 0
  · obtain ⟨m', hm, hr⟩ := run_casBlock_up cu.lir.length (info.args.getD 1 {}).low_reg
      (info.args.getD 2 {}).low_reg r_ptr r_old_value (info.args.getD 4 {}).low_reg
      (info.args.getD 5 {}).low_reg info.result.low_reg U m hit hmem hexp h1 h2 h3 h4 h5
    exact ⟨_, m', GenInlinedCas32_emits cu smp info need_write_barrier r_ptr r_old_value,
      by simpa [hs] using hm, hr⟩
  · obtain ⟨m', hm, hr⟩ := run_casBlock_smp cu.lir.length (info.args.getD 1 {}).low_reg
      (info.args.getD 2 {}).low_reg r_ptr r_old_value (info.args.getD 4 {}).low_reg
      (info.args.getD 5 {}).low_reg info.result.low_reg U m hit hmem hexp h1 h2 h3 h4 h5
    exact ⟨_, m', GenInlinedCas32_emits cu smp info need_write_barrier r_ptr r_old_value,
      by simpa [hs] using hm, hr⟩

/-- Instance of the compare-and-swap theorem, multi-core build: object in r0 (100), offset
in r1 (8), expected value in r2 (42), new value in r3 (77), result in r4, temporaries r5
and r6, and the word at address 108 equal to the expected value 42; the new value is
stored and the result is 1. -/
theorem C6_GenInlinedCas32_result_witness :
    ∃ cu' m',
      (GenInlinedCas32 1
          ⟨[{}, { low_reg := 0 }, { low_reg := 1 }, {}, { low_reg := 2 }, { low_reg := 3 }],
            { low_reg := 4 }⟩ false 5 6).run {} = Except.ok (true, cu') ∧
      run (fun _ => ⟨false, false, false, false⟩) 0 (cu'.lir.drop 0) 12 0
        ⟨fun r => if r = 0 then 100 else if r = 1 then 8 else if r = 2 then 42
            else if r = 3 then 77 else 0,
          ⟨false, false, false, false⟩, 0, fun a => if a = 108 then 42 else 0⟩
        = some (Outcome.fell m') ∧
      if (fun a => if a = 108 then 42 else 0) ((100 + 8) % 4294967296) = 42 then
        m'.mem = Function.update (fun a => if a = 108 then 42 else 0)
            ((100 + 8) % 4294967296) 77
          ∧ m'.regs 4 = 1
      else m'.mem = (fun a => if a = 108 then 42 else 0) ∧ m'.regs 4 = 0 :=
  C6_GenInlinedCas32_result {} 1
    ⟨[{}, { low_reg := 0 }, { low_reg := 1 }, {}, { low_reg := 2 }, { low_reg := 3 }],
      { low_reg := 4 }⟩ false 5 6 (fun _ => ⟨false, false, false, false⟩)
    ⟨fun r => if r = 0 then 100 else if r = 1 then 8 else if r = 2 then 42
        else if r = 3 then 77 else 0,
      ⟨false, false, false, false⟩, 0, fun a => if a = 108 then 42 else 0⟩
    rfl (by decide) (by decide) (by decide) (by decide) (by decide) (by decide) (by decide)

/-! ### Temporaries acquired and released -/

theorem SmallLiteralDivide_temps (cu : CompilationUnit) (op : Instruction.Code)
    (rl_src rl_dest : RegLocation) (lit : Int) (r_magic r_hi r_lo : Nat) :
    (SmallLiteralDivide op rl_src rl_dest lit r_magic r_hi r_lo).run cu
        = Except.ok (false, cu)
    ∨ ∃ cu', (SmallLiteralDivide op rl_src rl_dest lit r_magic r_hi r_lo).run cu
        = Except.ok (true, cu') ∧
      liveTemps (cu'.calls.drop cu.calls.length) = [r_magic, r_hi, r_lo] := by
  by_cases h0 : lit < 0
  · left
    simp [SmallLiteralDivide, h0, StateT.run, bind, StateT.bind, pure, StateT.pure,
      Except.pure, Except.bind]
  · by_cases h1 : lit ≥ 16
    · left
      simp [SmallLiteralDivide, h0, h1, magic_table, StateT.run, bind, StateT.bind, pure,
        StateT.pure, Except.pure, Except.bind]
    · have h2 : 0 ≤ lit := by omega
      have h3 : lit < 16 := by omega
      by_cases hop : op = Instruction.DIV_INT_LIT8
      · interval_cases lit <;>
          simp [SmallLiteralDivide, hop, magic_table, StateT.run, bind, StateT.bind, pure,
            StateT.pure, Except.pure, Except.bind, AllocTemp, call, LoadConstant, emit,
            LoadValue, EvalLoc, NewLIR4, OpRegRegRegShift, OpRegRegImm, OpRegReg, StoreValue,
            liveTemps, liveTempsFrom]
      · left
        interval_cases lit <;>
          simp [SmallLiteralDivide, hop, magic_table, StateT.run, bind, StateT.bind, pure,
            StateT.pure, Except.pure, Except.bind]

theorem GenNegLong_temps (cu : CompilationUnit) (rl_dest rl_src : RegLocation)
    (z_reg t_reg : Nat) :
    ∃ cu', (GenNegLong rl_dest rl_src z_reg t_reg).run cu = Except.ok (false, cu') ∧
      liveTemps (cu'.calls.drop cu.calls.length) = [] := by
  refine ⟨_, GenNegLong_emits cu rl_dest rl_src z_reg t_reg, ?_⟩
  by_cases h : rl_dest.low_reg = rl_src.high_reg <;> by_cases hz : z_reg = t_reg <;>
    simp [liveTemps, liveTempsFrom, h, hz, List.erase_cons]

theorem cas_live (p old a b : Nat) :
    liveTempsFrom [] [Call.AllocTemp p, Call.FreeTemp a, Call.FreeTemp b, Call.AllocTemp old,
      Call.FreeTemp old, Call.FreeTemp p] = [] := by
  by_cases h1 : p = a <;> by_cases h2 : p = b <;> by_cases h3 : p = old <;>
    simp [liveTempsFrom, List.erase_cons, h1, h2, h3] <;>
    simp_all [liveTempsFrom, List.erase_cons]

theorem GenInlinedCas32_temps (cu : CompilationUnit) (smp : Nat) (info : CallInfo)
    (need_write_barrier : Bool) (r_ptr r_old_value : Nat) :
    ∃ cu', (GenInlinedCas32 smp info need_write_barrier r_ptr r_old_value).run cu
        = Except.ok (true, cu') ∧
      liveTemps (cu'.calls.drop cu.calls.length) = [] := by
  refine ⟨_, GenInlinedCas32_emits cu smp info need_write_barrier r_ptr r_old_value, ?_⟩
  have h := cas_live r_ptr r_old_value (info.args.getD 1 {}).low_reg
    (info.args.getD 2 {}).low_reg
  cases need_write_barrier <;>
    simpa only [List.drop_left, casCalls, liveTemps, liveTempsFrom, List.cons_append,
      List.nil_append, Bool.false_eq_true, if_false, if_true, List.append_nil] using h

theorem OpCmpImmBranch_temps (cu : CompilationUnit) (cond : ConditionCode) (reg : Nat)
    (check_value : Int) (target : Target) (t_reg : Nat) :
    ∃ branch cu',
      (OpCmpImmBranch cond reg check_value target t_reg).run cu = Except.ok (branch, cu') ∧
      liveTemps (cu'.calls.drop cu.calls.length) =
        if (ARM_LOWREG reg = true ∧ check_value = 0 ∧
              (ArmConditionEncoding cond = .kArmCondEq ∨ ArmConditionEncoding cond = .kArmCondNe))
            ∨ (ARM_LOWREG reg = true ∧ (toWord check_value &&& 0xff) = toWord check_value)
            ∨ 0 ≤ ModifiedImmediate (toWord check_value)
        then [] else [t_reg] := by
  by_cases c1 : ARM_LOWREG reg = true ∧ check_value = 0 ∧
      (ArmConditionEncoding cond = .kArmCondEq ∨ ArmConditionEncoding cond = .kArmCondNe)
  · simp only [OpCmpImmBranch, if_pos c1, bind, StateT.bind, StateT.run,
      Except.bind, NewLIR2, emit, setTarget, getElem?_append_length, set_append_length,
      List.getElem?_cons_zero, List.set_cons_zero, pure, StateT.pure, Except.pure]
    exact ⟨_, _, rfl, by simp [c1, liveTemps, liveTempsFrom]⟩
  · by_cases c2 : ARM_LOWREG reg = true ∧ (toWord check_value &&& 0xff) = toWord check_value
    · simp only [OpCmpImmBranch, if_neg c1, if_pos c2, bind,
        StateT.bind, StateT.run, Except.bind, NewLIR2, emit, pure, StateT.pure, Except.pure]
      simp only [List.append_assoc, List.singleton_append, List.length_append,
        List.length_cons, List.length_nil, Nat.zero_add, setTarget,
        getElem?_append_length_add, set_append_length_add, List.getElem?_cons_succ,
        List.getElem?_cons_zero, List.set_cons_succ, List.set_cons_zero]
      exact ⟨_, _, rfl, by simp [c2, liveTemps, liveTempsFrom]⟩
    · by_cases c3 : 0 ≤ ModifiedImmediate (toWord check_value)
      · simp only [OpCmpImmBranch, if_neg c1, if_neg c2, ge_iff_le,
          if_pos c3, bind, StateT.bind, StateT.run, Except.bind, NewLIR2, emit, pure,
          StateT.pure, Except.pure]
        simp only [List.append_assoc, List.singleton_append, List.length_append,
          List.length_cons, List.length_nil, Nat.zero_add, setTarget,
          getElem?_append_length_add, set_append_length_add, List.getElem?_cons_succ,
          List.getElem?_cons_zero, List.set_cons_succ, List.set_cons_zero]
        exact ⟨_, _, rfl, by simp [c3, liveTemps, liveTempsFrom]⟩
      · have c4 : ¬ ((ARM_LOWREG reg = true ∧ check_value = 0 ∧
            (ArmConditionEncoding cond = .kArmCondEq ∨
              ArmConditionEncoding cond = .kArmCondNe))
            ∨ (ARM_LOWREG reg = true ∧ (toWord check_value &&& 0xff) = toWord check_value)
            ∨ 0 ≤ ModifiedImmediate (toWord check_value)) := by
          rintro (h | h | h)
          · exact c1 h
          · exact c2 h
          · exact c3 h
        rw [if_neg c4]
        simp only [OpCmpImmBranch, if_neg c1, if_neg c2, ge_iff_le,
          if_neg c3, bind, StateT.bind, StateT.run, Except.bind, NewLIR2, emit, pure,
          StateT.pure, Except.pure, AllocTemp, call, LoadConstant, OpRegReg]
        simp only [List.append_assoc, List.singleton_append, List.cons_append,
          List.nil_append, List.length_append,
          List.length_cons, List.length_nil, Nat.zero_add, Nat.reduceAdd, setTarget,
          getElem?_append_length_add, set_append_length_add, List.getElem?_cons_succ,
          List.getElem?_cons_zero, List.set_cons_succ, List.set_cons_zero]
        exact ⟨_, _, rfl, by simp [liveTemps, liveTempsFrom]⟩

/-- C13, counterexample: `SmallLiteralDivide` for `DIV_INT_LIT8` and the literal 3, with
the temporaries r4, r5 and r6 handed out by `AllocTemp`, returns true, and the log of its
collaborator calls leaves all three temporaries allocated: it never calls `FreeTemp`. -/
theorem C13_SmallLiteralDivide_keeps_temps_counterexample :
    ∃ cu',
      (SmallLiteralDivide Instruction.DIV_INT_LIT8 { low_reg := 0 } { low_reg := 1 } 3
        4 5 6).run {} = Except.ok (true, cu') ∧
      liveTemps cu'.calls = [4, 5, 6] ∧ liveTemps cu'.calls ≠ [] :=
  ⟨_, rfl, by decide, by decide⟩

/-- C13, amended: `GenCmpLong`, `GenInlinedCas32`, `GenDivZeroCheck` and `GenNegLong`
succeed for every input and, on every path, the collaborator calls they make leave none of
the temporaries they acquired allocated.  `SmallLiteralDivide` either declines with the
compilation unit unchanged or returns true with its three temporaries `r_magic`, `r_hi`
and `r_lo` still allocated; `OpCmpImmBranch` returns with no temporary allocated on the
paths that compare with an immediate, and with `t_reg` still allocated on the path that
loads the literal into it. -/
theorem C13_temporaries_released (cu : CompilationUnit)
    (rl_dest rl_src1 rl_src2 : RegLocation) (t_reg z_reg r_ptr r_old_value : Nat)
    (smp : Nat) (info : CallInfo) (need_write_barrier : Bool) (reg_lo reg_hi : Nat)
    (op : Instruction.Code) (lit : Int) (r_magic r_hi r_lo : Nat)
    (cond : ConditionCode) (reg : Nat) (check_value : Int) (target : Target) :
    (∃ cu', (GenCmpLong rl_dest rl_src1 rl_src2 t_reg).run cu = Except.ok ((), cu') ∧
      liveTemps (cu'.calls.drop cu.calls.length) = [])
    ∧ (∃ cu', (GenInlinedCas32 smp info need_write_barrier r_ptr r_old_value).run cu
        = Except.ok (true, cu') ∧
      liveTemps (cu'.calls.drop cu.calls.length) = [])
    ∧ (∃ cu', (GenDivZeroCheck reg_lo reg_hi t_reg).run cu = Except.ok ((), cu') ∧
      liveTemps (cu'.calls.drop cu.calls.length) = [])
    ∧ (∃ cu', (GenNegLong rl_dest rl_src1 z_reg t_reg).run cu = Except.ok (false, cu') ∧
      liveTemps (cu'.calls.drop cu.calls.length) = [])
    ∧ ((SmallLiteralDivide op rl_src1 rl_dest lit r_magic r_hi r_lo).run cu
          = Except.ok (false, cu)
      ∨ ∃ cu', (SmallLiteralDivide op rl_src1 rl_dest lit r_magic r_hi r_lo).run cu
          = Except.ok (true, cu') ∧
        liveTemps (cu'.calls.drop cu.calls.length) = [r_magic, r_hi, r_lo])
    ∧ (∃ branch cu',
        (OpCmpImmBranch cond reg check_value target t_reg).run cu
          = Except.ok (branch, cu') ∧
        liveTemps (cu'.calls.drop cu.calls.length) =
          if (ARM_LOWREG reg = true ∧ check_value = 0 ∧
                (ArmConditionEncoding cond = .kArmCondEq ∨
                  ArmConditionEncoding cond = .kArmCondNe))
              ∨ (ARM_LOWREG reg = true ∧
                  (toWord check_value &&& 0xff) = toWord check_value)
              ∨ 0 ≤ ModifiedImmediate (toWord check_value)
          then [] else [t_reg]) := by
  refine ⟨?_, GenInlinedCas32_temps cu smp info need_write_barrier r_ptr r_old_value, ?_,
    GenNegLong_temps cu rl_dest rl_src1 z_reg t_reg,
    SmallLiteralDivide_temps cu op rl_src1 rl_dest lit r_magic r_hi r_lo,
    OpCmpImmBranch_temps cu cond reg check_value target t_reg⟩
  · obtain ⟨cu', hrun, -, hcalls⟩ := GenCmpLong_emits cu rl_dest rl_src1 rl_src2 t_reg
    refine ⟨cu', hrun, ?_⟩
    rw [hcalls]
    simp [liveTemps, liveTempsFrom]
  · refine ⟨_, GenDivZeroCheck_emits cu reg_lo reg_hi t_reg, ?_⟩
    simp [liveTemps, liveTempsFrom]

end Art
